import Mathlib

/-!
# brightnessd: brightness controller and dimming policy

A shallow embedding of `src/brightnessd.c`.

* 32-bit signed arithmetic (`int32_t`) is modelled on `Int` with an explicit
  two's-complement wrap-around (`wrap32`); a division by zero, or the division
  of `INT32_MIN` by `-1`, kills the process (SIGFPE) and is modelled as a trap.
* `uint8_t` values are natural numbers; the cast `(uint8_t)` is `uint8_cast`.
* The two controller variants (`_operation_handler_file`,
  `_operation_handler_randr`) run over explicit device states that also record
  every value handed to the backend write.
* The event handlers are parametric in the controller (`Backend`), as the
  C code selects it at compile time through `operation_handler`.
-/

namespace Brightnessd

/-! ## Constants -/

/-- The C macro `NO_BRIGHTNESS`. -/
def NO_BRIGHTNESS : Int := -1

/-- The C macro `BRN_PRIORSCRSVR_UNDEFINED` (0xff). -/
def BRN_PRIORSCRSVR_UNDEFINED : Nat := 255

/-- The C macro `RET_OK`. -/
def RET_OK : Nat := 0

/-- The value of `EXIT_FAILURE` from `stdlib.h`. -/
def EXIT_FAILURE : Nat := 1

/-! ## Machine arithmetic -/

/-- Two's-complement reduction of an integer to the `int32_t` range. -/
def wrap32 (x : Int) : Int := (x + 2147483648) % 4294967296 - 2147483648

/-- The `int32_t` addition. -/
def add32 (a b : Int) : Int := wrap32 (a + b)

/-- The `int32_t` subtraction. -/
def sub32 (a b : Int) : Int := wrap32 (a - b)

/-- The `int32_t` multiplication. -/
def mul32 (a b : Int) : Int := wrap32 (a * b)

/-- The `int32_t` division, truncating toward zero; `none` when the division traps. -/
def div32 (a b : Int) : Option Int :=
  if b = 0 then none
  else if a = -2147483648 ∧ b = -1 then none
  else some (Int.tdiv a b)

/-- The cast `(uint8_t) x` of an `int32_t`. -/
def uint8_cast (x : Int) : Nat := (x % 256).toNat

/-- Whether an exact integer lies in the `int32_t` range. -/
def fits32 (x : Int) : Prop := -2147483648 ≤ x ∧ x ≤ 2147483647

instance (x : Int) : Decidable (fits32 x) := by
  unfold fits32
  exact inferInstance

/-! ## Types -/

/-- The C enum `state_t`. -/
inductive state_t
  | STATE_DPMS_STANDBY
  | STATE_DPMS_SUSPEND
  | STATE_DPMS_OFF
  | STATE_SCREENSAVER_ON_TIMEOUT
  | STATE_SCREENSAVER_ON_INTERVAL
  | STATE_SCREENSAVER_OFF
  | STATE_SCREENSAVER_CYCLE
  | STATE_SCREENSAVER_DISABLED
  | STATE_UNKNOWN
  deriving DecidableEq, Repr

/-- The C enum `operations_t`. -/
inductive operations_t
  | OPERATION_GETBRIGHTNESS
  | OPERATION_SETBRIGHTNESS
  | OPERATION_INCBRIGHTNESS
  | OPERATION_DECBRIGHTNESS
  deriving DecidableEq, Repr

open state_t operations_t

/-- The C struct `Teventstate`. -/
structure Teventstate where
  brn_cur_perc : Nat
  brn_old_perc : Nat
  brn_priorscrsvr_perc : Nat
  brn_interval_set : Bool
  deriving DecidableEq, Repr

/-- The initial value of the global `gs_eventstate`. -/
def gs_eventstate : Teventstate :=
  { brn_cur_perc := 0
    brn_old_perc := 0
    brn_priorscrsvr_perc := BRN_PRIORSCRSVR_UNDEFINED
    brn_interval_set := false }

/-- The fields of the C struct `Tglobalstate` that `query_state` reads or writes. -/
structure Tglobalstate where
  screensaver_timeout : Nat
  screensaver_interval : Nat
  dpms_power_level : Nat
  screensaver_idlesecuser : Nat
  state : state_t
  screensaver_state : Nat
  deriving DecidableEq, Repr

/-- How one call of `operation_handler` ends: it returns its boolean, having
stored `out` through `brn_cur_perc` and `brn_new_perc` (`none` when it stored
nothing), or the process is killed by an arithmetic trap inside it. -/
inductive HandlerResult
  | returned (ret : Bool) (out : Option (Nat × Nat))
  | trapped
  deriving DecidableEq, Repr

/-- A controller: `operation_handler` as a function of the operation, the
percent argument and the state of the backend. -/
abbrev Backend (σ : Type) : Type := operations_t → Nat → σ → HandlerResult × σ

/-! ## The sysfs file backend -/

/-- The backlight files under `SYSFS_BACKLIGHT_PATH`: the `int32_t` each file
reads as (`none` when it cannot be read), whether `brightness` can be written,
and the values handed to `set_brightness_file` so far. -/
structure SysfsFiles where
  brightness : Option Int
  max_brightness : Option Int
  writable : Bool
  written : List Int
  deriving DecidableEq, Repr

/-- The C function `get_brightness_file`, applied to the content of the file. -/
def get_brightness_file (file : Option Int) : Int :=
  match file with
  | some brightness => brightness
  | none => NO_BRIGHTNESS

/-- The C function `set_brightness_file` on the `brightness` file. -/
def set_brightness_file (dev : SysfsFiles) (value_abs : Int) : Int × SysfsFiles :=
  if dev.writable then
    ((RET_OK : Int), { dev with brightness := some value_abs, written := dev.written ++ [value_abs] })
  else
    (NO_BRIGHTNESS, { dev with written := dev.written ++ [value_abs] })

/-- The C function `_operation_handler_file`. -/
def _operation_handler_file (operation : operations_t) (brn_percent : Nat)
    (dev : SysfsFiles) : HandlerResult × SysfsFiles :=
  let brn_min_abs : Int := 0
  let brn_cur_abs := get_brightness_file dev.brightness
  if brn_cur_abs = NO_BRIGHTNESS then (HandlerResult.returned false none, dev)
  else
    let brn_max_abs := get_brightness_file dev.max_brightness
    if brn_max_abs = NO_BRIGHTNESS then (HandlerResult.returned false none, dev)
    else
      let brn_new_abs := Int.tdiv (mul32 (brn_percent : Int) (sub32 brn_max_abs brn_min_abs)) 100
      match div32 (mul32 (sub32 brn_cur_abs brn_min_abs) 100) (sub32 brn_max_abs brn_min_abs) with
      | none => (HandlerResult.trapped, dev)
      | some q =>
        let brn_cur_perc := uint8_cast q
        match operation with
        | OPERATION_GETBRIGHTNESS =>
          (HandlerResult.returned true (some (brn_cur_perc, brn_cur_perc)), dev)
        | _ =>
          let brn_new_abs :=
            match operation with
            | OPERATION_GETBRIGHTNESS => brn_new_abs
            | OPERATION_SETBRIGHTNESS => add32 brn_min_abs brn_new_abs
            | OPERATION_INCBRIGHTNESS => add32 brn_cur_abs brn_new_abs
            | OPERATION_DECBRIGHTNESS => sub32 brn_cur_abs brn_new_abs
          let brn_new_abs := if brn_new_abs > brn_max_abs then brn_max_abs else brn_new_abs
          let brn_new_abs := if brn_new_abs < brn_min_abs then brn_min_abs else brn_new_abs
          match div32 (mul32 brn_new_abs 100) (sub32 brn_max_abs brn_min_abs) with
          | none => (HandlerResult.trapped, dev)
          | some q2 =>
            let brn_new_perc := uint8_cast q2
            (HandlerResult.returned true (some (brn_cur_perc, brn_new_perc)),
              (set_brightness_file dev brn_new_abs).2)

/-! ## The RandR backend -/

/-- Which of the two interned atoms `pxcb->backlight_atom` currently holds. -/
inductive backlight_atom_t
  | backlight_new_atom
  | backlight_legacy_atom
  deriving DecidableEq, Repr

open backlight_atom_t

/-- One backlight property of one output, as the X server answers for it:
`value` is the `int32_t` a well-formed reply carries (`none` when the atom is
`XCB_ATOM_NONE`, the request fails or the reply is not a single 32-bit
integer); `query_ok`, `range` and `valid_values` describe the reply of
`xcb_randr_query_output_property`; `write_ok` tells whether
`xcb_randr_change_output_property` succeeds. -/
structure RandrProperty where
  value : Option Int
  query_ok : Bool
  range : Bool
  valid_values : List Int
  write_ok : Bool
  deriving DecidableEq, Repr

/-- One RandR output with its `Backlight` and `BACKLIGHT` properties. -/
structure RandrOutput where
  backlight_new : RandrProperty
  backlight_legacy : RandrProperty
  deriving DecidableEq, Repr

/-- The property of an output that an atom names. -/
def RandrOutput.property (output : RandrOutput) (atom : backlight_atom_t) : RandrProperty :=
  match atom with
  | backlight_new_atom => output.backlight_new
  | backlight_legacy_atom => output.backlight_legacy

/-- Replace the value of the property that an atom names. -/
def RandrOutput.change_property (output : RandrOutput) (atom : backlight_atom_t)
    (value_abs : Int) : RandrOutput :=
  match atom with
  | backlight_new_atom =>
    { output with backlight_new := { output.backlight_new with value := some value_abs } }
  | backlight_legacy_atom =>
    { output with backlight_legacy := { output.backlight_legacy with value := some value_abs } }

/-- What the controller sees through the C struct `Txcb`: whether the screen
resources can be fetched, the outputs of the screen, the field
`backlight_atom`, and the (output, value) pairs handed to
`set_brightness_randr` so far. -/
structure Txcb where
  resources_ok : Bool
  outputs : List RandrOutput
  backlight_atom : backlight_atom_t
  written : List (Nat × Int)
  deriving DecidableEq, Repr

/-- The C function `_get_brightness_randr`. -/
def _get_brightness_randr (pxcb : Txcb) (output : Nat) (backlight_atom : backlight_atom_t) :
    Int × Txcb :=
  let pxcb := { pxcb with backlight_atom := backlight_atom }
  match pxcb.outputs[output]? with
  | none => (NO_BRIGHTNESS, pxcb)
  | some out =>
    match (out.property pxcb.backlight_atom).value with
    | none => (NO_BRIGHTNESS, pxcb)
    | some value_abs => (value_abs, pxcb)

/-- The C function `get_brightness_randr`. -/
def get_brightness_randr (pxcb : Txcb) (output : Nat) : Int × Txcb :=
  let r := _get_brightness_randr pxcb output backlight_new_atom
  if r.1 = NO_BRIGHTNESS then _get_brightness_randr r.2 output backlight_legacy_atom
  else r

/-- The C function `set_brightness_randr`. -/
def set_brightness_randr (pxcb : Txcb) (output : Nat) (value_abs : Int) : Int × Txcb :=
  let pxcb := { pxcb with written := pxcb.written ++ [(output, value_abs)] }
  match pxcb.outputs[output]? with
  | none => (NO_BRIGHTNESS, pxcb)
  | some out =>
    if (out.property pxcb.backlight_atom).write_ok then
      ((RET_OK : Int),
        { pxcb with outputs := pxcb.outputs.set output (out.change_property pxcb.backlight_atom value_abs) })
    else (NO_BRIGHTNESS, pxcb)

/-- The `for` loop of `_operation_handler_randr` over the outputs still to be
visited; `output_found` and `out` carry the local flag and what has been stored
through `brn_cur_perc` and `brn_new_perc` so far. -/
def _operation_handler_randr_outputs (operation : operations_t) (brn_percent : Nat) :
    List Nat → Txcb → Bool → Option (Nat × Nat) → HandlerResult × Txcb
  | [], pxcb, output_found, out => (HandlerResult.returned output_found out, pxcb)
  | o :: rest, pxcb, output_found, out =>
    let g := get_brightness_randr pxcb o
    let brn_cur_abs := g.1
    let pxcb := g.2
    if brn_cur_abs ≠ NO_BRIGHTNESS then
      let output_found := true
      match pxcb.outputs[o]? with
      | none => _operation_handler_randr_outputs operation brn_percent rest pxcb output_found out
      | some output =>
        let prop_reply := output.property pxcb.backlight_atom
        if !prop_reply.query_ok then
          _operation_handler_randr_outputs operation brn_percent rest pxcb output_found out
        else if prop_reply.range && prop_reply.valid_values.length == 2 then
          let brn_min_abs := prop_reply.valid_values.getD 0 0
          let brn_max_abs := prop_reply.valid_values.getD 1 0
          let brn_new_abs := Int.tdiv (mul32 (brn_percent : Int) (sub32 brn_max_abs brn_min_abs)) 100
          match div32 (mul32 (sub32 brn_cur_abs brn_min_abs) 100) (sub32 brn_max_abs brn_min_abs) with
          | none => (HandlerResult.trapped, pxcb)
          | some q =>
            let brn_cur_perc := uint8_cast q
            match operation with
            | OPERATION_GETBRIGHTNESS =>
              (HandlerResult.returned true (some (brn_cur_perc, brn_cur_perc)), pxcb)
            | _ =>
              let brn_new_abs :=
                match operation with
                | OPERATION_GETBRIGHTNESS => brn_new_abs
                | OPERATION_SETBRIGHTNESS => add32 brn_min_abs brn_new_abs
                | OPERATION_INCBRIGHTNESS => add32 brn_cur_abs brn_new_abs
                | OPERATION_DECBRIGHTNESS => sub32 brn_cur_abs brn_new_abs
              let brn_new_abs := if brn_new_abs > brn_max_abs then brn_max_abs else brn_new_abs
              let brn_new_abs := if brn_new_abs < brn_min_abs then brn_min_abs else brn_new_abs
              match div32 (mul32 brn_new_abs 100) (sub32 brn_max_abs brn_min_abs) with
              | none => (HandlerResult.trapped, pxcb)
              | some q2 =>
                let brn_new_perc := uint8_cast q2
                _operation_handler_randr_outputs operation brn_percent rest
                  (set_brightness_randr pxcb o brn_new_abs).2 output_found
                  (some (brn_cur_perc, brn_new_perc))
        else
          _operation_handler_randr_outputs operation brn_percent rest pxcb output_found out
    else
      _operation_handler_randr_outputs operation brn_percent rest pxcb output_found out

/-- The C function `_operation_handler_randr`. -/
def _operation_handler_randr (operation : operations_t) (brn_percent : Nat) (pxcb : Txcb) :
    HandlerResult × Txcb :=
  if !pxcb.resources_ok then (HandlerResult.returned false none, pxcb)
  else
    _operation_handler_randr_outputs operation brn_percent (List.range pxcb.outputs.length)
      pxcb false none

/-! ## State classification -/

/-- What the X server answers to the requests of `query_state`: whether the
connection is in error, the power level of the DPMS info reply (`none` when a
DPMS reply is missing) and, from the two screensaver replies, the state, the
milliseconds since user input, the timeout and the interval (`none` when a
screensaver reply is missing). -/
structure ServerReplies where
  connection_has_error : Bool
  dpms_power_level : Option Nat
  screensaver : Option (Nat × Nat × Nat × Nat)
  deriving DecidableEq, Repr

/-- The `switch` of `query_state` on `screensaver_state` and `dpms_power_level`,
with the values of the XCB constants (`XCB_SCREENSAVER_STATE_OFF` = 0, `ON` = 1,
`CYCLE` = 2, `DISABLED` = 3; `XCB_DPMS_DPMS_MODE_ON` = 0, `STANDBY` = 1,
`SUSPEND` = 2, `OFF` = 3). -/
def query_state_switch (pglobalstate : Tglobalstate) : state_t :=
  match pglobalstate.screensaver_state with
  | 0 => STATE_SCREENSAVER_OFF
  | 1 =>
    match pglobalstate.dpms_power_level with
    | 0 =>
      if pglobalstate.screensaver_idlesecuser = pglobalstate.screensaver_timeout then
        STATE_SCREENSAVER_ON_TIMEOUT
      else STATE_SCREENSAVER_ON_INTERVAL
    | 1 => STATE_DPMS_STANDBY
    | 2 => STATE_DPMS_SUSPEND
    | 3 => STATE_DPMS_OFF
    | _ => STATE_UNKNOWN
  | 2 => STATE_SCREENSAVER_CYCLE
  | 3 => STATE_SCREENSAVER_DISABLED
  | _ => STATE_UNKNOWN

/-- The C function `query_state`: the returned boolean and the updated
`*pglobalstate`. -/
def query_state (pglobalstate : Tglobalstate) (replies : ServerReplies) : Bool × Tglobalstate :=
  if replies.connection_has_error then (false, pglobalstate)
  else
    match replies.dpms_power_level with
    | none => (false, pglobalstate)
    | some power_level =>
      let pglobalstate := { pglobalstate with dpms_power_level := power_level }
      match replies.screensaver with
      | none => (false, pglobalstate)
      | some (state, ms_since_user_input, timeout, interval) =>
        let pglobalstate :=
          { pglobalstate with
            screensaver_idlesecuser := ms_since_user_input / 1000
            screensaver_state := state
            screensaver_timeout := timeout
            screensaver_interval := interval }
        (true, { pglobalstate with state := query_state_switch pglobalstate })

/-! ## The event handlers -/

/-- How a run of an event handler ends: `code` is the returned `uint8_t`
(`none` when the process was killed inside the controller), `state` the event
state and `backend` the state of the backend at that point. -/
structure EventOutcome (σ : Type) where
  code : Option Nat
  state : Teventstate
  backend : σ
  deriving DecidableEq, Repr

/-- The stores of a controller call made with `&peventstate->brn_priorscrsvr_perc`
and `&peventstate->brn_cur_perc` as output arguments. -/
def store_prior_cur (st : Teventstate) (out : Option (Nat × Nat)) : Teventstate :=
  match out with
  | none => st
  | some (brn_cur_perc, brn_new_perc) =>
    { st with brn_priorscrsvr_perc := brn_cur_perc, brn_cur_perc := brn_new_perc }

/-- The stores of a controller call made with `&peventstate->brn_old_perc` and
`&peventstate->brn_cur_perc` as output arguments. -/
def store_old_cur (st : Teventstate) (out : Option (Nat × Nat)) : Teventstate :=
  match out with
  | none => st
  | some (brn_cur_perc, brn_new_perc) =>
    { st with brn_old_perc := brn_cur_perc, brn_cur_perc := brn_new_perc }

/-- The tail of `_event_loop_scrsvr_on_timeout`, from the comparison with
`DIM_PERCENT_TIMEOUT` on. -/
def _event_loop_scrsvr_on_timeout_dim {σ : Type} (operation_handler : Backend σ)
    (DIM_PERCENT_TIMEOUT : Nat) (st : Teventstate) (pxcb : σ) : EventOutcome σ :=
  if st.brn_cur_perc < DIM_PERCENT_TIMEOUT then ⟨some RET_OK, st, pxcb⟩
  else
    match operation_handler OPERATION_SETBRIGHTNESS DIM_PERCENT_TIMEOUT pxcb with
    | (HandlerResult.trapped, pxcb) => ⟨none, st, pxcb⟩
    | (HandlerResult.returned ret out, pxcb) =>
      let st := store_old_cur st out
      if !ret then ⟨some EXIT_FAILURE, st, pxcb⟩
      else ⟨some RET_OK, st, pxcb⟩

/-- The C function `_event_loop_scrsvr_on_timeout`. -/
def _event_loop_scrsvr_on_timeout {σ : Type} (operation_handler : Backend σ)
    (DIM_PERCENT_TIMEOUT : Nat) (st : Teventstate) (pxcb : σ) : EventOutcome σ :=
  match operation_handler OPERATION_GETBRIGHTNESS 0 pxcb with
  | (HandlerResult.trapped, pxcb) => ⟨none, st, pxcb⟩
  | (HandlerResult.returned ret out, pxcb) =>
    let st := store_prior_cur st out
    if !ret then ⟨some EXIT_FAILURE, st, pxcb⟩
    else if st.brn_cur_perc = 0 then
      match operation_handler OPERATION_SETBRIGHTNESS 100 pxcb with
      | (HandlerResult.trapped, pxcb) => ⟨none, st, pxcb⟩
      | (HandlerResult.returned ret out, pxcb) =>
        let st := store_old_cur st out
        if !ret then ⟨some EXIT_FAILURE, st, pxcb⟩
        else if st.brn_cur_perc = 0 then
          match operation_handler OPERATION_SETBRIGHTNESS 100 pxcb with
          | (HandlerResult.trapped, pxcb) => ⟨none, st, pxcb⟩
          | (HandlerResult.returned ret out, pxcb) =>
            let st := store_old_cur st out
            if !ret then ⟨some EXIT_FAILURE, st, pxcb⟩
            else _event_loop_scrsvr_on_timeout_dim operation_handler DIM_PERCENT_TIMEOUT st pxcb
        else _event_loop_scrsvr_on_timeout_dim operation_handler DIM_PERCENT_TIMEOUT st pxcb
    else _event_loop_scrsvr_on_timeout_dim operation_handler DIM_PERCENT_TIMEOUT st pxcb

/-- The C function `_event_loop_scrsvr_on_interval`. -/
def _event_loop_scrsvr_on_interval {σ : Type} (operation_handler : Backend σ)
    (DIM_PERCENT_INTERVAL : Nat) (st : Teventstate) (pxcb : σ) : EventOutcome σ :=
  if !st.brn_interval_set then
    let st := { st with brn_interval_set := true }
    if st.brn_cur_perc < DIM_PERCENT_INTERVAL then ⟨some RET_OK, st, pxcb⟩
    else
      match operation_handler OPERATION_SETBRIGHTNESS DIM_PERCENT_INTERVAL pxcb with
      | (HandlerResult.trapped, pxcb) => ⟨none, st, pxcb⟩
      | (HandlerResult.returned ret out, pxcb) =>
        let st := store_old_cur st out
        if !ret then ⟨some EXIT_FAILURE, st, pxcb⟩
        else ⟨some RET_OK, st, pxcb⟩
  else ⟨some RET_OK, st, pxcb⟩

/-- The C function `_event_loop_scrsvr_off`. -/
def _event_loop_scrsvr_off {σ : Type} (operation_handler : Backend σ)
    (st : Teventstate) (pxcb : σ) : EventOutcome σ :=
  let st := { st with brn_interval_set := false }
  if st.brn_priorscrsvr_perc = BRN_PRIORSCRSVR_UNDEFINED then
    match operation_handler OPERATION_GETBRIGHTNESS 0 pxcb with
    | (HandlerResult.trapped, pxcb) => ⟨none, st, pxcb⟩
    | (HandlerResult.returned ret out, pxcb) =>
      let st := store_old_cur st out
      if !ret then ⟨some EXIT_FAILURE, st, pxcb⟩
      else ⟨some RET_OK, st, pxcb⟩
  else
    match operation_handler OPERATION_GETBRIGHTNESS 0 pxcb with
    | (HandlerResult.trapped, pxcb) => ⟨none, st, pxcb⟩
    | (HandlerResult.returned ret out, pxcb) =>
      let st := store_old_cur st out
      if !ret then ⟨some EXIT_FAILURE, st, pxcb⟩
      else
        let st := if st.brn_cur_perc = 0 then { st with brn_priorscrsvr_perc := 100 } else st
        match operation_handler OPERATION_SETBRIGHTNESS st.brn_priorscrsvr_perc pxcb with
        | (HandlerResult.trapped, pxcb) => ⟨none, st, pxcb⟩
        | (HandlerResult.returned ret out, pxcb) =>
          let st := store_old_cur st out
          if ret then
            ⟨some RET_OK, { st with brn_priorscrsvr_perc := BRN_PRIORSCRSVR_UNDEFINED }, pxcb⟩
          else ⟨some EXIT_FAILURE, st, pxcb⟩

/-! ## The event loop -/

/-- The `switch (pglobalstate->state)` of `event_loop`: the handler run for a
classified state; the states without a handler leave everything as it is. -/
def event_loop_switch {σ : Type} (operation_handler : Backend σ)
    (DIM_PERCENT_INTERVAL DIM_PERCENT_TIMEOUT : Nat) (state : state_t)
    (st : Teventstate) (pxcb : σ) : EventOutcome σ :=
  match state with
  | STATE_SCREENSAVER_ON_TIMEOUT =>
    _event_loop_scrsvr_on_timeout operation_handler DIM_PERCENT_TIMEOUT st pxcb
  | STATE_SCREENSAVER_ON_INTERVAL =>
    _event_loop_scrsvr_on_interval operation_handler DIM_PERCENT_INTERVAL st pxcb
  | STATE_SCREENSAVER_OFF => _event_loop_scrsvr_off operation_handler st pxcb
  | STATE_SCREENSAVER_CYCLE => ⟨some RET_OK, st, pxcb⟩
  | STATE_SCREENSAVER_DISABLED => ⟨some RET_OK, st, pxcb⟩
  | STATE_DPMS_STANDBY => ⟨some RET_OK, st, pxcb⟩
  | STATE_DPMS_SUSPEND => ⟨some RET_OK, st, pxcb⟩
  | STATE_DPMS_OFF => ⟨some RET_OK, st, pxcb⟩
  | STATE_UNKNOWN => ⟨some RET_OK, st, pxcb⟩

/-- What one pass through the body of `while (true)` receives from outside:
the answer of `xcb_connection_has_error`, whether the event returned by
`xcb_wait_for_event` has the screensaver response type, and the replies that
`query_state` gets. -/
structure LoopInput where
  connection_has_error : Bool
  event_is_screensaver : Bool
  replies : ServerReplies
  deriving DecidableEq, Repr

/-- Where `event_loop` stands: still looping, returned with a code, or killed
inside the controller. -/
inductive LoopStatus
  | looping
  | returned (code : Nat)
  | killed
  deriving DecidableEq, Repr

/-- The status of `event_loop` together with the three states it works on. -/
structure LoopOutcome (σ : Type) where
  status : LoopStatus
  globalstate : Tglobalstate
  state : Teventstate
  backend : σ
  deriving DecidableEq, Repr

/-- One pass through the body of the `while (true)` loop of `event_loop`. -/
def event_loop_iteration {σ : Type} (operation_handler : Backend σ)
    (DIM_PERCENT_INTERVAL DIM_PERCENT_TIMEOUT : Nat) (input : LoopInput)
    (pglobalstate : Tglobalstate) (st : Teventstate) (pxcb : σ) : LoopOutcome σ :=
  if input.connection_has_error then ⟨LoopStatus.returned EXIT_FAILURE, pglobalstate, st, pxcb⟩
  else if !input.event_is_screensaver then ⟨LoopStatus.looping, pglobalstate, st, pxcb⟩
  else
    let q := query_state pglobalstate input.replies
    if !q.1 then ⟨LoopStatus.returned EXIT_FAILURE, q.2, st, pxcb⟩
    else
      let r := event_loop_switch operation_handler DIM_PERCENT_INTERVAL DIM_PERCENT_TIMEOUT
        q.2.state st pxcb
      match r.code with
      | none => ⟨LoopStatus.killed, q.2, r.state, r.backend⟩
      | some result =>
        if RET_OK ≠ result then ⟨LoopStatus.returned result, q.2, r.state, r.backend⟩
        else ⟨LoopStatus.looping, q.2, r.state, r.backend⟩

/-- The C function `event_loop`, run on the inputs of its first passes: the
loop goes on as long as a pass leaves it looping and inputs remain. -/
def event_loop {σ : Type} (operation_handler : Backend σ)
    (DIM_PERCENT_INTERVAL DIM_PERCENT_TIMEOUT : Nat) :
    List LoopInput → Tglobalstate → Teventstate → σ → LoopOutcome σ
  | [], pglobalstate, st, pxcb => ⟨LoopStatus.looping, pglobalstate, st, pxcb⟩
  | input :: inputs, pglobalstate, st, pxcb =>
    let r := event_loop_iteration operation_handler DIM_PERCENT_INTERVAL DIM_PERCENT_TIMEOUT
      input pglobalstate st pxcb
    match r.status with
    | LoopStatus.looping =>
      event_loop operation_handler DIM_PERCENT_INTERVAL DIM_PERCENT_TIMEOUT inputs
        r.globalstate r.state r.backend
    | _ => r

/-! ## Observing the controller calls -/

/-- A controller call: the operation and its percent argument. -/
abbrev Call : Type := operations_t × Nat

/-- The controller `operation_handler` run next to a record of the calls made to it. -/
def logged {σ : Type} (operation_handler : Backend σ) : Backend (σ × List Call) :=
  fun operation brn_percent s =>
    ((operation_handler operation brn_percent s.1).1,
      ((operation_handler operation brn_percent s.1).2, s.2 ++ [(operation, brn_percent)]))

/-- The controller calls made by the passes of `event_loop` that handle
`STATE_SCREENSAVER_ON_INTERVAL`, when the `switch` of `event_loop` is run over a
sequence of classified states; the run ends with the first handler that does
not return `RET_OK`. -/
def interval_calls {σ : Type} (operation_handler : Backend σ)
    (DIM_PERCENT_INTERVAL DIM_PERCENT_TIMEOUT : Nat) :
    List state_t → Teventstate → σ → List Call
  | [], _, _ => []
  | state :: states, st, pxcb =>
    let r := event_loop_switch (logged operation_handler) DIM_PERCENT_INTERVAL
      DIM_PERCENT_TIMEOUT state st (pxcb, [])
    (if state = STATE_SCREENSAVER_ON_INTERVAL then r.backend.2 else []) ++
      (if r.code = some RET_OK then
        interval_calls operation_handler DIM_PERCENT_INTERVAL DIM_PERCENT_TIMEOUT states
          r.state r.backend.1
      else [])

/-! ## Concrete backends and states used as examples -/

/-- Scenario A: a writable sysfs backlight at absolute 128 of 255. -/
def scenario_a_files : SysfsFiles :=
  { brightness := some 128, max_brightness := some 255, writable := true, written := [] }

/-- Scenario B: a writable sysfs backlight at absolute 0 of 255. -/
def scenario_b_files : SysfsFiles :=
  { brightness := some 0, max_brightness := some 255, writable := true, written := [] }

/-- Scenario D: an event state holding 40 as the brightness to restore. -/
def scenario_d_state : Teventstate :=
  { gs_eventstate with brn_priorscrsvr_perc := 40 }

/-- A writable sysfs backlight at absolute 204 of 255 (80%). -/
def bright_files : SysfsFiles :=
  { brightness := some 204, max_brightness := some 255, writable := true, written := [] }

/-- A controller whose reads report 50% and whose write operations fail. -/
def read_only_backend : Backend Unit :=
  fun operation _ s =>
    match operation with
    | OPERATION_GETBRIGHTNESS => (HandlerResult.returned true (some (50, 50)), s)
    | _ => (HandlerResult.returned false none, s)

/-- A controller on a backlight stuck at zero: every call succeeds and reports 0%. -/
def stuck_backend : Backend Unit :=
  fun _ _ s => (HandlerResult.returned true (some (0, 0)), s)

/-- A loop input carrying a screensaver event on a healthy connection, with
the given screensaver state, power level, idle milliseconds and timeout. -/
def screensaver_input (state power_level ms_since_user_input timeout : Nat) : LoopInput :=
  { connection_has_error := false
    event_is_screensaver := true
    replies :=
      { connection_has_error := false
        dpms_power_level := some power_level
        screensaver := some (state, ms_since_user_input, timeout, 600) } }

/-- A `Tglobalstate` before the first query. -/
def gs_globalstate : Tglobalstate :=
  { screensaver_timeout := 0
    screensaver_interval := 0
    dpms_power_level := 0
    screensaver_idlesecuser := 0
    state := STATE_DPMS_STANDBY
    screensaver_state := 0 }

/-! ## The controller arithmetic in the words of the specification -/

/-- Specification, §4.2 step 5: clamp a value into `[lo, hi]`. -/
def spec_clamp (x lo hi : Int) : Int := Max.max lo (Min.min x hi)

/-- Specification, §4.2 steps 4 and 5 for Set:
`clamp(min_abs + target% * (max_abs - min_abs) / 100, min_abs, max_abs)`, over the
exact integers, with the division truncating toward zero. -/
def spec_set_abs (min_abs max_abs : Int) (p : Nat) : Int :=
  spec_clamp (min_abs + Int.tdiv ((p : Int) * (max_abs - min_abs)) 100) min_abs max_abs

/-- Specification, §4.2 step 2: `(current_abs - min_abs) * 100 / (max_abs - min_abs)`
over the exact integers, truncating toward zero, narrowed to 8 bits. -/
def spec_percent (min_abs max_abs cur_abs : Int) : Nat :=
  uint8_cast (Int.tdiv ((cur_abs - min_abs) * 100) (max_abs - min_abs))

/-- Specification, §4.2 step 6: `target_abs * 100 / (max_abs - min_abs)` over the
exact integers, truncating toward zero, narrowed to 8 bits. -/
def spec_new_percent (min_abs max_abs written : Int) : Nat :=
  uint8_cast (Int.tdiv (written * 100) (max_abs - min_abs))

/-- A backlight property holding `cur`, with the range `[min_abs, max_abs]`
reported as two valid values. -/
def usable_property (cur min_abs max_abs : Int) (write_ok : Bool) : RandrProperty :=
  { value := some cur, query_ok := true, range := true, valid_values := [min_abs, max_abs],
    write_ok := write_ok }

/-- A backlight property that does not exist on the output. -/
def missing_property : RandrProperty :=
  { value := none, query_ok := false, range := false, valid_values := [], write_ok := false }

/-- A screen with one output, given by its two backlight properties. -/
def single_output_server (new legacy : RandrProperty) (atom : backlight_atom_t)
    (written : List (Nat × Int)) : Txcb :=
  { resources_ok := true
    outputs := [{ backlight_new := new, backlight_legacy := legacy }]
    backlight_atom := atom
    written := written }

/-! ## Further definitions used in the statements -/

/-- The value of `XCB_SCREENSAVER_STATE_OFF` in `xcb/screensaver.h`. -/
def XCB_SCREENSAVER_STATE_OFF : Nat := 0

/-- The value of `XCB_SCREENSAVER_STATE_ON` in `xcb/screensaver.h`. -/
def XCB_SCREENSAVER_STATE_ON : Nat := 1

/-- The value of `XCB_SCREENSAVER_STATE_CYCLE` in `xcb/screensaver.h`. -/
def XCB_SCREENSAVER_STATE_CYCLE : Nat := 2

/-- The value of `XCB_SCREENSAVER_STATE_DISABLED` in `xcb/screensaver.h`. -/
def XCB_SCREENSAVER_STATE_DISABLED : Nat := 3

/-- The value of `XCB_DPMS_DPMS_MODE_ON` in `xcb/dpms.h`. -/
def XCB_DPMS_DPMS_MODE_ON : Nat := 0

/-- The value of `XCB_DPMS_DPMS_MODE_STANDBY` in `xcb/dpms.h`. -/
def XCB_DPMS_DPMS_MODE_STANDBY : Nat := 1

/-- The value of `XCB_DPMS_DPMS_MODE_SUSPEND` in `xcb/dpms.h`. -/
def XCB_DPMS_DPMS_MODE_SUSPEND : Nat := 2

/-- The value of `XCB_DPMS_DPMS_MODE_OFF` in `xcb/dpms.h`. -/
def XCB_DPMS_DPMS_MODE_OFF : Nat := 3

/-- Specification, §4.2 steps 4 and 5 for Increase:
`clamp(current_abs + target% * (max_abs - min_abs) / 100, min_abs, max_abs)` over
the exact integers, with the division truncating toward zero. -/
def spec_inc_abs (min_abs max_abs cur_abs : Int) (p : Nat) : Int :=
  spec_clamp (cur_abs + Int.tdiv ((p : Int) * (max_abs - min_abs)) 100) min_abs max_abs

/-- Specification, §4.2 steps 4 and 5 for Decrease:
`clamp(current_abs - target% * (max_abs - min_abs) / 100, min_abs, max_abs)` over
the exact integers, with the division truncating toward zero. -/
def spec_dec_abs (min_abs max_abs cur_abs : Int) (p : Nat) : Int :=
  spec_clamp (cur_abs - Int.tdiv ((p : Int) * (max_abs - min_abs)) 100) min_abs max_abs

/-- The value of `brn_new_abs` that the controller has computed, in `int32_t`,
when it reaches the two clamping `if`s: the scaled percent of its first
statement, combined as the `switch` on the operation says. -/
def unclamped_target (operation : operations_t) (brn_percent : Nat)
    (brn_min_abs brn_max_abs brn_cur_abs : Int) : Int :=
  let brn_new_abs := Int.tdiv (mul32 (brn_percent : Int) (sub32 brn_max_abs brn_min_abs)) 100
  match operation with
  | OPERATION_GETBRIGHTNESS => brn_new_abs
  | OPERATION_SETBRIGHTNESS => add32 brn_min_abs brn_new_abs
  | OPERATION_INCBRIGHTNESS => add32 brn_cur_abs brn_new_abs
  | OPERATION_DECBRIGHTNESS => sub32 brn_cur_abs brn_new_abs

/-- Whether a call of `operation_handler` returned `false`. -/
def HandlerResult.failed : HandlerResult → Bool
  | HandlerResult.returned false _ => true
  | _ => false

/-- The controller `operation_handler` run next to a record of the calls made
to it and of how each call ended. -/
def traced {σ : Type} (operation_handler : Backend σ) :
    Backend (σ × List (Call × HandlerResult)) :=
  fun operation brn_percent s =>
    ((operation_handler operation brn_percent s.1).1,
      ((operation_handler operation brn_percent s.1).2,
        s.2 ++ [((operation, brn_percent), (operation_handler operation brn_percent s.1).1)]))

/-- Scenario A with a `brightness` file that cannot be written. -/
def unwritable_files : SysfsFiles :=
  { brightness := some 128, max_brightness := some 255, writable := false, written := [] }

/-- A sysfs backlight whose `max_brightness` reads 0. -/
def degenerate_files : SysfsFiles :=
  { brightness := some 0, max_brightness := some 0, writable := true, written := [] }

/-- A `Tglobalstate` with the screensaver off while the power level says DPMS
off and the idle seconds equal the timeout. -/
def off_globalstate : Tglobalstate :=
  { screensaver_timeout := 600
    screensaver_interval := 10
    dpms_power_level := 3
    screensaver_idlesecuser := 600
    state := STATE_UNKNOWN
    screensaver_state := 0 }

/-- The value of `LONG_MAX` for a 64-bit `long`. -/
def LONG_MAX : Int := 9223372036854775807

/-- The value of `LONG_MIN` for a 64-bit `long`. -/
def LONG_MIN : Int := -9223372036854775808

/-- The C library predicate `isspace` in the "C" locale. -/
def isspace (c : Char) : Bool :=
  c = ' ' || c = '\t' || c = '\n' || c = '\x0b' || c = '\x0c' || c = '\r'

/-- The C library predicate `isdigit`. -/
def isdigit (c : Char) : Bool := decide ('0' ≤ c ∧ c ≤ '9')

/-- The number written by a run of decimal digits. -/
def digits_value (digits : List Char) : Nat :=
  digits.foldl (fun acc c => 10 * acc + (c.toNat - '0'.toNat)) 0

/-- What a call `strtol(nptr, &end, 10)` leaves behind: the returned `long`, the
offset `end - nptr`, and whether `errno` was set to `ERANGE`. -/
structure StrtolResult where
  value : Int
  consumed : Nat
  erange : Bool
  deriving DecidableEq, Repr

/-- The sign and the rest of a string after an optional `+` or `-`. -/
def strtol_sign (s : List Char) : Bool × List Char :=
  match s with
  | '-' :: t => (true, t)
  | '+' :: t => (false, t)
  | _ => (false, s)

/-- The C library function `strtol` with base 10, as the C standard describes
it: white space is skipped, an optional sign is read, then the longest run of
decimal digits; without a digit nothing is consumed and 0 is returned; a value
outside the range of `long` is replaced by `LONG_MAX` or `LONG_MIN` with `errno`
set to `ERANGE`. -/
def strtol (nptr : List Char) : StrtolResult :=
  let s := nptr.dropWhile isspace
  let negative := (strtol_sign s).1
  let t := (strtol_sign s).2
  let digits := t.takeWhile isdigit
  if digits = [] then { value := 0, consumed := 0, erange := false }
  else
    let value : Int := if negative then -(digits_value digits : Int) else (digits_value digits : Int)
    let consumed := (nptr.length - t.length) + digits.length
    if value > LONG_MAX then { value := LONG_MAX, consumed := consumed, erange := true }
    else if value < LONG_MIN then { value := LONG_MIN, consumed := consumed, erange := true }
    else { value := value, consumed := consumed, erange := false }

/-- The value of `UINT8_MAX`. -/
def UINT8_MAX : Int := 255

/-- The C function `parse_uint8_t`: the returned `int` and the content of
`*output` afterwards. -/
def parse_uint8_t (input : List Char) (output : Nat) : Int × Nat :=
  let r := strtol input
  let temp := r.value
  if r.consumed ≠ 0 ∧ r.erange = false ∧ temp ≥ 0 ∧ temp ≤ UINT8_MAX then
    (0, uint8_cast temp)
  else (1, output)

/-- The two configuration variables `DIM_PERCENT_INTERVAL` and
`DIM_PERCENT_TIMEOUT`. -/
structure Config where
  DIM_PERCENT_INTERVAL : Nat
  DIM_PERCENT_TIMEOUT : Nat
  deriving DecidableEq, Repr

/-- The initial values of the configuration variables. -/
def default_config : Config := { DIM_PERCENT_INTERVAL := 20, DIM_PERCENT_TIMEOUT := 40 }

/-- What one call of `getopt_long` in `parse_args` yields: `c` or `t` with the
option argument, `h`, or any other value (an unknown option or a missing
argument). -/
inductive getopt_t
  | opt_c (optarg : List Char)
  | opt_t (optarg : List Char)
  | opt_h
  | opt_other
  deriving DecidableEq, Repr

/-- The `while` loop of `parse_args` over the options that the successive calls
of `getopt_long` yield; `none` stands for the `exit(EXIT_SUCCESS)` of `-h`. -/
def parse_args_loop : List getopt_t → Int → Config → Option Int × Config
  | [], err, config => (some err, config)
  | getopt_t.opt_c optarg :: opts, _, config =>
    let r := parse_uint8_t optarg config.DIM_PERCENT_INTERVAL
    parse_args_loop opts r.1 { config with DIM_PERCENT_INTERVAL := r.2 }
  | getopt_t.opt_t optarg :: opts, _, config =>
    let r := parse_uint8_t optarg config.DIM_PERCENT_TIMEOUT
    parse_args_loop opts r.1 { config with DIM_PERCENT_TIMEOUT := r.2 }
  | getopt_t.opt_h :: _, _, config => (none, config)
  | getopt_t.opt_other :: opts, _, config => parse_args_loop opts 1 config

/-- The C function `parse_args`, on the options that `getopt_long` finds in the
argument list. -/
def parse_args (opts : List getopt_t) (config : Config) : Option Int × Config :=
  parse_args_loop opts 0 config

/-- Specification: the base-10 integer value of an input, over the exact
integers: optional white space, an optional sign and at least one decimal
digit; `none` when the input holds no such numeral. -/
def spec_integer_value (input : List Char) : Option Int :=
  let s := input.dropWhile isspace
  let digits := (strtol_sign s).2.takeWhile isdigit
  if digits = [] then none
  else if (strtol_sign s).1 then some (-(digits_value digits : Int))
  else some (digits_value digits : Int)

/-- A `Tglobalstate` with the screensaver active: timeout 600 s, interval 10 s,
the given power level and idle seconds. -/
def active_globalstate (power_level idlesecuser : Nat) : Tglobalstate :=
  { screensaver_timeout := 600
    screensaver_interval := 10
    dpms_power_level := power_level
    screensaver_idlesecuser := idlesecuser
    state := STATE_UNKNOWN
    screensaver_state := 1 }

/-- The end of the C function `main`, from the initial brightness reading on:
the reading goes into the locals `brn_cur_perc` and `brn_old_perc`
(`uninitialised` is the content of `brn_cur_perc` when the controller stores
nothing), and `event_loop` is entered with `&gs_globalstate`, whose content at
that point is `pglobalstate`, and with `&gs_eventstate`. -/
def main_initial_reading {σ : Type} (operation_handler : Backend σ)
    (DIM_PERCENT_INTERVAL DIM_PERCENT_TIMEOUT : Nat) (inputs : List LoopInput)
    (uninitialised : Nat) (pglobalstate : Tglobalstate) (pxcb : σ) : LoopOutcome σ :=
  match operation_handler OPERATION_GETBRIGHTNESS 0 pxcb with
  | (HandlerResult.trapped, pxcb) => ⟨LoopStatus.killed, pglobalstate, gs_eventstate, pxcb⟩
  | (HandlerResult.returned ret out, pxcb) =>
    if !ret then ⟨LoopStatus.returned EXIT_FAILURE, pglobalstate, gs_eventstate, pxcb⟩
    else
      let brn_cur_perc := match out with
        | some (brn_cur_perc, _) => brn_cur_perc
        | none => uninitialised
      if brn_cur_perc = 0 then
        ⟨LoopStatus.returned EXIT_FAILURE, pglobalstate, gs_eventstate, pxcb⟩
      else
        event_loop operation_handler DIM_PERCENT_INTERVAL DIM_PERCENT_TIMEOUT inputs
          pglobalstate gs_eventstate pxcb

/-- Specification: the target of an operation before clamping, over the exact
integers, with the division truncating toward zero: the scaled percent
`delta = p * (max_abs - min_abs) / 100` for Get, `min_abs + delta` for Set,
`cur_abs + delta` for Increase and `cur_abs - delta` for Decrease. -/
def spec_target (operation : operations_t) (p : Nat) (min_abs max_abs cur_abs : Int) : Int :=
  match operation with
  | OPERATION_GETBRIGHTNESS => Int.tdiv ((p : Int) * (max_abs - min_abs)) 100
  | OPERATION_SETBRIGHTNESS => min_abs + Int.tdiv ((p : Int) * (max_abs - min_abs)) 100
  | OPERATION_INCBRIGHTNESS => cur_abs + Int.tdiv ((p : Int) * (max_abs - min_abs)) 100
  | OPERATION_DECBRIGHTNESS => cur_abs - Int.tdiv ((p : Int) * (max_abs - min_abs)) 100

/-- A sysfs backlight at 102 of 255 (40%), as the timeout handler with target 40
leaves it. -/
def dimmed_files : SysfsFiles :=
  { brightness := some 102, max_brightness := some 255, writable := true, written := [] }

/-- A sysfs backlight at its maximum, with `max_brightness` 42500000. -/
def wide_files : SysfsFiles :=
  { brightness := some 42500000, max_brightness := some 42500000, writable := true,
    written := [] }

/-! ## Theorems -/

/-! ### Frame lemmas on the interval latch -/

@[simp]
theorem store_old_cur_interval_set (st : Teventstate) (out : Option (Nat × Nat)) :
    (store_old_cur st out).brn_interval_set = st.brn_interval_set := by
  cases out <;> simp [store_old_cur]

@[simp]
theorem store_prior_cur_interval_set (st : Teventstate) (out : Option (Nat × Nat)) :
    (store_prior_cur st out).brn_interval_set = st.brn_interval_set := by
  cases out <;> simp [store_prior_cur]

theorem on_timeout_dim_interval_set {σ : Type} (oh : Backend σ) (T : Nat) (st : Teventstate)
    (dev : σ) :
    (_event_loop_scrsvr_on_timeout_dim oh T st dev).state.brn_interval_set
      = st.brn_interval_set := by
  unfold _event_loop_scrsvr_on_timeout_dim
  repeat' split
  all_goals simp

theorem on_timeout_interval_set {σ : Type} (oh : Backend σ) (T : Nat) (st : Teventstate)
    (dev : σ) :
    (_event_loop_scrsvr_on_timeout oh T st dev).state.brn_interval_set
      = st.brn_interval_set := by
  unfold _event_loop_scrsvr_on_timeout
  repeat' split
  all_goals (try dsimp only)
  all_goals (try split_ifs)
  all_goals simp [on_timeout_dim_interval_set]

theorem on_interval_sets {σ : Type} (oh : Backend σ) (I : Nat) (st : Teventstate)
    (dev : σ) :
    (_event_loop_scrsvr_on_interval oh I st dev).state.brn_interval_set = true := by
  unfold _event_loop_scrsvr_on_interval
  repeat' split
  all_goals (try dsimp only)
  all_goals (try split_ifs)
  all_goals simp_all

theorem on_interval_latched {σ : Type} (oh : Backend σ) (I : Nat) (st : Teventstate)
    (s : σ × List Call) (h : st.brn_interval_set = true) :
    _event_loop_scrsvr_on_interval (logged oh) I st s = ⟨some RET_OK, st, s⟩ := by
  simp [_event_loop_scrsvr_on_interval, h]

theorem on_interval_calls {σ : Type} (oh : Backend σ) (I : Nat) (st : Teventstate)
    (dev : σ) :
    (_event_loop_scrsvr_on_interval (logged oh) I st (dev, [])).backend.2.length ≤ 1 := by
  rcases h : oh OPERATION_SETBRIGHTNESS I dev with ⟨r, d⟩
  unfold _event_loop_scrsvr_on_interval
  cases r <;> simp only [logged, h] <;> split_ifs <;> simp

theorem interval_calls_bound {σ : Type} (oh : Backend σ) (I T : Nat) (states : List state_t) :
    STATE_SCREENSAVER_OFF ∉ states → ∀ (st : Teventstate) (dev : σ),
      (interval_calls oh I T states st dev).length ≤ 1 ∧
      (st.brn_interval_set = true → interval_calls oh I T states st dev = []) := by
  induction states with
  | nil => intro _ st dev; simp [interval_calls]
  | cons s rest ih =>
    intro hoff st dev
    have hs : s ≠ STATE_SCREENSAVER_OFF := fun h => hoff (by simp [h])
    have hrest : STATE_SCREENSAVER_OFF ∉ rest := fun h => hoff (by simp [h])
    have ih' := ih hrest
    cases s with
    | STATE_SCREENSAVER_OFF => exact absurd rfl hs
    | STATE_SCREENSAVER_ON_INTERVAL =>
      have h1 := on_interval_calls oh I st dev
      have h2 := on_interval_sets (logged oh) I st (dev, [])
      simp only [interval_calls, event_loop_switch, if_true]
      constructor
      · split
        · rw [(ih' _ _).2 h2]; simpa using h1
        · simpa using h1
      · intro hset
        rw [on_interval_latched oh I st (dev, []) hset]
        simp only [if_true]
        simpa using (ih' st dev).2 hset
    | STATE_SCREENSAVER_ON_TIMEOUT =>
      have h2 := on_timeout_interval_set (logged oh) T st (dev, [])
      simp only [interval_calls, event_loop_switch, reduceCtorEq, if_false, List.nil_append]
      split_ifs
      · exact ⟨(ih' _ _).1, fun hset => (ih' _ _).2 (h2.trans hset)⟩
      · simp
    | _ =>
      simp only [interval_calls, event_loop_switch]
      simpa using ih' st dev

/-! ### The screensaver-off handler -/

/-- C1: with a stored prior percent (not 0xff), a Get that succeeds and reports
`c` as current percent, and a succeeding Set, `_event_loop_scrsvr_off` makes
exactly the calls Get, then Set with target 100 if `c = 0` and the stored prior
percent otherwise; it returns `RET_OK`, and leaves the prior percent at 0xff and
the interval latch false. -/
theorem scrsvr_off_restores {σ : Type} (oh : Backend σ) (st : Teventstate) (dev dev1 dev2 : σ)
    (a c : Nat) (out2 : Option (Nat × Nat))
    (hprior : st.brn_priorscrsvr_perc ≠ BRN_PRIORSCRSVR_UNDEFINED)
    (hget : oh OPERATION_GETBRIGHTNESS 0 dev = (HandlerResult.returned true (some (a, c)), dev1))
    (hset : oh OPERATION_SETBRIGHTNESS (if c = 0 then 100 else st.brn_priorscrsvr_perc) dev1
      = (HandlerResult.returned true out2, dev2)) :
    _event_loop_scrsvr_off (logged oh) st (dev, []) =
      ⟨some RET_OK,
        { store_old_cur { st with brn_old_perc := a, brn_cur_perc := c } out2 with
          brn_priorscrsvr_perc := BRN_PRIORSCRSVR_UNDEFINED, brn_interval_set := false },
        (dev2, [(OPERATION_GETBRIGHTNESS, 0),
          (OPERATION_SETBRIGHTNESS, if c = 0 then 100 else st.brn_priorscrsvr_perc)])⟩ := by
  by_cases hc : c = 0
  · subst hc
    simp only [if_true] at hset
    cases out2 <;> simp [_event_loop_scrsvr_off, logged, hget, hset, hprior, store_old_cur]
  · simp only [hc, if_false] at hset
    cases out2 <;> simp [_event_loop_scrsvr_off, logged, hget, hset, hprior, store_old_cur, hc]

/-- Scenario D for C1: prior percent 40 and a current read of 0% give the calls
Get, Set(100), on a sysfs backlight at 0 of 255. -/
theorem scrsvr_off_restores_witness :
    scenario_d_state.brn_priorscrsvr_perc ≠ BRN_PRIORSCRSVR_UNDEFINED ∧
    _event_loop_scrsvr_off (logged _operation_handler_file) scenario_d_state
        (scenario_b_files, []) =
      ⟨some RET_OK,
        { brn_cur_perc := 100, brn_old_perc := 0,
          brn_priorscrsvr_perc := BRN_PRIORSCRSVR_UNDEFINED, brn_interval_set := false },
        ({ scenario_b_files with brightness := some 255, written := [255] },
          [(OPERATION_GETBRIGHTNESS, 0), (OPERATION_SETBRIGHTNESS, 100)])⟩ :=
  ⟨by decide,
    scrsvr_off_restores _operation_handler_file scenario_d_state scenario_b_files
      scenario_b_files { scenario_b_files with brightness := some 255, written := [255] }
      0 0 (some (0, 100)) (by decide) (by decide) (by decide)⟩

/-- C8: with no stored prior percent (0xff) and a Get that succeeds,
`_event_loop_scrsvr_off` makes the one Get call and no other, returns `RET_OK`,
sets the interval latch to false, stores the read percent as current percent and
leaves the prior percent at 0xff. -/
theorem scrsvr_off_without_prior {σ : Type} (oh : Backend σ) (st : Teventstate) (dev dev1 : σ)
    (a c : Nat)
    (hprior : st.brn_priorscrsvr_perc = BRN_PRIORSCRSVR_UNDEFINED)
    (hget : oh OPERATION_GETBRIGHTNESS 0 dev = (HandlerResult.returned true (some (a, c)), dev1)) :
    _event_loop_scrsvr_off (logged oh) st (dev, []) =
      ⟨some RET_OK,
        { brn_cur_perc := c, brn_old_perc := a,
          brn_priorscrsvr_perc := BRN_PRIORSCRSVR_UNDEFINED, brn_interval_set := false },
        (dev1, [(OPERATION_GETBRIGHTNESS, 0)])⟩ := by
  simp [_event_loop_scrsvr_off, logged, hget, hprior, store_old_cur]

/-- A run of C8 on the initial event state and the sysfs backlight of Scenario A. -/
theorem scrsvr_off_without_prior_witness :
    gs_eventstate.brn_priorscrsvr_perc = BRN_PRIORSCRSVR_UNDEFINED ∧
    _event_loop_scrsvr_off (logged _operation_handler_file) gs_eventstate
        (scenario_a_files, []) =
      ⟨some RET_OK,
        { brn_cur_perc := 50, brn_old_perc := 50,
          brn_priorscrsvr_perc := BRN_PRIORSCRSVR_UNDEFINED, brn_interval_set := false },
        (scenario_a_files, [(OPERATION_GETBRIGHTNESS, 0)])⟩ :=
  ⟨by decide,
    scrsvr_off_without_prior _operation_handler_file gs_eventstate scenario_a_files
      scenario_a_files 50 50 (by decide) (by decide)⟩

/-! ### The timeout handler -/

/-- C3 (as amended): when the initial Get of `_event_loop_scrsvr_on_timeout`
succeeds and reports a nonzero current percent `c`: if `c` is below the timeout
target the handler makes no further call, returns `RET_OK` and has stored `c`;
otherwise it makes exactly one Set call with the timeout target, stores what
that call reports, and returns `RET_OK` when the call succeeds and
`EXIT_FAILURE` when it fails. -/
theorem on_timeout_nonzero {σ : Type} (oh : Backend σ) (T : Nat) (st : Teventstate)
    (dev dev1 : σ) (a c : Nat)
    (hget : oh OPERATION_GETBRIGHTNESS 0 dev = (HandlerResult.returned true (some (a, c)), dev1))
    (hc : c ≠ 0) :
    (c < T →
      _event_loop_scrsvr_on_timeout (logged oh) T st (dev, []) =
        ⟨some RET_OK, { st with brn_priorscrsvr_perc := a, brn_cur_perc := c },
          (dev1, [(OPERATION_GETBRIGHTNESS, 0)])⟩) ∧
    (¬ c < T → ∀ (ret : Bool) (out : Option (Nat × Nat)) (dev2 : σ),
      oh OPERATION_SETBRIGHTNESS T dev1 = (HandlerResult.returned ret out, dev2) →
      _event_loop_scrsvr_on_timeout (logged oh) T st (dev, []) =
        ⟨some (if ret then RET_OK else EXIT_FAILURE),
          store_old_cur { st with brn_priorscrsvr_perc := a, brn_cur_perc := c } out,
          (dev2, [(OPERATION_GETBRIGHTNESS, 0), (OPERATION_SETBRIGHTNESS, T)])⟩) := by
  constructor
  · intro hlt
    simp [_event_loop_scrsvr_on_timeout, _event_loop_scrsvr_on_timeout_dim, logged, hget,
      store_prior_cur, hc, hlt]
  · intro hge ret out dev2 hset
    cases ret <;>
      simp [_event_loop_scrsvr_on_timeout, _event_loop_scrsvr_on_timeout_dim, logged, hget,
        hset, store_prior_cur, hc, hge]

/-- Scenario A for C3: on a sysfs backlight at 128 of 255 the Get reports 50%,
and with timeout target 40 the handler writes absolute 102 and stores 40%. -/
theorem on_timeout_nonzero_witness :
    _operation_handler_file OPERATION_GETBRIGHTNESS 0 scenario_a_files
      = (HandlerResult.returned true (some (50, 50)), scenario_a_files) ∧
    (50 : Nat) ≠ 0 ∧ ¬ (50 : Nat) < 40 ∧
    _event_loop_scrsvr_on_timeout (logged _operation_handler_file) 40 gs_eventstate
        (scenario_a_files, []) =
      ⟨some RET_OK,
        { brn_cur_perc := 40, brn_old_perc := 50, brn_priorscrsvr_perc := 50,
          brn_interval_set := false },
        ({ scenario_a_files with brightness := some 102, written := [102] },
          [(OPERATION_GETBRIGHTNESS, 0), (OPERATION_SETBRIGHTNESS, 40)])⟩ :=
  ⟨by decide, by decide, by decide,
    (on_timeout_nonzero _operation_handler_file 40 gs_eventstate scenario_a_files
      scenario_a_files 50 50 (by decide) (by decide)).2 (by decide) true (some (50, 40))
      { scenario_a_files with brightness := some 102, written := [102] } (by decide)⟩

/-- Counterexample to C3 as stated: on a controller whose Get succeeds with a
nonzero 50% (not below the target 40) and whose Set fails, the handler makes the
Set call and returns `EXIT_FAILURE`, not `RET_OK`. -/
theorem on_timeout_nonzero_counterexample :
    read_only_backend OPERATION_GETBRIGHTNESS 0 ()
      = (HandlerResult.returned true (some (50, 50)), ()) ∧
    (50 : Nat) ≠ 0 ∧ ¬ (50 : Nat) < 40 ∧
    _event_loop_scrsvr_on_timeout (logged read_only_backend) 40 gs_eventstate ((), []) =
      ⟨some EXIT_FAILURE,
        { gs_eventstate with brn_priorscrsvr_perc := 50, brn_cur_perc := 50 },
        ((), [(OPERATION_GETBRIGHTNESS, 0), (OPERATION_SETBRIGHTNESS, 40)])⟩ ∧
    EXIT_FAILURE ≠ RET_OK := by
  decide

/-- C5 (as amended): when the initial Get of `_event_loop_scrsvr_on_timeout`
reports 0% and both following Set(100) calls succeed but report a new percent
of 0, the handler does not fail: with a timeout target above 0 it makes no
further call and returns `RET_OK` with current percent 0; with a timeout target
of 0 it goes on to the Set call with target 0 and returns `RET_OK` when that
call succeeds, `EXIT_FAILURE` when it fails. -/
theorem on_timeout_still_zero {σ : Type} (oh : Backend σ) (T : Nat) (st : Teventstate)
    (dev dev1 dev2 dev3 : σ) (a o1 o2 : Nat)
    (hget : oh OPERATION_GETBRIGHTNESS 0 dev = (HandlerResult.returned true (some (a, 0)), dev1))
    (hset1 : oh OPERATION_SETBRIGHTNESS 100 dev1
      = (HandlerResult.returned true (some (o1, 0)), dev2))
    (hset2 : oh OPERATION_SETBRIGHTNESS 100 dev2
      = (HandlerResult.returned true (some (o2, 0)), dev3)) :
    (0 < T →
      _event_loop_scrsvr_on_timeout (logged oh) T st (dev, []) =
        ⟨some RET_OK,
          { st with brn_priorscrsvr_perc := a, brn_old_perc := o2, brn_cur_perc := 0 },
          (dev3, [(OPERATION_GETBRIGHTNESS, 0), (OPERATION_SETBRIGHTNESS, 100),
            (OPERATION_SETBRIGHTNESS, 100)])⟩) ∧
    (T = 0 → ∀ (ret : Bool) (out : Option (Nat × Nat)) (dev4 : σ),
      oh OPERATION_SETBRIGHTNESS 0 dev3 = (HandlerResult.returned ret out, dev4) →
      _event_loop_scrsvr_on_timeout (logged oh) T st (dev, []) =
        ⟨some (if ret then RET_OK else EXIT_FAILURE),
          store_old_cur
            { st with brn_priorscrsvr_perc := a, brn_old_perc := o2, brn_cur_perc := 0 } out,
          (dev4, [(OPERATION_GETBRIGHTNESS, 0), (OPERATION_SETBRIGHTNESS, 100),
            (OPERATION_SETBRIGHTNESS, 100), (OPERATION_SETBRIGHTNESS, 0)])⟩) := by
  constructor
  · intro hT
    simp [_event_loop_scrsvr_on_timeout, _event_loop_scrsvr_on_timeout_dim, logged, hget,
      hset1, hset2, store_prior_cur, store_old_cur, hT]
  · intro hT ret out dev4 hset3
    subst hT
    cases ret <;>
      simp [_event_loop_scrsvr_on_timeout, _event_loop_scrsvr_on_timeout_dim, logged, hget,
        hset1, hset2, hset3, store_prior_cur, store_old_cur]

/-- A run of the amended C5 on a backlight stuck at zero, with the default
timeout target 40. -/
theorem on_timeout_still_zero_witness :
    (0 : Nat) < 40 ∧
    _event_loop_scrsvr_on_timeout (logged stuck_backend) 40 gs_eventstate ((), []) =
      ⟨some RET_OK,
        { gs_eventstate with brn_priorscrsvr_perc := 0, brn_old_perc := 0, brn_cur_perc := 0 },
        ((), [(OPERATION_GETBRIGHTNESS, 0), (OPERATION_SETBRIGHTNESS, 100),
          (OPERATION_SETBRIGHTNESS, 100)])⟩ :=
  ⟨by decide,
    (on_timeout_still_zero stuck_backend 40 gs_eventstate () () () () 0 0 0
      (by decide) (by decide) (by decide)).1 (by decide)⟩

/-- Counterexample to C5 as stated: on a backlight stuck at zero the Get reports
0% and both Set(100) calls succeed reporting 0%, yet the handler returns
`RET_OK`. -/
theorem on_timeout_still_zero_counterexample :
    stuck_backend OPERATION_GETBRIGHTNESS 0 ()
      = (HandlerResult.returned true (some (0, 0)), ()) ∧
    stuck_backend OPERATION_SETBRIGHTNESS 100 ()
      = (HandlerResult.returned true (some (0, 0)), ()) ∧
    (_event_loop_scrsvr_on_timeout (logged stuck_backend) 40 gs_eventstate ((), [])).code
      = some RET_OK ∧
    (_event_loop_scrsvr_on_timeout (logged stuck_backend) 40 gs_eventstate ((), [])).backend.2
      = [(OPERATION_GETBRIGHTNESS, 0), (OPERATION_SETBRIGHTNESS, 100),
          (OPERATION_SETBRIGHTNESS, 100)] := by
  decide

/-! ### The interval handler -/

/-- C6: with the interval latch false, `_event_loop_scrsvr_on_interval` sets the
latch in every case; if the stored current percent is below the interval target
it makes no controller call and returns `RET_OK`; otherwise it makes exactly one
Set call with the interval target and stores what that call reports (returning
`RET_OK` when the call succeeds and `EXIT_FAILURE` when it fails). -/
theorem on_interval_first {σ : Type} (oh : Backend σ) (I : Nat) (st : Teventstate) (dev : σ)
    (hlatch : st.brn_interval_set = false) :
    (_event_loop_scrsvr_on_interval (logged oh) I st (dev, [])).state.brn_interval_set = true ∧
    (st.brn_cur_perc < I →
      _event_loop_scrsvr_on_interval (logged oh) I st (dev, []) =
        ⟨some RET_OK, { st with brn_interval_set := true }, (dev, [])⟩) ∧
    (¬ st.brn_cur_perc < I →
      (_event_loop_scrsvr_on_interval (logged oh) I st (dev, [])).backend.2
        = [(OPERATION_SETBRIGHTNESS, I)] ∧
      ∀ (ret : Bool) (out : Option (Nat × Nat)) (dev1 : σ),
        oh OPERATION_SETBRIGHTNESS I dev = (HandlerResult.returned ret out, dev1) →
        _event_loop_scrsvr_on_interval (logged oh) I st (dev, []) =
          ⟨some (if ret then RET_OK else EXIT_FAILURE),
            store_old_cur { st with brn_interval_set := true } out,
            (dev1, [(OPERATION_SETBRIGHTNESS, I)])⟩) := by
  refine ⟨on_interval_sets _ _ _ _, ?_, ?_⟩
  · intro hlt
    simp [_event_loop_scrsvr_on_interval, hlatch, hlt]
  · intro hge
    constructor
    · rcases h : oh OPERATION_SETBRIGHTNESS I dev with ⟨r, d⟩
      unfold _event_loop_scrsvr_on_interval
      cases r <;> simp only [logged, h] <;> split_ifs <;> simp_all
    · intro ret out dev1 hset
      cases ret <;> simp [_event_loop_scrsvr_on_interval, logged, hlatch, hge, hset]

/-- Scenario C for C6: interval target 20 and a stored current percent of 10
give no controller call and a set latch. -/
theorem on_interval_first_witness :
    ({ gs_eventstate with brn_cur_perc := 10 } : Teventstate).brn_interval_set = false ∧
    _event_loop_scrsvr_on_interval (logged _operation_handler_file) 20
        { gs_eventstate with brn_cur_perc := 10 } (scenario_a_files, []) =
      ⟨some RET_OK, { gs_eventstate with brn_cur_perc := 10, brn_interval_set := true },
        (scenario_a_files, [])⟩ :=
  ⟨by decide,
    (on_interval_first _operation_handler_file 20 { gs_eventstate with brn_cur_perc := 10 }
      scenario_a_files (by decide)).2.1 (by decide)⟩

/-- C7: with the interval latch true, `_event_loop_scrsvr_on_interval` returns
`RET_OK`, makes no controller call and leaves the event state unchanged; over a
sequence of classified states without `STATE_SCREENSAVER_OFF` the interval
passes make no controller call at all when the latch is already set, and at most
one controller call in total from any event state. -/
theorem on_interval_latched_once {σ : Type} (oh : Backend σ) (I T : Nat) (st : Teventstate)
    (dev : σ) (log : List Call) (states : List state_t)
    (hlatch : st.brn_interval_set = true)
    (hoff : STATE_SCREENSAVER_OFF ∉ states) :
    _event_loop_scrsvr_on_interval (logged oh) I st (dev, log) = ⟨some RET_OK, st, (dev, log)⟩ ∧
    interval_calls oh I T states st dev = [] ∧
    ∀ (st0 : Teventstate) (dev0 : σ), (interval_calls oh I T states st0 dev0).length ≤ 1 :=
  ⟨on_interval_latched oh I st (dev, log) hlatch,
    (interval_calls_bound oh I T states hoff st dev).2 hlatch,
    fun st0 dev0 => (interval_calls_bound oh I T states hoff st0 dev0).1⟩

/-- A run of C7 on the sysfs backlight at 80%: two interval events with the
latch set, and an episode of timeout and interval events. -/
theorem on_interval_latched_once_witness :
    ({ gs_eventstate with brn_cur_perc := 80, brn_interval_set := true }
      : Teventstate).brn_interval_set = true ∧
    STATE_SCREENSAVER_OFF ∉
      [STATE_SCREENSAVER_ON_TIMEOUT, STATE_SCREENSAVER_ON_INTERVAL, STATE_SCREENSAVER_CYCLE,
        STATE_SCREENSAVER_ON_INTERVAL] ∧
    (_event_loop_scrsvr_on_interval (logged _operation_handler_file) 20
        { gs_eventstate with brn_cur_perc := 80, brn_interval_set := true } (bright_files, []) =
      ⟨some RET_OK, { gs_eventstate with brn_cur_perc := 80, brn_interval_set := true },
        (bright_files, [])⟩ ∧
    interval_calls _operation_handler_file 20 40
        [STATE_SCREENSAVER_ON_TIMEOUT, STATE_SCREENSAVER_ON_INTERVAL, STATE_SCREENSAVER_CYCLE,
          STATE_SCREENSAVER_ON_INTERVAL]
        { gs_eventstate with brn_cur_perc := 80, brn_interval_set := true } bright_files = [] ∧
    ∀ (st0 : Teventstate) (dev0 : SysfsFiles),
      (interval_calls _operation_handler_file 20 40
        [STATE_SCREENSAVER_ON_TIMEOUT, STATE_SCREENSAVER_ON_INTERVAL, STATE_SCREENSAVER_CYCLE,
          STATE_SCREENSAVER_ON_INTERVAL] st0 dev0).length ≤ 1) :=
  ⟨by decide, by decide,
    on_interval_latched_once _operation_handler_file 20 40
      { gs_eventstate with brn_cur_perc := 80, brn_interval_set := true } bright_files []
      [STATE_SCREENSAVER_ON_TIMEOUT, STATE_SCREENSAVER_ON_INTERVAL, STATE_SCREENSAVER_CYCLE,
        STATE_SCREENSAVER_ON_INTERVAL] (by decide) (by decide)⟩

/-! ### The event loop -/

/-- C9: in a pass of `event_loop` whose query classifies the state as
`STATE_SCREENSAVER_CYCLE`, `STATE_SCREENSAVER_DISABLED`, `STATE_DPMS_STANDBY`,
`STATE_DPMS_SUSPEND`, `STATE_DPMS_OFF` or `STATE_UNKNOWN`, no controller call is
made (the record of calls and the backend are unchanged), the event state is
unchanged, and the loop goes on. -/
theorem event_loop_passive_states {σ : Type} (oh : Backend σ) (I T : Nat) (input : LoopInput)
    (g g1 : Tglobalstate) (st : Teventstate) (s : σ × List Call)
    (hconn : input.connection_has_error = false)
    (hevent : input.event_is_screensaver = true)
    (hquery : query_state g input.replies = (true, g1))
    (hstate : g1.state ∈ [STATE_SCREENSAVER_CYCLE, STATE_SCREENSAVER_DISABLED,
      STATE_DPMS_STANDBY, STATE_DPMS_SUSPEND, STATE_DPMS_OFF, STATE_UNKNOWN]) :
    event_loop_iteration (logged oh) I T input g st s = ⟨LoopStatus.looping, g1, st, s⟩ ∧
    ∀ (inputs : List LoopInput),
      event_loop (logged oh) I T (input :: inputs) g st s
        = event_loop (logged oh) I T inputs g1 st s := by
  have hit : event_loop_iteration (logged oh) I T input g st s
      = ⟨LoopStatus.looping, g1, st, s⟩ := by
    simp only [List.mem_cons, List.mem_singleton, List.not_mem_nil, or_false] at hstate
    rcases hstate with h | h | h | h | h | h <;>
      simp [event_loop_iteration, hconn, hevent, hquery, h, event_loop_switch, RET_OK]
  refine ⟨hit, fun inputs => ?_⟩
  simp [event_loop, hit]

/-- A run of C9: a screensaver cycle event on the sysfs backlight of Scenario A. -/
theorem event_loop_passive_states_witness :
    (screensaver_input 2 0 700000 600).connection_has_error = false ∧
    (screensaver_input 2 0 700000 600).event_is_screensaver = true ∧
    event_loop_iteration (logged _operation_handler_file) 20 40
        (screensaver_input 2 0 700000 600) gs_globalstate scenario_d_state
        (scenario_a_files, []) =
      ⟨LoopStatus.looping,
        { screensaver_timeout := 600, screensaver_interval := 600, dpms_power_level := 0,
          screensaver_idlesecuser := 700, state := STATE_SCREENSAVER_CYCLE,
          screensaver_state := 2 },
        scenario_d_state, (scenario_a_files, [])⟩ :=
  ⟨by decide, by decide,
    (event_loop_passive_states _operation_handler_file 20 40
      (screensaver_input 2 0 700000 600) gs_globalstate
      { screensaver_timeout := 600, screensaver_interval := 600, dpms_power_level := 0,
        screensaver_idlesecuser := 700, state := STATE_SCREENSAVER_CYCLE,
        screensaver_state := 2 }
      scenario_d_state (scenario_a_files, []) (by decide) (by decide) (by decide)
      (by decide)).1⟩

/-! ### The controller arithmetic without overflow -/

theorem wrap32_of_fits {x : Int} (h : fits32 x) : wrap32 x = x := by
  unfold fits32 at h
  unfold wrap32
  omega

theorem div32_of_pos (a : Int) {b : Int} (hb : 0 < b) : div32 a b = some (Int.tdiv a b) := by
  unfold div32
  have h1 : b ≠ 0 := by omega
  have h2 : ¬ (a = -2147483648 ∧ b = -1) := by omega
  simp [h1, h2]

theorem tdiv_100_bounds (x : Int) (h : fits32 x) :
    -21474836 ≤ Int.tdiv x 100 ∧ Int.tdiv x 100 ≤ 21474836 := by
  unfold fits32 at h
  rcases Int.le_total 0 x with hx | hx
  · rw [Int.tdiv_eq_ediv hx (by decide)]
    omega
  · have : Int.tdiv x 100 = -(Int.tdiv (-x) 100) := by
      rw [Int.neg_tdiv, neg_neg]
    rw [this, Int.tdiv_eq_ediv (by omega) (by decide)]
    omega

theorem clamp_eq (x lo hi : Int) (h : lo ≤ hi) :
    (if (if x > hi then hi else x) < lo then lo else (if x > hi then hi else x))
      = spec_clamp x lo hi := by
  unfold spec_clamp
  split_ifs <;> omega

theorem file_set_eq (cur max_abs : Int) (p : Nat) (w : Bool) (log : List Int)
    (hcur : cur ≠ NO_BRIGHTNESS) (hrange : 0 < max_abs)
    (h1 : fits32 ((p : Int) * max_abs)) (h2 : fits32 (cur * 100)) (h5 : fits32 (max_abs * 100)) :
    _operation_handler_file OPERATION_SETBRIGHTNESS p
        { brightness := some cur, max_brightness := some max_abs, writable := w, written := log } =
      (HandlerResult.returned true
        (some (spec_percent 0 max_abs cur, spec_new_percent 0 max_abs (spec_set_abs 0 max_abs p))),
        { brightness := some (if w then spec_set_abs 0 max_abs p else cur),
          max_brightness := some max_abs, writable := w,
          written := log ++ [spec_set_abs 0 max_abs p] }) := by
  have hb := tdiv_100_bounds _ h1
  have hmax : fits32 max_abs := by unfold fits32 at *; omega
  have hcurf : fits32 cur := by unfold fits32 at *; omega
  have hmax1 : max_abs ≠ NO_BRIGHTNESS := by unfold NO_BRIGHTNESS; omega
  have hW : 0 ≤ spec_set_abs 0 max_abs p ∧ spec_set_abs 0 max_abs p ≤ max_abs := by
    unfold spec_set_abs spec_clamp
    omega
  have hWf : fits32 (spec_set_abs 0 max_abs p * 100) := by unfold fits32 at *; omega
  have hWdef : spec_set_abs 0 max_abs p
      = spec_clamp (Int.tdiv ((p : Int) * max_abs) 100) 0 max_abs := by
    simp [spec_set_abs]
  have hx : fits32 (Int.tdiv ((p : Int) * max_abs) 100) := by unfold fits32; omega
  simp only [_operation_handler_file, get_brightness_file, hcur, hmax1, if_false, sub32, mul32,
    add32, sub_zero, zero_add, wrap32_of_fits hmax, wrap32_of_fits hcurf, wrap32_of_fits h1,
    wrap32_of_fits h2, wrap32_of_fits hx, div32_of_pos _ hrange, clamp_eq _ _ _ (le_of_lt hrange),
    ← hWdef, wrap32_of_fits hWf, set_brightness_file, spec_percent, spec_new_percent]
  cases w <;> simp

theorem file_get_eq (cur max_abs : Int) (p : Nat) (w : Bool) (log : List Int)
    (hcur : cur ≠ NO_BRIGHTNESS) (hrange : 0 < max_abs)
    (h2 : fits32 (cur * 100)) (h5 : fits32 (max_abs * 100)) :
    _operation_handler_file OPERATION_GETBRIGHTNESS p
        { brightness := some cur, max_brightness := some max_abs, writable := w, written := log } =
      (HandlerResult.returned true (some (spec_percent 0 max_abs cur, spec_percent 0 max_abs cur)),
        { brightness := some cur, max_brightness := some max_abs, writable := w,
          written := log }) := by
  have hmax : fits32 max_abs := by unfold fits32 at *; omega
  have hcurf : fits32 cur := by unfold fits32 at *; omega
  have hmax1 : max_abs ≠ NO_BRIGHTNESS := by unfold NO_BRIGHTNESS; omega
  simp only [_operation_handler_file, get_brightness_file, hcur, hmax1, if_false, sub32, mul32,
    sub_zero, wrap32_of_fits hmax, wrap32_of_fits hcurf,
    wrap32_of_fits h2, div32_of_pos _ hrange, spec_percent]

theorem randr_set_eq (min_abs max_abs cur : Int) (p : Nat) (legacy : RandrProperty)
    (write_ok : Bool) (atom : backlight_atom_t) (log : List (Nat × Int))
    (hcur : cur ≠ NO_BRIGHTNESS) (hrange : min_abs < max_abs)
    (h1 : fits32 ((p : Int) * (max_abs - min_abs))) (h2 : fits32 ((cur - min_abs) * 100))
    (h4 : fits32 (min_abs * 100)) (h5 : fits32 (max_abs * 100)) :
    _operation_handler_randr OPERATION_SETBRIGHTNESS p
        (single_output_server (usable_property cur min_abs max_abs write_ok) legacy atom log) =
      (HandlerResult.returned true
        (some (spec_percent min_abs max_abs cur,
          spec_new_percent min_abs max_abs (spec_set_abs min_abs max_abs p))),
        single_output_server
          (usable_property (if write_ok then spec_set_abs min_abs max_abs p else cur)
            min_abs max_abs write_ok)
          legacy backlight_new_atom (log ++ [(0, spec_set_abs min_abs max_abs p)])) := by
  have hb := tdiv_100_bounds _ h1
  have hd : fits32 (max_abs - min_abs) := by unfold fits32 at *; omega
  have hc : fits32 (cur - min_abs) := by unfold fits32 at *; omega
  have hpos : 0 < max_abs - min_abs := by omega
  have hx : fits32 (Int.tdiv ((p : Int) * (max_abs - min_abs)) 100) := by unfold fits32; omega
  have hs : fits32 (min_abs + Int.tdiv ((p : Int) * (max_abs - min_abs)) 100) := by
    unfold fits32 at *; omega
  have hW : min_abs ≤ spec_set_abs min_abs max_abs p ∧ spec_set_abs min_abs max_abs p ≤ max_abs := by
    unfold spec_set_abs spec_clamp
    omega
  have hWf : fits32 (spec_set_abs min_abs max_abs p * 100) := by unfold fits32 at *; omega
  have hWdef : spec_set_abs min_abs max_abs p
      = spec_clamp (min_abs + Int.tdiv ((p : Int) * (max_abs - min_abs)) 100) min_abs max_abs := rfl
  simp [single_output_server, usable_property, _operation_handler_randr, _operation_handler_randr_outputs, List.range_succ,
    get_brightness_randr, _get_brightness_randr, RandrOutput.property, hcur, sub32, mul32,
    add32, wrap32_of_fits hd, wrap32_of_fits hc, wrap32_of_fits h1,
    wrap32_of_fits h2, wrap32_of_fits hx, wrap32_of_fits hs, div32_of_pos _ hpos,
    clamp_eq _ _ _ (le_of_lt hrange),
    ← hWdef, wrap32_of_fits hWf, set_brightness_randr, spec_percent, spec_new_percent,
    RandrOutput.change_property]
  cases write_ok <;> simp

theorem randr_get_eq (min_abs max_abs cur : Int) (p : Nat) (legacy : RandrProperty)
    (write_ok : Bool) (atom : backlight_atom_t) (log : List (Nat × Int))
    (hcur : cur ≠ NO_BRIGHTNESS) (hrange : min_abs < max_abs)
    (h2 : fits32 ((cur - min_abs) * 100))
    (h4 : fits32 (min_abs * 100)) (h5 : fits32 (max_abs * 100)) :
    _operation_handler_randr OPERATION_GETBRIGHTNESS p
        (single_output_server (usable_property cur min_abs max_abs write_ok) legacy atom log) =
      (HandlerResult.returned true
        (some (spec_percent min_abs max_abs cur, spec_percent min_abs max_abs cur)),
        single_output_server (usable_property cur min_abs max_abs write_ok)
          legacy backlight_new_atom log) := by
  have hd : fits32 (max_abs - min_abs) := by unfold fits32 at *; omega
  have hc : fits32 (cur - min_abs) := by unfold fits32 at *; omega
  have hpos : 0 < max_abs - min_abs := by omega
  simp [single_output_server, usable_property, _operation_handler_randr,
    _operation_handler_randr_outputs, List.range_succ,
    get_brightness_randr, _get_brightness_randr, RandrOutput.property, hcur, sub32, mul32,
    wrap32_of_fits hd, wrap32_of_fits hc,
    wrap32_of_fits h2, div32_of_pos _ hpos, spec_percent]

theorem spec_set_abs_full (max_abs : Int) (h : 0 < max_abs) : spec_set_abs 0 max_abs 100 = max_abs := by
  have : Int.tdiv (((100 : Nat) : Int) * (max_abs - 0)) 100 = max_abs := by
    rw [Int.tdiv_eq_ediv (by simp; omega) (by decide)]
    simp
  unfold spec_set_abs spec_clamp
  rw [this]
  omega

theorem spec_set_abs_zero_min (max_abs : Int) (t : Nat) (h : 0 < max_abs) (ht : t ≤ 100) :
    spec_set_abs 0 max_abs t = (t : Int) * max_abs / 100 := by
  have h0 : 0 ≤ (t : Int) * max_abs := Int.mul_nonneg (by omega) (by omega)
  have h1 : (t : Int) * max_abs ≤ 100 * max_abs :=
    Int.mul_le_mul_of_nonneg_right (by omega) (by omega)
  have : Int.tdiv ((t : Int) * (max_abs - 0)) 100 = (t : Int) * max_abs / 100 := by
    rw [sub_zero, Int.tdiv_eq_ediv h0 (by decide)]
  unfold spec_set_abs spec_clamp
  rw [this]
  omega

theorem spec_percent_zero (max_abs : Int) : spec_percent 0 max_abs 0 = 0 := by
  simp [spec_percent, uint8_cast]

theorem spec_percent_full (max_abs : Int) (h : 0 < max_abs) : spec_percent 0 max_abs max_abs = 100 := by
  have : Int.tdiv (max_abs * 100) max_abs = 100 := by
    rw [Int.tdiv_eq_ediv (by omega) (by omega)]
    exact Int.mul_ediv_cancel_left 100 (by omega)
  simp [spec_percent, this, uint8_cast]

theorem spec_new_percent_full (max_abs : Int) (h : 0 < max_abs) :
    spec_new_percent 0 max_abs max_abs = 100 := by
  have : Int.tdiv (max_abs * 100) max_abs = 100 := by
    rw [Int.tdiv_eq_ediv (by omega) (by omega)]
    exact Int.mul_ediv_cancel_left 100 (by omega)
  simp [spec_new_percent, this, uint8_cast]

theorem spec_new_percent_small (max_abs w : Int) (h : 0 < max_abs) (h0 : 0 ≤ w)
    (hw : w ≤ max_abs) :
    spec_new_percent 0 max_abs w = (w * 100 / max_abs).toNat := by
  have hq0 : 0 ≤ w * 100 / max_abs := Int.ediv_nonneg (by omega) (by omega)
  have hq1 : w * 100 / max_abs < 101 := Int.ediv_lt_of_lt_mul h (by omega)
  unfold spec_new_percent uint8_cast
  rw [sub_zero, Int.tdiv_eq_ediv (by omega) (by omega)]
  congr 1
  omega

/-! ### The Set operation of the controller -/

/-- C10 (as amended): for an output with a usable range `min_abs < max_abs`, a
current absolute value other than the `NO_BRIGHTNESS` sentinel -1 and a target
percent `p`, provided the products `p * (max_abs - min_abs)`,
`(cur - min_abs) * 100`, `min_abs * 100` and `max_abs * 100` fit in a signed
32-bit integer, the Set operation hands
`clamp(min_abs + p * (max_abs - min_abs) / 100, min_abs, max_abs)` (truncating
division) to the backend write, reports as old percent the value that Get
reports, and reports as new percent `written * 100 / (max_abs - min_abs)`
narrowed to 8 bits, without subtracting `min_abs`. This holds for
`_operation_handler_randr` on a screen with one output and, with `min_abs = 0`,
for `_operation_handler_file`. -/
theorem set_writes_clamped (min_abs max_abs cur : Int) (p : Nat) (legacy : RandrProperty)
    (write_ok : Bool) (atom : backlight_atom_t) (log : List (Nat × Int)) (flog : List Int)
    (hrange : min_abs < max_abs) (hcur : cur ≠ NO_BRIGHTNESS)
    (h1 : fits32 ((p : Int) * (max_abs - min_abs))) (h2 : fits32 ((cur - min_abs) * 100))
    (h4 : fits32 (min_abs * 100)) (h5 : fits32 (max_abs * 100)) :
    (_operation_handler_randr OPERATION_SETBRIGHTNESS p
        (single_output_server (usable_property cur min_abs max_abs write_ok) legacy atom log) =
      (HandlerResult.returned true
        (some (spec_percent min_abs max_abs cur,
          spec_new_percent min_abs max_abs (spec_set_abs min_abs max_abs p))),
        single_output_server
          (usable_property (if write_ok then spec_set_abs min_abs max_abs p else cur)
            min_abs max_abs write_ok)
          legacy backlight_new_atom (log ++ [(0, spec_set_abs min_abs max_abs p)])) ∧
      (_operation_handler_randr OPERATION_GETBRIGHTNESS 0
        (single_output_server (usable_property cur min_abs max_abs write_ok) legacy atom log)).1 =
        HandlerResult.returned true
          (some (spec_percent min_abs max_abs cur, spec_percent min_abs max_abs cur))) ∧
    (min_abs = 0 →
      _operation_handler_file OPERATION_SETBRIGHTNESS p
        { brightness := some cur, max_brightness := some max_abs, writable := write_ok,
          written := flog } =
      (HandlerResult.returned true
        (some (spec_percent min_abs max_abs cur,
          spec_new_percent min_abs max_abs (spec_set_abs min_abs max_abs p))),
        { brightness := some (if write_ok then spec_set_abs min_abs max_abs p else cur),
          max_brightness := some max_abs, writable := write_ok,
          written := flog ++ [spec_set_abs min_abs max_abs p] }) ∧
      (_operation_handler_file OPERATION_GETBRIGHTNESS 0
        { brightness := some cur, max_brightness := some max_abs, writable := write_ok,
          written := flog }).1 =
        HandlerResult.returned true
          (some (spec_percent min_abs max_abs cur, spec_percent min_abs max_abs cur))) := by
  refine ⟨⟨randr_set_eq min_abs max_abs cur p legacy write_ok atom log hcur hrange h1 h2 h4 h5,
    ?_⟩, ?_⟩
  · rw [randr_get_eq min_abs max_abs cur 0 legacy write_ok atom log hcur hrange h2 h4 h5]
  · intro hmin
    subst hmin
    simp only [sub_zero] at h1 h2
    exact ⟨file_set_eq cur max_abs p write_ok flog hcur hrange h1 h2 h5,
      by rw [file_get_eq cur max_abs 0 write_ok flog hcur hrange h2 h5]⟩

/-- Scenario A for C10: range `[0, 255]`, current 128, target 40: old percent
50, written absolute 102, new percent 40, on both controllers. -/
theorem set_writes_clamped_witness :
    ((0 : Int) < 255 ∧ (128 : Int) ≠ NO_BRIGHTNESS) ∧
    (_operation_handler_randr OPERATION_SETBRIGHTNESS 40
        (single_output_server (usable_property 128 0 255 true) missing_property
          backlight_legacy_atom []) =
      (HandlerResult.returned true (some (50, 40)),
        single_output_server (usable_property 102 0 255 true) missing_property
          backlight_new_atom [(0, 102)])) ∧
    _operation_handler_file OPERATION_SETBRIGHTNESS 40 scenario_a_files =
      (HandlerResult.returned true (some (50, 40)),
        { scenario_a_files with brightness := some 102, written := [102] }) :=
  ⟨⟨by decide, by decide⟩,
    (set_writes_clamped 0 255 128 40 missing_property true backlight_legacy_atom [] []
      (by decide) (by decide) (by decide) (by decide) (by decide) (by decide)).1.1,
    ((set_writes_clamped 0 255 128 40 missing_property true backlight_legacy_atom [] []
      (by decide) (by decide) (by decide) (by decide) (by decide) (by decide)).2 rfl).1⟩

/-- Counterexample to C10 as stated. On the sysfs backlight with range
`[0, 21474837]` at current 0, Set(100) should write 21474837, but `100 * 21474837`
exceeds 32 bits and the controller writes 0. On a RandR output with range
`[-10, 10]` whose current value is -1, Set(50) should write 0, but the value is
read as `NO_BRIGHTNESS`: the controller fails and writes nothing. -/
theorem set_writes_clamped_counterexample :
    ((0 : Int) < 21474837 ∧ spec_set_abs 0 21474837 100 = 21474837 ∧
      _operation_handler_file OPERATION_SETBRIGHTNESS 100
        { brightness := some 0, max_brightness := some 21474837, writable := true,
          written := [] } =
      (HandlerResult.returned true (some (0, 0)),
        { brightness := some 0, max_brightness := some 21474837, writable := true,
          written := [0] })) ∧
    ((-10 : Int) < 10 ∧ spec_set_abs (-10) 10 50 = 0 ∧
      _operation_handler_randr OPERATION_SETBRIGHTNESS 50
        (single_output_server (usable_property (-1) (-10) 10 true) missing_property
          backlight_new_atom []) =
      (HandlerResult.returned false none,
        single_output_server (usable_property (-1) (-10) 10 true) missing_property
          backlight_legacy_atom [])) := by
  decide

/-! ### The timeout handler on a sysfs backlight at zero -/

/-- C4 (as amended): on the sysfs backlight with range `[0, max_abs]`,
`1 ≤ max_abs ≤ 21474836` (so that `100 * max_abs` fits in 32 bits), at current
absolute value 0, and for a timeout target `t ≤ 100`,
`_event_loop_scrsvr_on_timeout` makes the calls Get, Set(100), Set(t): it hands
`max_abs` (reported as 100%) and then `t * max_abs / 100` to the backend write
and returns `RET_OK`; when the file is writable that last value is on the
device. -/
theorem on_timeout_from_zero (max_abs : Int) (t : Nat) (w : Bool) (st : Teventstate)
    (hmax1 : 1 ≤ max_abs) (hmax2 : max_abs ≤ 21474836) (ht : t ≤ 100) :
    _event_loop_scrsvr_on_timeout (logged _operation_handler_file) t st
        ({ brightness := some 0, max_brightness := some max_abs, writable := w, written := [] },
          []) =
      ⟨some RET_OK,
        { brn_cur_perc := ((t : Int) * max_abs / 100 * 100 / max_abs).toNat,
          brn_old_perc := if w then 100 else 0,
          brn_priorscrsvr_perc := 0,
          brn_interval_set := st.brn_interval_set },
        ({ brightness := some (if w then (t : Int) * max_abs / 100 else 0),
           max_brightness := some max_abs, writable := w,
           written := [max_abs, (t : Int) * max_abs / 100] },
          [(OPERATION_GETBRIGHTNESS, 0), (OPERATION_SETBRIGHTNESS, 100),
            (OPERATION_SETBRIGHTNESS, t)])⟩ := by
  have hpos : 0 < max_abs := by omega
  have h0 : 0 ≤ (t : Int) * max_abs := Int.mul_nonneg (by omega) (by omega)
  have hle : (t : Int) * max_abs ≤ 100 * max_abs :=
    Int.mul_le_mul_of_nonneg_right (by omega) (by omega)
  have hf5 : fits32 (max_abs * 100) := by unfold fits32; omega
  have hf100 : fits32 (((100 : Nat) : Int) * max_abs) := by unfold fits32; omega
  have hft : fits32 ((t : Int) * max_abs) := by unfold fits32; omega
  have hf0 : fits32 ((0 : Int) * 100) := by unfold fits32; omega
  have hW0 : 0 ≤ (t : Int) * max_abs / 100 := by omega
  have hW1 : (t : Int) * max_abs / 100 ≤ max_abs := by omega
  have hg := file_get_eq 0 max_abs 0 w [] (by decide) hpos hf0 hf5
  have hs1 := file_set_eq 0 max_abs 100 w [] (by decide) hpos hf100 hf0 hf5
  rw [spec_percent_zero] at hg
  rw [spec_percent_zero, spec_set_abs_full _ hpos, spec_new_percent_full _ hpos] at hs1
  cases w
  · have hs2 := file_set_eq 0 max_abs t false [max_abs] (by decide) hpos hft hf0 hf5
    rw [spec_percent_zero, spec_set_abs_zero_min _ _ hpos ht,
      spec_new_percent_small _ _ hpos hW0 hW1] at hs2
    have ht100 : ¬ (100 < t) := by omega
    simp at hs1 hs2
    simp [_event_loop_scrsvr_on_timeout, _event_loop_scrsvr_on_timeout_dim, logged, hg, hs1, hs2,
      store_prior_cur, store_old_cur, ht100, RET_OK]
  · have hs2 := file_set_eq max_abs max_abs t true [max_abs]
      (by unfold NO_BRIGHTNESS; omega) hpos hft hf5 hf5
    rw [spec_percent_full _ hpos, spec_set_abs_zero_min _ _ hpos ht,
      spec_new_percent_small _ _ hpos hW0 hW1] at hs2
    have ht100 : ¬ (100 < t) := by omega
    simp at hs1 hs2
    simp [_event_loop_scrsvr_on_timeout, _event_loop_scrsvr_on_timeout_dim, logged, hg, hs1, hs2,
      store_prior_cur, store_old_cur, ht100, RET_OK]

/-- Scenario B for C4: `max_abs` 255 and timeout target 40 give the writes 255
then 102 and a final reported percent of 40. -/
theorem on_timeout_from_zero_witness :
    ((1 : Int) ≤ 255 ∧ (255 : Int) ≤ 21474836 ∧ (40 : Nat) ≤ 100) ∧
    _event_loop_scrsvr_on_timeout (logged _operation_handler_file) 40 gs_eventstate
        (scenario_b_files, []) =
      ⟨some RET_OK,
        { brn_cur_perc := 40, brn_old_perc := 100, brn_priorscrsvr_perc := 0,
          brn_interval_set := false },
        ({ brightness := some 102, max_brightness := some 255, writable := true,
           written := [255, 102] },
          [(OPERATION_GETBRIGHTNESS, 0), (OPERATION_SETBRIGHTNESS, 100),
            (OPERATION_SETBRIGHTNESS, 40)])⟩ :=
  ⟨by decide,
    on_timeout_from_zero 255 40 true gs_eventstate (by decide) (by decide) (by decide)⟩

/-- Counterexample to C4 as stated: on the sysfs backlight with range
`[0, 21474837]` at current 0 and timeout target 40, `100 * 21474837` exceeds 32
bits; both Set(100) calls hand 0 to the backend write and report 0%, no
Set(40) is made, and the device stays at 0 instead of 8589934. -/
theorem on_timeout_from_zero_counterexample :
    ((1 : Int) ≤ 21474837 ∧ (40 : Nat) ≤ 100 ∧ (40 : Int) * 21474837 / 100 = 8589934) ∧
    _event_loop_scrsvr_on_timeout (logged _operation_handler_file) 40 gs_eventstate
        ({ brightness := some 0, max_brightness := some 21474837, writable := true,
           written := [] }, []) =
      ⟨some RET_OK,
        { brn_cur_perc := 0, brn_old_perc := 0, brn_priorscrsvr_perc := 0,
          brn_interval_set := false },
        ({ brightness := some 0, max_brightness := some 21474837, writable := true,
           written := [0, 0] },
          [(OPERATION_GETBRIGHTNESS, 0), (OPERATION_SETBRIGHTNESS, 100),
            (OPERATION_SETBRIGHTNESS, 100)])⟩ := by
  decide

/-! ### Capturing the brightness to restore -/

/-- C2, the code at the failing input: from the event state left by a
ScreensaverOff (current percent 80, no stored prior percent) on the sysfs
backlight at 204 of 255, `_event_loop_scrsvr_on_interval` with target 20 dims to
absolute 51 and leaves the prior percent at 0xff; the following
`_event_loop_scrsvr_off` then only reads, so the brightness stays at 51. The
same is seen on `event_loop` fed with the events Off, On (interval), Off. -/
theorem interval_dim_leaves_prior_undefined :
    _event_loop_scrsvr_on_interval (logged _operation_handler_file) 20
        { brn_cur_perc := 80, brn_old_perc := 80,
          brn_priorscrsvr_perc := BRN_PRIORSCRSVR_UNDEFINED, brn_interval_set := false }
        (bright_files, []) =
      ⟨some RET_OK,
        { brn_cur_perc := 20, brn_old_perc := 80,
          brn_priorscrsvr_perc := BRN_PRIORSCRSVR_UNDEFINED, brn_interval_set := true },
        ({ bright_files with brightness := some 51, written := [51] },
          [(OPERATION_SETBRIGHTNESS, 20)])⟩ ∧
    _event_loop_scrsvr_off (logged _operation_handler_file)
        { brn_cur_perc := 20, brn_old_perc := 80,
          brn_priorscrsvr_perc := BRN_PRIORSCRSVR_UNDEFINED, brn_interval_set := true }
        ({ bright_files with brightness := some 51, written := [51] }, []) =
      ⟨some RET_OK,
        { brn_cur_perc := 20, brn_old_perc := 20,
          brn_priorscrsvr_perc := BRN_PRIORSCRSVR_UNDEFINED, brn_interval_set := false },
        ({ bright_files with brightness := some 51, written := [51] },
          [(OPERATION_GETBRIGHTNESS, 0)])⟩ ∧
    (event_loop (logged _operation_handler_file) 20 40
        [screensaver_input 0 0 0 600, screensaver_input 1 0 700000 600,
          screensaver_input 0 0 0 600]
        gs_globalstate gs_eventstate (bright_files, [])).backend =
      ({ bright_files with brightness := some 51, written := [51] },
        [(OPERATION_GETBRIGHTNESS, 0), (OPERATION_SETBRIGHTNESS, 20),
          (OPERATION_GETBRIGHTNESS, 0)]) := by
  decide

/-! ### Classification of the screensaver-off state -/

/-- C20: whenever the screensaver state is `XCB_SCREENSAVER_STATE_OFF`, the
classification of `query_state` is `STATE_SCREENSAVER_OFF`, whatever the power
level, the idle seconds, the timeout and the interval are: for the `switch`
itself, and for `query_state` on every answered query. -/
theorem query_state_off (g : Tglobalstate) (power_level ms_since_user_input timeout interval : Nat)
    (hstate : g.screensaver_state = XCB_SCREENSAVER_STATE_OFF) :
    query_state_switch g = STATE_SCREENSAVER_OFF ∧
    (query_state g
      { connection_has_error := false
        dpms_power_level := some power_level
        screensaver := some (XCB_SCREENSAVER_STATE_OFF, ms_since_user_input, timeout, interval) }).2.state
      = STATE_SCREENSAVER_OFF := by
  constructor
  · simp [query_state_switch, hstate, XCB_SCREENSAVER_STATE_OFF]
  · simp [query_state, query_state_switch, XCB_SCREENSAVER_STATE_OFF]

/-- A run of C20: screensaver off while the power level says DPMS off and the
idle time equals the timeout. -/
theorem query_state_off_witness :
    off_globalstate.screensaver_state = XCB_SCREENSAVER_STATE_OFF ∧
    query_state_switch off_globalstate = STATE_SCREENSAVER_OFF ∧
    (query_state off_globalstate
      { connection_has_error := false
        dpms_power_level := some 3
        screensaver := some (XCB_SCREENSAVER_STATE_OFF, 600000, 600, 10) }).2.state
      = STATE_SCREENSAVER_OFF :=
  ⟨by decide, query_state_off off_globalstate 3 600000 600 10 (by decide)⟩

/-! ### Write errors and degenerate ranges -/

/-- C16, the code at the failing input: on a sysfs backlight whose `brightness`
file cannot be written, and on a RandR output whose property change fails, the
backend write reports `NO_BRIGHTNESS`, yet Set, Increase and Decrease return
true and report the new percent as if it had been written; the timeout handler
on such a backlight returns `RET_OK`. -/
theorem write_error_is_ignored :
    (set_brightness_file unwritable_files 102).1 = NO_BRIGHTNESS ∧
    _operation_handler_file OPERATION_SETBRIGHTNESS 40 unwritable_files =
      (HandlerResult.returned true (some (50, 40)),
        { unwritable_files with written := [102] }) ∧
    (_operation_handler_file OPERATION_INCBRIGHTNESS 10 unwritable_files).1 =
      HandlerResult.returned true (some (50, 60)) ∧
    (_operation_handler_file OPERATION_DECBRIGHTNESS 10 unwritable_files).1 =
      HandlerResult.returned true (some (50, 40)) ∧
    (set_brightness_randr
      (single_output_server (usable_property 128 0 255 false) missing_property
        backlight_new_atom []) 0 102).1 = NO_BRIGHTNESS ∧
    _operation_handler_randr OPERATION_SETBRIGHTNESS 40
        (single_output_server (usable_property 128 0 255 false) missing_property
          backlight_new_atom []) =
      (HandlerResult.returned true (some (50, 40)),
        single_output_server (usable_property 128 0 255 false) missing_property
          backlight_new_atom [(0, 102)]) ∧
    (_event_loop_scrsvr_on_timeout (logged _operation_handler_file) 40 gs_eventstate
        (unwritable_files, [])).code = some RET_OK := by
  decide

/-- C18, the code at the failing input: with `max_brightness` reading 0 the
sysfs controller divides by zero, and so does the RandR controller on an output
whose range is `[7, 7]`; on an output whose valid values are `[10, 5]` the RandR
controller computes percents, hands 10 to the backend write and reports
`(60, 56)`. No degenerate range is skipped. -/
theorem degenerate_range_not_skipped :
    _operation_handler_file OPERATION_GETBRIGHTNESS 0 degenerate_files =
      (HandlerResult.trapped, degenerate_files) ∧
    (_operation_handler_file OPERATION_SETBRIGHTNESS 40 degenerate_files).1 =
      HandlerResult.trapped ∧
    (_operation_handler_randr OPERATION_GETBRIGHTNESS 0
      (single_output_server (usable_property 7 7 7 true) missing_property
        backlight_new_atom [])).1 = HandlerResult.trapped ∧
    _operation_handler_randr OPERATION_SETBRIGHTNESS 50
        (single_output_server (usable_property 7 10 5 true) missing_property
          backlight_new_atom []) =
      (HandlerResult.returned true (some (60, 56)),
        single_output_server (usable_property 10 10 5 true) missing_property
          backlight_new_atom [(0, 10)]) ∧
    (_event_loop_scrsvr_off (logged _operation_handler_file) gs_eventstate
        (degenerate_files, [])).code = none := by
  decide

/-! ### The Get operation of the controller -/

/-- C11 (as amended): for an output with a usable range `min_abs < max_abs` and
a current absolute value other than the `NO_BRIGHTNESS` sentinel -1, provided
the products `(cur - min_abs) * 100`, `min_abs * 100` and `max_abs * 100` fit in
a signed 32-bit integer, the Get operation succeeds, hands nothing to the
backend write, and reports the pair `(c, c)` with
`c = (cur - min_abs) * 100 / (max_abs - min_abs)`, truncating toward zero and
narrowed to 8 bits. This holds for `_operation_handler_randr` on a screen with
one output and, with `min_abs = 0`, for `_operation_handler_file`. -/
theorem get_reports_percent (min_abs max_abs cur : Int) (p : Nat) (legacy : RandrProperty)
    (write_ok : Bool) (atom : backlight_atom_t) (log : List (Nat × Int)) (flog : List Int)
    (hrange : min_abs < max_abs) (hcur : cur ≠ NO_BRIGHTNESS)
    (h2 : fits32 ((cur - min_abs) * 100))
    (h4 : fits32 (min_abs * 100)) (h5 : fits32 (max_abs * 100)) :
    _operation_handler_randr OPERATION_GETBRIGHTNESS p
        (single_output_server (usable_property cur min_abs max_abs write_ok) legacy atom log) =
      (HandlerResult.returned true
        (some (spec_percent min_abs max_abs cur, spec_percent min_abs max_abs cur)),
        single_output_server (usable_property cur min_abs max_abs write_ok)
          legacy backlight_new_atom log) ∧
    (min_abs = 0 →
      _operation_handler_file OPERATION_GETBRIGHTNESS p
        { brightness := some cur, max_brightness := some max_abs, writable := write_ok,
          written := flog } =
      (HandlerResult.returned true
        (some (spec_percent min_abs max_abs cur, spec_percent min_abs max_abs cur)),
        { brightness := some cur, max_brightness := some max_abs, writable := write_ok,
          written := flog })) := by
  refine ⟨randr_get_eq min_abs max_abs cur p legacy write_ok atom log hcur hrange h2 h4 h5, ?_⟩
  intro hmin
  subst hmin
  simp only [sub_zero] at h2
  exact file_get_eq cur max_abs p write_ok flog hcur hrange h2 h5

/-- Scenario A for C11: range `[0, 255]` and current 128 are reported as
`(50, 50)` by both controllers, with nothing written. -/
theorem get_reports_percent_witness :
    ((0 : Int) < 255 ∧ (128 : Int) ≠ NO_BRIGHTNESS) ∧
    _operation_handler_randr OPERATION_GETBRIGHTNESS 0
        (single_output_server (usable_property 128 0 255 true) missing_property
          backlight_legacy_atom []) =
      (HandlerResult.returned true (some (50, 50)),
        single_output_server (usable_property 128 0 255 true) missing_property
          backlight_new_atom []) ∧
    _operation_handler_file OPERATION_GETBRIGHTNESS 0 scenario_a_files =
      (HandlerResult.returned true (some (50, 50)), scenario_a_files) :=
  ⟨⟨by decide, by decide⟩,
    (get_reports_percent 0 255 128 0 missing_property true backlight_legacy_atom [] []
      (by decide) (by decide) (by decide) (by decide) (by decide)).1,
    (get_reports_percent 0 255 128 0 missing_property true backlight_legacy_atom [] []
      (by decide) (by decide) (by decide) (by decide) (by decide)).2 rfl⟩

/-- Counterexample to C11 as stated. On the sysfs backlight with range
`[0, 30000000]` at current 30000000 the percent should be 100, but
`30000000 * 100` exceeds 32 bits and Get reports 213. On a RandR output with
range `[-10, 10]` whose current value is -1 the percent should be 45, but the
value is read as `NO_BRIGHTNESS` and Get fails. -/
theorem get_reports_percent_counterexample :
    ((0 : Int) < 30000000 ∧ spec_percent 0 30000000 30000000 = 100 ∧
      _operation_handler_file OPERATION_GETBRIGHTNESS 0
        { brightness := some 30000000, max_brightness := some 30000000, writable := true,
          written := [] } =
      (HandlerResult.returned true (some (213, 213)),
        { brightness := some 30000000, max_brightness := some 30000000, writable := true,
          written := [] })) ∧
    ((-10 : Int) < 10 ∧ spec_percent (-10) 10 (-1) = 45 ∧
      (_operation_handler_randr OPERATION_GETBRIGHTNESS 0
        (single_output_server (usable_property (-1) (-10) 10 true) missing_property
          backlight_new_atom [])).1 = HandlerResult.returned false none) := by
  decide

/-! ### The Increase and Decrease operations of the controller -/

theorem file_inc_eq (cur max_abs : Int) (p : Nat) (w : Bool) (log : List Int)
    (hcur : cur ≠ NO_BRIGHTNESS) (hrange : 0 < max_abs)
    (h1 : fits32 ((p : Int) * max_abs)) (h2 : fits32 (cur * 100)) (h5 : fits32 (max_abs * 100)) :
    _operation_handler_file OPERATION_INCBRIGHTNESS p
        { brightness := some cur, max_brightness := some max_abs, writable := w, written := log } =
      (HandlerResult.returned true
        (some (spec_percent 0 max_abs cur,
          spec_new_percent 0 max_abs (spec_inc_abs 0 max_abs cur p))),
        { brightness := some (if w then spec_inc_abs 0 max_abs cur p else cur),
          max_brightness := some max_abs, writable := w,
          written := log ++ [spec_inc_abs 0 max_abs cur p] }) := by
  have hb := tdiv_100_bounds _ h1
  have hmax : fits32 max_abs := by unfold fits32 at *; omega
  have hcurf : fits32 cur := by unfold fits32 at *; omega
  have hmax1 : max_abs ≠ NO_BRIGHTNESS := by unfold NO_BRIGHTNESS; omega
  have hW : 0 ≤ spec_inc_abs 0 max_abs cur p ∧ spec_inc_abs 0 max_abs cur p ≤ max_abs := by
    unfold spec_inc_abs spec_clamp
    omega
  have hWf : fits32 (spec_inc_abs 0 max_abs cur p * 100) := by unfold fits32 at *; omega
  have hWdef : spec_inc_abs 0 max_abs cur p
      = spec_clamp (cur + Int.tdiv ((p : Int) * max_abs) 100) 0 max_abs := by
    simp [spec_inc_abs]
  have hx : fits32 (cur + Int.tdiv ((p : Int) * max_abs) 100) := by unfold fits32 at *; omega
  simp only [_operation_handler_file, get_brightness_file, hcur, hmax1, if_false, sub32, mul32,
    add32, sub_zero, wrap32_of_fits hmax, wrap32_of_fits hcurf, wrap32_of_fits h1,
    wrap32_of_fits h2, wrap32_of_fits hx, div32_of_pos _ hrange, clamp_eq _ _ _ (le_of_lt hrange),
    ← hWdef, wrap32_of_fits hWf, set_brightness_file, spec_percent, spec_new_percent]
  cases w <;> simp

theorem file_dec_eq (cur max_abs : Int) (p : Nat) (w : Bool) (log : List Int)
    (hcur : cur ≠ NO_BRIGHTNESS) (hrange : 0 < max_abs)
    (h1 : fits32 ((p : Int) * max_abs)) (h2 : fits32 (cur * 100)) (h5 : fits32 (max_abs * 100)) :
    _operation_handler_file OPERATION_DECBRIGHTNESS p
        { brightness := some cur, max_brightness := some max_abs, writable := w, written := log } =
      (HandlerResult.returned true
        (some (spec_percent 0 max_abs cur,
          spec_new_percent 0 max_abs (spec_dec_abs 0 max_abs cur p))),
        { brightness := some (if w then spec_dec_abs 0 max_abs cur p else cur),
          max_brightness := some max_abs, writable := w,
          written := log ++ [spec_dec_abs 0 max_abs cur p] }) := by
  have hb := tdiv_100_bounds _ h1
  have hmax : fits32 max_abs := by unfold fits32 at *; omega
  have hcurf : fits32 cur := by unfold fits32 at *; omega
  have hmax1 : max_abs ≠ NO_BRIGHTNESS := by unfold NO_BRIGHTNESS; omega
  have hW : 0 ≤ spec_dec_abs 0 max_abs cur p ∧ spec_dec_abs 0 max_abs cur p ≤ max_abs := by
    unfold spec_dec_abs spec_clamp
    omega
  have hWf : fits32 (spec_dec_abs 0 max_abs cur p * 100) := by unfold fits32 at *; omega
  have hWdef : spec_dec_abs 0 max_abs cur p
      = spec_clamp (cur - Int.tdiv ((p : Int) * max_abs) 100) 0 max_abs := by
    simp [spec_dec_abs]
  have hx : fits32 (cur - Int.tdiv ((p : Int) * max_abs) 100) := by unfold fits32 at *; omega
  simp only [_operation_handler_file, get_brightness_file, hcur, hmax1, if_false, sub32, mul32,
    add32, sub_zero, wrap32_of_fits hmax, wrap32_of_fits hcurf, wrap32_of_fits h1,
    wrap32_of_fits h2, wrap32_of_fits hx, div32_of_pos _ hrange, clamp_eq _ _ _ (le_of_lt hrange),
    ← hWdef, wrap32_of_fits hWf, set_brightness_file, spec_percent, spec_new_percent]
  cases w <;> simp

theorem randr_inc_eq (min_abs max_abs cur : Int) (p : Nat) (legacy : RandrProperty)
    (write_ok : Bool) (atom : backlight_atom_t) (log : List (Nat × Int))
    (hcur : cur ≠ NO_BRIGHTNESS) (hrange : min_abs < max_abs)
    (h1 : fits32 ((p : Int) * (max_abs - min_abs))) (h2 : fits32 ((cur - min_abs) * 100))
    (h4 : fits32 (min_abs * 100)) (h5 : fits32 (max_abs * 100)) :
    _operation_handler_randr OPERATION_INCBRIGHTNESS p
        (single_output_server (usable_property cur min_abs max_abs write_ok) legacy atom log) =
      (HandlerResult.returned true
        (some (spec_percent min_abs max_abs cur,
          spec_new_percent min_abs max_abs (spec_inc_abs min_abs max_abs cur p))),
        single_output_server
          (usable_property (if write_ok then spec_inc_abs min_abs max_abs cur p else cur)
            min_abs max_abs write_ok)
          legacy backlight_new_atom (log ++ [(0, spec_inc_abs min_abs max_abs cur p)])) := by
  have hb := tdiv_100_bounds _ h1
  have hd : fits32 (max_abs - min_abs) := by unfold fits32 at *; omega
  have hc : fits32 (cur - min_abs) := by unfold fits32 at *; omega
  have hpos : 0 < max_abs - min_abs := by omega
  have hs : fits32 (cur + Int.tdiv ((p : Int) * (max_abs - min_abs)) 100) := by
    unfold fits32 at *; omega
  have hW : min_abs ≤ spec_inc_abs min_abs max_abs cur p
      ∧ spec_inc_abs min_abs max_abs cur p ≤ max_abs := by
    unfold spec_inc_abs spec_clamp
    omega
  have hWf : fits32 (spec_inc_abs min_abs max_abs cur p * 100) := by unfold fits32 at *; omega
  have hWdef : spec_inc_abs min_abs max_abs cur p
      = spec_clamp (cur + Int.tdiv ((p : Int) * (max_abs - min_abs)) 100) min_abs max_abs := rfl
  simp [single_output_server, usable_property, _operation_handler_randr,
    _operation_handler_randr_outputs, List.range_succ,
    get_brightness_randr, _get_brightness_randr, RandrOutput.property, hcur, sub32, mul32,
    add32, wrap32_of_fits hd, wrap32_of_fits hc, wrap32_of_fits h1,
    wrap32_of_fits h2, wrap32_of_fits hs, div32_of_pos _ hpos,
    clamp_eq _ _ _ (le_of_lt hrange),
    ← hWdef, wrap32_of_fits hWf, set_brightness_randr, spec_percent, spec_new_percent,
    RandrOutput.change_property]
  cases write_ok <;> simp

theorem randr_dec_eq (min_abs max_abs cur : Int) (p : Nat) (legacy : RandrProperty)
    (write_ok : Bool) (atom : backlight_atom_t) (log : List (Nat × Int))
    (hcur : cur ≠ NO_BRIGHTNESS) (hrange : min_abs < max_abs)
    (h1 : fits32 ((p : Int) * (max_abs - min_abs))) (h2 : fits32 ((cur - min_abs) * 100))
    (h4 : fits32 (min_abs * 100)) (h5 : fits32 (max_abs * 100)) :
    _operation_handler_randr OPERATION_DECBRIGHTNESS p
        (single_output_server (usable_property cur min_abs max_abs write_ok) legacy atom log) =
      (HandlerResult.returned true
        (some (spec_percent min_abs max_abs cur,
          spec_new_percent min_abs max_abs (spec_dec_abs min_abs max_abs cur p))),
        single_output_server
          (usable_property (if write_ok then spec_dec_abs min_abs max_abs cur p else cur)
            min_abs max_abs write_ok)
          legacy backlight_new_atom (log ++ [(0, spec_dec_abs min_abs max_abs cur p)])) := by
  have hb := tdiv_100_bounds _ h1
  have hd : fits32 (max_abs - min_abs) := by unfold fits32 at *; omega
  have hc : fits32 (cur - min_abs) := by unfold fits32 at *; omega
  have hpos : 0 < max_abs - min_abs := by omega
  have hs : fits32 (cur - Int.tdiv ((p : Int) * (max_abs - min_abs)) 100) := by
    unfold fits32 at *; omega
  have hW : min_abs ≤ spec_dec_abs min_abs max_abs cur p
      ∧ spec_dec_abs min_abs max_abs cur p ≤ max_abs := by
    unfold spec_dec_abs spec_clamp
    omega
  have hWf : fits32 (spec_dec_abs min_abs max_abs cur p * 100) := by unfold fits32 at *; omega
  have hWdef : spec_dec_abs min_abs max_abs cur p
      = spec_clamp (cur - Int.tdiv ((p : Int) * (max_abs - min_abs)) 100) min_abs max_abs := rfl
  simp [single_output_server, usable_property, _operation_handler_randr,
    _operation_handler_randr_outputs, List.range_succ,
    get_brightness_randr, _get_brightness_randr, RandrOutput.property, hcur, sub32, mul32,
    add32, wrap32_of_fits hd, wrap32_of_fits hc, wrap32_of_fits h1,
    wrap32_of_fits h2, wrap32_of_fits hs, div32_of_pos _ hpos,
    clamp_eq _ _ _ (le_of_lt hrange),
    ← hWdef, wrap32_of_fits hWf, set_brightness_randr, spec_percent, spec_new_percent,
    RandrOutput.change_property]
  cases write_ok <;> simp

/-- C15 (as amended): for an output with a usable range `min_abs < max_abs`, a
current value other than the `NO_BRIGHTNESS` sentinel -1 and a delta percent
`p`, provided the products `p * (max_abs - min_abs)`, `(cur - min_abs) * 100`,
`min_abs * 100` and `max_abs * 100` fit in a signed 32-bit integer, Increase
hands `clamp(cur + p * (max_abs - min_abs) / 100, min_abs, max_abs)` and
Decrease hands `clamp(cur - p * (max_abs - min_abs) / 100, min_abs, max_abs)`
to the backend write, with truncating division. This holds for
`_operation_handler_randr` on a screen with one output and, with `min_abs = 0`,
for `_operation_handler_file`. -/
theorem inc_dec_write_clamped (min_abs max_abs cur : Int) (p : Nat) (legacy : RandrProperty)
    (write_ok : Bool) (atom : backlight_atom_t) (log : List (Nat × Int)) (flog : List Int)
    (hrange : min_abs < max_abs) (hcur : cur ≠ NO_BRIGHTNESS)
    (h1 : fits32 ((p : Int) * (max_abs - min_abs))) (h2 : fits32 ((cur - min_abs) * 100))
    (h4 : fits32 (min_abs * 100)) (h5 : fits32 (max_abs * 100)) :
    (_operation_handler_randr OPERATION_INCBRIGHTNESS p
        (single_output_server (usable_property cur min_abs max_abs write_ok) legacy atom log) =
      (HandlerResult.returned true
        (some (spec_percent min_abs max_abs cur,
          spec_new_percent min_abs max_abs (spec_inc_abs min_abs max_abs cur p))),
        single_output_server
          (usable_property (if write_ok then spec_inc_abs min_abs max_abs cur p else cur)
            min_abs max_abs write_ok)
          legacy backlight_new_atom (log ++ [(0, spec_inc_abs min_abs max_abs cur p)])) ∧
      _operation_handler_randr OPERATION_DECBRIGHTNESS p
        (single_output_server (usable_property cur min_abs max_abs write_ok) legacy atom log) =
      (HandlerResult.returned true
        (some (spec_percent min_abs max_abs cur,
          spec_new_percent min_abs max_abs (spec_dec_abs min_abs max_abs cur p))),
        single_output_server
          (usable_property (if write_ok then spec_dec_abs min_abs max_abs cur p else cur)
            min_abs max_abs write_ok)
          legacy backlight_new_atom (log ++ [(0, spec_dec_abs min_abs max_abs cur p)]))) ∧
    (min_abs = 0 →
      _operation_handler_file OPERATION_INCBRIGHTNESS p
        { brightness := some cur, max_brightness := some max_abs, writable := write_ok,
          written := flog } =
      (HandlerResult.returned true
        (some (spec_percent min_abs max_abs cur,
          spec_new_percent min_abs max_abs (spec_inc_abs min_abs max_abs cur p))),
        { brightness := some (if write_ok then spec_inc_abs min_abs max_abs cur p else cur),
          max_brightness := some max_abs, writable := write_ok,
          written := flog ++ [spec_inc_abs min_abs max_abs cur p] }) ∧
      _operation_handler_file OPERATION_DECBRIGHTNESS p
        { brightness := some cur, max_brightness := some max_abs, writable := write_ok,
          written := flog } =
      (HandlerResult.returned true
        (some (spec_percent min_abs max_abs cur,
          spec_new_percent min_abs max_abs (spec_dec_abs min_abs max_abs cur p))),
        { brightness := some (if write_ok then spec_dec_abs min_abs max_abs cur p else cur),
          max_brightness := some max_abs, writable := write_ok,
          written := flog ++ [spec_dec_abs min_abs max_abs cur p] })) := by
  refine ⟨⟨randr_inc_eq min_abs max_abs cur p legacy write_ok atom log hcur hrange h1 h2 h4 h5,
    randr_dec_eq min_abs max_abs cur p legacy write_ok atom log hcur hrange h1 h2 h4 h5⟩, ?_⟩
  intro hmin
  subst hmin
  simp only [sub_zero] at h1 h2
  exact ⟨file_inc_eq cur max_abs p write_ok flog hcur hrange h1 h2 h5,
    file_dec_eq cur max_abs p write_ok flog hcur hrange h1 h2 h5⟩

/-- A run of C15: range `[0, 255]`, current 128 and delta 10 give the writes
153 (Increase) and 103 (Decrease) on the sysfs backlight of Scenario A. -/
theorem inc_dec_write_clamped_witness :
    ((0 : Int) < 255 ∧ (128 : Int) ≠ NO_BRIGHTNESS) ∧
    _operation_handler_file OPERATION_INCBRIGHTNESS 10 scenario_a_files =
      (HandlerResult.returned true (some (50, 60)),
        { scenario_a_files with brightness := some 153, written := [153] }) ∧
    _operation_handler_file OPERATION_DECBRIGHTNESS 10 scenario_a_files =
      (HandlerResult.returned true (some (50, 40)),
        { scenario_a_files with brightness := some 103, written := [103] }) :=
  ⟨⟨by decide, by decide⟩,
    (inc_dec_write_clamped 0 255 128 10 missing_property true backlight_new_atom [] []
      (by decide) (by decide) (by decide) (by decide) (by decide) (by decide)).2 rfl⟩

/-- Counterexample to C15 as stated. On the sysfs backlight with range
`[0, 21474837]`, `100 * 21474837` exceeds 32 bits: Increase(100) at current 0
should write 21474837 and writes 0, and Decrease(100) at current 21474837 should
write 0 and writes 21474837. On a RandR output with range `[-10, 10]` whose
current value is -1, Decrease(50) should write -10, but the value is read as
`NO_BRIGHTNESS`: the call fails and writes nothing. -/
theorem inc_dec_write_clamped_counterexample :
    ((0 : Int) < 21474837 ∧ spec_inc_abs 0 21474837 0 100 = 21474837 ∧
      (_operation_handler_file OPERATION_INCBRIGHTNESS 100
        { brightness := some 0, max_brightness := some 21474837, writable := true,
          written := [] }).2.written = [0]) ∧
    (spec_dec_abs 0 21474837 21474837 100 = 0 ∧
      (_operation_handler_file OPERATION_DECBRIGHTNESS 100
        { brightness := some 21474837, max_brightness := some 21474837, writable := true,
          written := [] }).2.written = [21474837]) ∧
    ((-10 : Int) < 10 ∧ spec_dec_abs (-10) 10 (-1) 50 = -10 ∧
      _operation_handler_randr OPERATION_DECBRIGHTNESS 50
        (single_output_server (usable_property (-1) (-10) 10 true) missing_property
          backlight_new_atom []) =
      (HandlerResult.returned false none,
        single_output_server (usable_property (-1) (-10) 10 true) missing_property
          backlight_legacy_atom [])) := by
  decide

/-! ### Clamping of the written value -/

theorem spec_clamp_bounds (x lo hi : Int) (h : lo ≤ hi) :
    lo ≤ spec_clamp x lo hi ∧ spec_clamp x lo hi ≤ hi ∧
    (hi < x → spec_clamp x lo hi = hi) ∧ (x < lo → spec_clamp x lo hi = lo) ∧
    (lo ≤ x → x ≤ hi → spec_clamp x lo hi = x) := by
  unfold spec_clamp
  omega

theorem file_write_cases (operation : operations_t) (p : Nat) (max_abs cur : Int) (w : Bool)
    (log : List Int) (hop : operation ≠ OPERATION_GETBRIGHTNESS) (hrange : 0 ≤ max_abs)
    (hcur : cur ≠ NO_BRIGHTNESS) :
    ((_operation_handler_file operation p
        { brightness := some cur, max_brightness := some max_abs, writable := w,
          written := log }).1 = HandlerResult.trapped ∧
      (_operation_handler_file operation p
        { brightness := some cur, max_brightness := some max_abs, writable := w,
          written := log }).2.written = log) ∨
    ((∃ a c : Nat, (_operation_handler_file operation p
        { brightness := some cur, max_brightness := some max_abs, writable := w,
          written := log }).1 = HandlerResult.returned true (some (a, c))) ∧
      (_operation_handler_file operation p
        { brightness := some cur, max_brightness := some max_abs, writable := w,
          written := log }).2.written
        = log ++ [spec_clamp (unclamped_target operation p 0 max_abs cur) 0 max_abs]) := by
  have hmax1 : max_abs ≠ NO_BRIGHTNESS := by unfold NO_BRIGHTNESS; omega
  cases operation with
  | OPERATION_GETBRIGHTNESS => exact absurd rfl hop
  | _ =>
    simp only [_operation_handler_file, get_brightness_file, hcur, hmax1, if_false,
      unclamped_target, clamp_eq _ _ _ hrange]
    repeat' split
    all_goals (cases w <;> simp [set_brightness_file])

theorem randr_write_cases (operation : operations_t) (p : Nat) (min_abs max_abs cur : Int)
    (legacy : RandrProperty) (write_ok : Bool) (atom : backlight_atom_t)
    (log : List (Nat × Int)) (hop : operation ≠ OPERATION_GETBRIGHTNESS)
    (hrange : min_abs ≤ max_abs) (hcur : cur ≠ NO_BRIGHTNESS) :
    ((_operation_handler_randr operation p
        (single_output_server (usable_property cur min_abs max_abs write_ok) legacy atom
          log)).1 = HandlerResult.trapped ∧
      (_operation_handler_randr operation p
        (single_output_server (usable_property cur min_abs max_abs write_ok) legacy atom
          log)).2.written = log) ∨
    ((∃ a c : Nat, (_operation_handler_randr operation p
        (single_output_server (usable_property cur min_abs max_abs write_ok) legacy atom
          log)).1 = HandlerResult.returned true (some (a, c))) ∧
      (_operation_handler_randr operation p
        (single_output_server (usable_property cur min_abs max_abs write_ok) legacy atom
          log)).2.written
        = log ++ [(0, spec_clamp (unclamped_target operation p min_abs max_abs cur)
            min_abs max_abs)]) := by
  cases operation with
  | OPERATION_GETBRIGHTNESS => exact absurd rfl hop
  | _ =>
    simp only [single_output_server, usable_property, _operation_handler_randr,
      _operation_handler_randr_outputs, List.range_succ, List.range_zero, List.nil_append,
      get_brightness_randr, _get_brightness_randr, RandrOutput.property,
      unclamped_target, clamp_eq _ _ _ hrange]
    simp [hcur]
    repeat' split
    all_goals (cases write_ok <;> simp_all [set_brightness_randr, RandrOutput.property])
    all_goals (unfold spec_clamp; omega)

/-! ### Reading a percent and setting it back -/

theorem roundtrip_bound (D x : Int) (hD : 0 < D) (hx0 : 0 ≤ x) (hxD : x ≤ D) :
    0 ≤ x * 100 / D ∧ x * 100 / D ≤ 100 ∧ 0 ≤ x * 100 / D * D / 100 ∧
    x * 100 / D * D / 100 ≤ x ∧ 100 * (x - x * 100 / D * D / 100) ≤ D + 99 := by
  have hp0 : 0 ≤ x * 100 / D := Int.ediv_nonneg (by omega) (by omega)
  have hp1 : x * 100 / D ≤ 100 := Int.ediv_le_of_le_mul hD (by omega)
  have h1 : x * 100 / D * D ≤ x * 100 := Int.ediv_mul_le _ (by omega)
  have h2 : x * 100 < (x * 100 / D + 1) * D := Int.lt_ediv_add_one_mul_self _ hD
  have h3 : (x * 100 / D + 1) * D = x * 100 / D * D + D := by ring
  have h4 : 0 ≤ x * 100 / D * D := Int.mul_nonneg hp0 (by omega)
  rw [h3] at h2
  refine ⟨hp0, hp1, ?_, ?_, ?_⟩ <;> omega

theorem spec_percent_in_range (min_abs max_abs cur : Int) (hrange : min_abs < max_abs)
    (hlo : min_abs ≤ cur) (hhi : cur ≤ max_abs) :
    (spec_percent min_abs max_abs cur : Int)
      = (cur - min_abs) * 100 / (max_abs - min_abs) ∧
    spec_percent min_abs max_abs cur ≤ 100 := by
  have hb := roundtrip_bound (max_abs - min_abs) (cur - min_abs) (by omega) (by omega) (by omega)
  have htd : Int.tdiv ((cur - min_abs) * 100) (max_abs - min_abs)
      = (cur - min_abs) * 100 / (max_abs - min_abs) :=
    Int.tdiv_eq_ediv (by omega) (by omega)
  unfold spec_percent uint8_cast
  rw [htd]
  omega

theorem spec_set_abs_roundtrip (min_abs max_abs cur : Int) (hrange : min_abs < max_abs)
    (hlo : min_abs ≤ cur) (hhi : cur ≤ max_abs) :
    spec_set_abs min_abs max_abs (spec_percent min_abs max_abs cur) ≤ cur ∧
    100 * (cur - spec_set_abs min_abs max_abs (spec_percent min_abs max_abs cur))
      ≤ max_abs - min_abs + 99 ∧
    min_abs ≤ spec_set_abs min_abs max_abs (spec_percent min_abs max_abs cur) := by
  have hb := roundtrip_bound (max_abs - min_abs) (cur - min_abs) (by omega) (by omega) (by omega)
  have hp := (spec_percent_in_range min_abs max_abs cur hrange hlo hhi).1
  have htd : Int.tdiv ((spec_percent min_abs max_abs cur : Int) * (max_abs - min_abs)) 100
      = (cur - min_abs) * 100 / (max_abs - min_abs) * (max_abs - min_abs) / 100 := by
    rw [hp, Int.tdiv_eq_ediv (Int.mul_nonneg hb.1 (by omega)) (by decide)]
  unfold spec_set_abs spec_clamp
  rw [htd]
  omega

/-- C13 (as amended): for `min_abs < max_abs`, `min_abs ≤ cur ≤ max_abs`, a
current value other than the `NO_BRIGHTNESS` sentinel -1 and products
`min_abs * 100`, `max_abs * 100`, `(max_abs - min_abs) * 100` that fit in a
signed 32-bit integer: if `p` is the percent reported by Get, then Set(p) hands
to the backend write a value `w` with `w ≤ cur` and
`100 * (cur - w) ≤ (max_abs - min_abs) + 99`; in particular `cur - w ≤ 1`
whenever `max_abs - min_abs ≤ 100`. This holds for `_operation_handler_randr` on
a screen with one output and, with `min_abs = 0`, for `_operation_handler_file`. -/
theorem get_then_set_roundtrip (min_abs max_abs cur : Int) (legacy : RandrProperty)
    (write_ok : Bool) (atom : backlight_atom_t) (log : List (Nat × Int)) (flog : List Int)
    (hrange : min_abs < max_abs) (hlo : min_abs ≤ cur) (hhi : cur ≤ max_abs)
    (hcur : cur ≠ NO_BRIGHTNESS)
    (h4 : fits32 (min_abs * 100)) (h5 : fits32 (max_abs * 100))
    (h6 : fits32 ((max_abs - min_abs) * 100)) :
    (spec_set_abs min_abs max_abs (spec_percent min_abs max_abs cur) ≤ cur ∧
      100 * (cur - spec_set_abs min_abs max_abs (spec_percent min_abs max_abs cur))
        ≤ max_abs - min_abs + 99 ∧
      (max_abs - min_abs ≤ 100 →
        cur - spec_set_abs min_abs max_abs (spec_percent min_abs max_abs cur) ≤ 1)) ∧
    ((_operation_handler_randr OPERATION_GETBRIGHTNESS 0
        (single_output_server (usable_property cur min_abs max_abs write_ok) legacy atom
          log)).1 =
        HandlerResult.returned true
          (some (spec_percent min_abs max_abs cur, spec_percent min_abs max_abs cur)) ∧
      (_operation_handler_randr OPERATION_SETBRIGHTNESS (spec_percent min_abs max_abs cur)
        (_operation_handler_randr OPERATION_GETBRIGHTNESS 0
          (single_output_server (usable_property cur min_abs max_abs write_ok) legacy atom
            log)).2).2.written =
        log ++ [(0, spec_set_abs min_abs max_abs (spec_percent min_abs max_abs cur))]) ∧
    (min_abs = 0 →
      (_operation_handler_file OPERATION_GETBRIGHTNESS 0
        { brightness := some cur, max_brightness := some max_abs, writable := write_ok,
          written := flog }).1 =
        HandlerResult.returned true
          (some (spec_percent min_abs max_abs cur, spec_percent min_abs max_abs cur)) ∧
      (_operation_handler_file OPERATION_SETBRIGHTNESS (spec_percent min_abs max_abs cur)
        (_operation_handler_file OPERATION_GETBRIGHTNESS 0
          { brightness := some cur, max_brightness := some max_abs, writable := write_ok,
            written := flog }).2).2.written =
        flog ++ [spec_set_abs min_abs max_abs (spec_percent min_abs max_abs cur)]) := by
  have hrt := spec_set_abs_roundtrip min_abs max_abs cur hrange hlo hhi
  have hp := spec_percent_in_range min_abs max_abs cur hrange hlo hhi
  have h2 : fits32 ((cur - min_abs) * 100) := by unfold fits32 at *; omega
  have hp0 : (0 : Int) ≤ (spec_percent min_abs max_abs cur : Int) := by omega
  have hp1 : (spec_percent min_abs max_abs cur : Int) ≤ 100 := by omega
  have hm0 : 0 ≤ (spec_percent min_abs max_abs cur : Int) * (max_abs - min_abs) :=
    Int.mul_nonneg hp0 (by omega)
  have hm1 : (spec_percent min_abs max_abs cur : Int) * (max_abs - min_abs)
      ≤ 100 * (max_abs - min_abs) :=
    Int.mul_le_mul_of_nonneg_right hp1 (by omega)
  have h1 : fits32 ((spec_percent min_abs max_abs cur : Int) * (max_abs - min_abs)) := by
    unfold fits32 at *; omega
  refine ⟨⟨hrt.1, hrt.2.1, fun hsmall => by omega⟩, ⟨?_, ?_⟩, ?_⟩
  · rw [randr_get_eq min_abs max_abs cur 0 legacy write_ok atom log hcur hrange h2 h4 h5]
  · rw [randr_get_eq min_abs max_abs cur 0 legacy write_ok atom log hcur hrange h2 h4 h5,
      randr_set_eq min_abs max_abs cur _ legacy write_ok backlight_new_atom log hcur hrange
        h1 h2 h4 h5]
    simp [single_output_server]
  · intro hmin
    subst hmin
    simp only [sub_zero] at h1 h2
    rw [file_get_eq cur max_abs 0 write_ok flog hcur hrange h2 h5,
      file_set_eq cur max_abs _ write_ok flog hcur hrange h1 h2 h5]
    simp

/-- A run of C13 on Scenario A: range `[0, 255]` and current 128 are read as
50%, and Set(50) hands 127 to the backend write. -/
theorem get_then_set_roundtrip_witness :
    ((0 : Int) < 255 ∧ (0 : Int) ≤ 128 ∧ (128 : Int) ≤ 255 ∧ (128 : Int) ≠ NO_BRIGHTNESS) ∧
    (_operation_handler_file OPERATION_GETBRIGHTNESS 0 scenario_a_files).1 =
      HandlerResult.returned true (some (50, 50)) ∧
    (_operation_handler_file OPERATION_SETBRIGHTNESS 50
      (_operation_handler_file OPERATION_GETBRIGHTNESS 0 scenario_a_files).2).2.written
      = [127] :=
  ⟨by decide,
    (get_then_set_roundtrip 0 255 128 missing_property true backlight_new_atom [] []
      (by decide) (by decide) (by decide) (by decide) (by decide) (by decide)
      (by decide)).2.2 rfl⟩

/-- Counterexample to C13 as stated: on the sysfs backlight with range
`[0, 255]` at current 254, Get reports 99% and Set(99) hands 252 to the backend
write, two steps away from 254. -/
theorem get_then_set_roundtrip_counterexample :
    ((0 : Int) < 255 ∧ (0 : Int) ≤ 254 ∧ (254 : Int) ≤ 255) ∧
    _operation_handler_file OPERATION_GETBRIGHTNESS 0
        { brightness := some 254, max_brightness := some 255, writable := true, written := [] } =
      (HandlerResult.returned true (some (99, 99)),
        { brightness := some 254, max_brightness := some 255, writable := true,
          written := [] }) ∧
    _operation_handler_file OPERATION_SETBRIGHTNESS 99
        { brightness := some 254, max_brightness := some 255, writable := true, written := [] } =
      (HandlerResult.returned true (some (99, 98)),
        { brightness := some 252, max_brightness := some 255, writable := true,
          written := [252] }) ∧
    ¬ ((254 : Int) - 252 ≤ 1) := by
  decide

/-! ### The range of the reported percents -/

theorem file_write_eq (operation : operations_t) (cur max_abs : Int) (p : Nat) (w : Bool)
    (log : List Int) (hop : operation ≠ OPERATION_GETBRIGHTNESS)
    (hcur : cur ≠ NO_BRIGHTNESS) (hrange : 0 < max_abs)
    (h2 : fits32 (cur * 100)) (h5 : fits32 (max_abs * 100)) :
    _operation_handler_file operation p
        { brightness := some cur, max_brightness := some max_abs, writable := w, written := log } =
      (HandlerResult.returned true
        (some (spec_percent 0 max_abs cur,
          spec_new_percent 0 max_abs
            (spec_clamp (unclamped_target operation p 0 max_abs cur) 0 max_abs))),
        { brightness := some (if w then
              spec_clamp (unclamped_target operation p 0 max_abs cur) 0 max_abs else cur),
          max_brightness := some max_abs, writable := w,
          written := log ++ [spec_clamp (unclamped_target operation p 0 max_abs cur) 0 max_abs] }) := by
  have hmax : fits32 max_abs := by unfold fits32 at *; omega
  have hcurf : fits32 cur := by unfold fits32 at *; omega
  have hmax1 : max_abs ≠ NO_BRIGHTNESS := by unfold NO_BRIGHTNESS; omega
  have hW : ∀ T : Int, wrap32 (spec_clamp T 0 max_abs * 100) = spec_clamp T 0 max_abs * 100 :=
    fun T => wrap32_of_fits (by unfold fits32 spec_clamp at *; omega)
  cases operation with
  | OPERATION_GETBRIGHTNESS => exact absurd rfl hop
  | _ =>
    simp only [_operation_handler_file, get_brightness_file, hcur, hmax1, if_false, sub32, mul32,
      sub_zero, wrap32_of_fits hmax, wrap32_of_fits hcurf, wrap32_of_fits h2,
      div32_of_pos _ hrange, clamp_eq _ _ _ (le_of_lt hrange), hW, unclamped_target,
      set_brightness_file, spec_percent, spec_new_percent]
    cases w <;> simp

theorem randr_write_eq (operation : operations_t) (min_abs max_abs cur : Int) (p : Nat)
    (legacy : RandrProperty) (write_ok : Bool) (atom : backlight_atom_t)
    (log : List (Nat × Int)) (hop : operation ≠ OPERATION_GETBRIGHTNESS)
    (hcur : cur ≠ NO_BRIGHTNESS) (hrange : min_abs < max_abs)
    (h2 : fits32 ((cur - min_abs) * 100))
    (h4 : fits32 (min_abs * 100)) (h5 : fits32 (max_abs * 100)) :
    _operation_handler_randr operation p
        (single_output_server (usable_property cur min_abs max_abs write_ok) legacy atom log) =
      (HandlerResult.returned true
        (some (spec_percent min_abs max_abs cur,
          spec_new_percent min_abs max_abs
            (spec_clamp (unclamped_target operation p min_abs max_abs cur) min_abs max_abs))),
        single_output_server
          (usable_property
            (if write_ok then
              spec_clamp (unclamped_target operation p min_abs max_abs cur) min_abs max_abs
            else cur)
            min_abs max_abs write_ok)
          legacy backlight_new_atom
          (log ++ [(0, spec_clamp (unclamped_target operation p min_abs max_abs cur)
            min_abs max_abs)])) := by
  have hd : fits32 (max_abs - min_abs) := by unfold fits32 at *; omega
  have hc : fits32 (cur - min_abs) := by unfold fits32 at *; omega
  have hpos : 0 < max_abs - min_abs := by omega
  have hW : ∀ T : Int, wrap32 (spec_clamp T min_abs max_abs * 100)
      = spec_clamp T min_abs max_abs * 100 :=
    fun T => wrap32_of_fits (by unfold fits32 spec_clamp at *; omega)
  cases operation with
  | OPERATION_GETBRIGHTNESS => exact absurd rfl hop
  | _ =>
    simp [single_output_server, usable_property, _operation_handler_randr,
      _operation_handler_randr_outputs, List.range_succ,
      get_brightness_randr, _get_brightness_randr, RandrOutput.property, hcur, sub32, mul32,
      wrap32_of_fits hd, wrap32_of_fits hc, wrap32_of_fits h2, div32_of_pos _ hpos,
      clamp_eq _ _ _ (le_of_lt hrange), hW, unclamped_target,
      set_brightness_randr, spec_percent, spec_new_percent, RandrOutput.change_property]
    cases write_ok <;> simp

@[simp]
theorem failed_returned_true (out : Option (Nat × Nat)) :
    (HandlerResult.returned true out).failed = false := rfl

@[simp]
theorem failed_returned_false (out : Option (Nat × Nat)) :
    (HandlerResult.returned false out).failed = true := rfl

@[simp]
theorem failed_trapped : HandlerResult.trapped.failed = false := rfl

theorem on_interval_failure {σ : Type} (oh : Backend σ) (I : Nat) (st : Teventstate) (dev : σ) :
    (∀ e ∈ (_event_loop_scrsvr_on_interval (traced oh) I st (dev, [])).backend.2.dropLast,
      e.2.failed = false) ∧
    ((∃ e ∈ (_event_loop_scrsvr_on_interval (traced oh) I st (dev, [])).backend.2,
        e.2.failed = true) →
      (_event_loop_scrsvr_on_interval (traced oh) I st (dev, [])).code = some EXIT_FAILURE) := by
  rcases h : oh OPERATION_SETBRIGHTNESS I dev with ⟨r, d⟩
  unfold _event_loop_scrsvr_on_interval
  rcases r with ⟨ret, out⟩ | _ <;> simp only [traced, h] <;> split_ifs <;> simp_all

theorem on_timeout_dim_failure {σ : Type} (oh : Backend σ) (T : Nat) (st : Teventstate) (dev : σ)
    (log : List (Call × HandlerResult)) (hlog : ∀ e ∈ log, e.2.failed = false) :
    (∀ e ∈ (_event_loop_scrsvr_on_timeout_dim (traced oh) T st (dev, log)).backend.2.dropLast,
      e.2.failed = false) ∧
    ((∃ e ∈ (_event_loop_scrsvr_on_timeout_dim (traced oh) T st (dev, log)).backend.2,
        e.2.failed = true) →
      (_event_loop_scrsvr_on_timeout_dim (traced oh) T st (dev, log)).code
        = some EXIT_FAILURE) := by
  have hdl : ∀ e ∈ log.dropLast, e.2.failed = false :=
    fun e he => hlog e (List.dropLast_subset _ he)
  have hno : ¬ ∃ e ∈ log, e.2.failed = true := by
    rintro ⟨e, he, hf⟩
    rw [hlog e he] at hf
    exact absurd hf (by decide)
  rcases h : oh OPERATION_SETBRIGHTNESS T dev with ⟨r, d⟩
  unfold _event_loop_scrsvr_on_timeout_dim
  by_cases hlt : st.brn_cur_perc < T
  · simp only [hlt, if_true]
    exact ⟨hdl, fun hex => absurd hex hno⟩
  · simp only [hlt, if_false, traced, h]
    rcases r with ⟨ret, out⟩ | _
    · cases ret
      · refine ⟨?_, fun _ => ?_⟩
        · simpa [List.dropLast_concat] using hlog
        · simp
      · refine ⟨?_, fun hex => ?_⟩
        · simpa [List.dropLast_concat] using hlog
        · exfalso
          obtain ⟨e, he, hf⟩ := hex
          simp only [Bool.not_true, Bool.false_eq_true, if_false, List.mem_append,
            List.mem_singleton] at he
          rcases he with he | he
          · exact hno ⟨e, he, hf⟩
          · rw [he] at hf; simp at hf
    · refine ⟨?_, fun hex => ?_⟩
      · simpa [List.dropLast_concat] using hlog
      · exfalso
        obtain ⟨e, he, hf⟩ := hex
        simp only [List.mem_append, List.mem_singleton] at he
        rcases he with he | he
        · exact hno ⟨e, he, hf⟩
        · rw [he] at hf; simp at hf

theorem on_timeout_failure {σ : Type} (oh : Backend σ) (T : Nat) (st : Teventstate) (dev : σ) :
    (∀ e ∈ (_event_loop_scrsvr_on_timeout (traced oh) T st (dev, [])).backend.2.dropLast,
      e.2.failed = false) ∧
    ((∃ e ∈ (_event_loop_scrsvr_on_timeout (traced oh) T st (dev, [])).backend.2,
        e.2.failed = true) →
      (_event_loop_scrsvr_on_timeout (traced oh) T st (dev, [])).code = some EXIT_FAILURE) := by
  rcases hg : oh OPERATION_GETBRIGHTNESS 0 dev with ⟨r1, d1⟩
  rcases hs1 : oh OPERATION_SETBRIGHTNESS 100 d1 with ⟨r2, d2⟩
  rcases hs2 : oh OPERATION_SETBRIGHTNESS 100 d2 with ⟨r3, d3⟩
  unfold _event_loop_scrsvr_on_timeout
  simp only [traced, hg]
  rcases r1 with ⟨ret1, out1⟩ | _
  · cases ret1
    · simp
    · by_cases hz : (store_prior_cur st out1).brn_cur_perc = 0
      · simp only [Bool.not_true, Bool.false_eq_true, if_false, hz, if_true, hs1]
        rcases r2 with ⟨ret2, out2⟩ | _
        · cases ret2
          · simp
          · by_cases hz2 : (store_old_cur (store_prior_cur st out1) out2).brn_cur_perc = 0
            · simp only [Bool.not_true, Bool.false_eq_true, if_false, hz2, if_true, hs2]
              rcases r3 with ⟨ret3, out3⟩ | _
              · cases ret3
                · simp
                · simp only [Bool.not_true, Bool.false_eq_true, if_false]
                  exact on_timeout_dim_failure oh T _ d3 _ (by simp)
              · simp
            · simp only [Bool.not_true, Bool.false_eq_true, if_false, hz2]
              exact on_timeout_dim_failure oh T _ d2 _ (by simp)
        · simp
      · simp only [Bool.not_true, Bool.false_eq_true, if_false, hz]
        exact on_timeout_dim_failure oh T _ d1 _ (by simp)
  · simp

theorem scrsvr_off_failure {σ : Type} (oh : Backend σ) (st : Teventstate) (dev : σ) :
    (∀ e ∈ (_event_loop_scrsvr_off (traced oh) st (dev, [])).backend.2.dropLast,
      e.2.failed = false) ∧
    ((∃ e ∈ (_event_loop_scrsvr_off (traced oh) st (dev, [])).backend.2,
        e.2.failed = true) →
      (_event_loop_scrsvr_off (traced oh) st (dev, [])).code = some EXIT_FAILURE) := by
  rcases hg : oh OPERATION_GETBRIGHTNESS 0 dev with ⟨r1, d1⟩
  unfold _event_loop_scrsvr_off
  simp only [traced, hg]
  rcases r1 with ⟨ret1, out1⟩ | _
  · cases ret1
    · split_ifs <;> simp
    · by_cases hp : st.brn_priorscrsvr_perc = BRN_PRIORSCRSVR_UNDEFINED
      · simp [hp]
      · simp only [hp, if_false, Bool.not_true, Bool.false_eq_true]
        generalize hres : oh OPERATION_SETBRIGHTNESS _ d1 = res
        rcases res with ⟨r2, d2⟩
        rcases r2 with ⟨ret2, out2⟩ | _
        · cases ret2 <;> simp
        · simp
  · split_ifs <;> simp

/-- C19: in a pass of `event_loop` that reaches a handler
(`_event_loop_scrsvr_on_timeout`, `_event_loop_scrsvr_on_interval` or
`_event_loop_scrsvr_off`), a controller call that returns false is the last
call the handler makes; the handler then returns `EXIT_FAILURE`, which differs
from `RET_OK`, and `event_loop` returns that code whatever further events are
waiting. -/
theorem handler_failure_is_fatal {σ : Type} (oh : Backend σ) (I T : Nat) (input : LoopInput)
    (inputs : List LoopInput) (g g1 : Tglobalstate) (st : Teventstate) (dev : σ)
    (hconn : input.connection_has_error = false)
    (hevent : input.event_is_screensaver = true)
    (hquery : query_state g input.replies = (true, g1)) :
    (∀ e ∈ (event_loop_switch (traced oh) I T g1.state st (dev, [])).backend.2.dropLast,
      e.2.failed = false) ∧
    ((∃ e ∈ (event_loop_switch (traced oh) I T g1.state st (dev, [])).backend.2,
        e.2.failed = true) →
      (event_loop_switch (traced oh) I T g1.state st (dev, [])).code = some EXIT_FAILURE ∧
      EXIT_FAILURE ≠ RET_OK ∧
      event_loop (traced oh) I T (input :: inputs) g st (dev, []) =
        ⟨LoopStatus.returned EXIT_FAILURE, g1,
          (event_loop_switch (traced oh) I T g1.state st (dev, [])).state,
          (event_loop_switch (traced oh) I T g1.state st (dev, [])).backend⟩) := by
  have hsw : (∀ e ∈ (event_loop_switch (traced oh) I T g1.state st (dev, [])).backend.2.dropLast,
        e.2.failed = false) ∧
      ((∃ e ∈ (event_loop_switch (traced oh) I T g1.state st (dev, [])).backend.2,
          e.2.failed = true) →
        (event_loop_switch (traced oh) I T g1.state st (dev, [])).code = some EXIT_FAILURE) := by
    cases g1.state with
    | STATE_SCREENSAVER_ON_TIMEOUT => exact on_timeout_failure oh T st dev
    | STATE_SCREENSAVER_ON_INTERVAL => exact on_interval_failure oh I st dev
    | STATE_SCREENSAVER_OFF => exact scrsvr_off_failure oh st dev
    | _ => simp [event_loop_switch]
  refine ⟨hsw.1, fun hex => ⟨hsw.2 hex, by decide, ?_⟩⟩
  have hcode := hsw.2 hex
  simp [event_loop, event_loop_iteration, hconn, hevent, hquery, hcode, RET_OK, EXIT_FAILURE]

/-- A run of C19: a timeout event on a controller whose reads succeed and whose
writes fail; the Set call is the last call, and `event_loop` returns
`EXIT_FAILURE` although a further event is waiting. -/
theorem handler_failure_is_fatal_witness :
    ((screensaver_input 1 0 600000 600).connection_has_error = false ∧
      (screensaver_input 1 0 600000 600).event_is_screensaver = true) ∧
    (event_loop (traced read_only_backend) 20 40
        [screensaver_input 1 0 600000 600, screensaver_input 0 0 0 600]
        gs_globalstate gs_eventstate ((), [])).status = LoopStatus.returned EXIT_FAILURE ∧
    (event_loop (traced read_only_backend) 20 40
        [screensaver_input 1 0 600000 600, screensaver_input 0 0 0 600]
        gs_globalstate gs_eventstate ((), [])).backend.2 =
      [((OPERATION_GETBRIGHTNESS, 0), HandlerResult.returned true (some (50, 50))),
        ((OPERATION_SETBRIGHTNESS, 40), HandlerResult.returned false none)] :=
  ⟨by decide,
    by rw [((handler_failure_is_fatal read_only_backend 20 40
        (screensaver_input 1 0 600000 600) [screensaver_input 0 0 0 600] gs_globalstate
        (query_state gs_globalstate (screensaver_input 1 0 600000 600).replies).2
        gs_eventstate () (by decide) (by decide) (by decide)).2 (by decide)).2.2],
    by decide⟩

/-! ### Classification while the screensaver is active -/

/-- C21: with the screensaver state `XCB_SCREENSAVER_STATE_ON` and the power
level `XCB_DPMS_DPMS_MODE_ON`, `query_state` classifies the snapshot as
`STATE_SCREENSAVER_ON_TIMEOUT` if and only if the idle seconds equal the timeout
seconds exactly, and as `STATE_SCREENSAVER_ON_INTERVAL` if and only if they
differ (above or below): for the `switch` itself, and for `query_state` on every
answered query, where the idle seconds are the reported milliseconds divided by
1000. -/
theorem query_state_on_timeout_iff (g : Tglobalstate)
    (ms_since_user_input timeout interval : Nat)
    (hstate : g.screensaver_state = XCB_SCREENSAVER_STATE_ON)
    (hpower : g.dpms_power_level = XCB_DPMS_DPMS_MODE_ON) :
    (query_state_switch g = STATE_SCREENSAVER_ON_TIMEOUT ↔
      g.screensaver_idlesecuser = g.screensaver_timeout) ∧
    (query_state_switch g = STATE_SCREENSAVER_ON_INTERVAL ↔
      g.screensaver_idlesecuser ≠ g.screensaver_timeout) ∧
    ((query_state g
      { connection_has_error := false
        dpms_power_level := some XCB_DPMS_DPMS_MODE_ON
        screensaver := some (XCB_SCREENSAVER_STATE_ON, ms_since_user_input, timeout, interval) }).2.state
      = STATE_SCREENSAVER_ON_TIMEOUT ↔ ms_since_user_input / 1000 = timeout) ∧
    ((query_state g
      { connection_has_error := false
        dpms_power_level := some XCB_DPMS_DPMS_MODE_ON
        screensaver := some (XCB_SCREENSAVER_STATE_ON, ms_since_user_input, timeout, interval) }).2.state
      = STATE_SCREENSAVER_ON_INTERVAL ↔ ms_since_user_input / 1000 ≠ timeout) := by
  simp only [XCB_SCREENSAVER_STATE_ON, XCB_DPMS_DPMS_MODE_ON] at hstate hpower
  refine ⟨?_, ?_, ?_, ?_⟩
  · simp only [query_state_switch, hstate, hpower]
    split_ifs with h <;> simp [h]
  · simp only [query_state_switch, hstate, hpower]
    split_ifs with h <;> simp [h]
  · simp only [query_state, query_state_switch, XCB_SCREENSAVER_STATE_ON, XCB_DPMS_DPMS_MODE_ON]
    split_ifs with h <;> simp_all
  · simp only [query_state, query_state_switch, XCB_SCREENSAVER_STATE_ON, XCB_DPMS_DPMS_MODE_ON]
    split_ifs with h <;> simp_all

/-- A run of C21: an active screensaver with the display powered, 601 s after
the last user input with a timeout of 600 s, and queries answered 600.999 s,
599.999 s and 601 s after the last user input. -/
theorem query_state_on_timeout_iff_witness :
    query_state_switch (active_globalstate 0 601) = STATE_SCREENSAVER_ON_INTERVAL ∧
    query_state_switch (active_globalstate 0 600) = STATE_SCREENSAVER_ON_TIMEOUT ∧
    (query_state (active_globalstate 0 601)
      { connection_has_error := false
        dpms_power_level := some XCB_DPMS_DPMS_MODE_ON
        screensaver := some (XCB_SCREENSAVER_STATE_ON, 600999, 600, 10) }).2.state
      = STATE_SCREENSAVER_ON_TIMEOUT ∧
    (query_state (active_globalstate 0 601)
      { connection_has_error := false
        dpms_power_level := some XCB_DPMS_DPMS_MODE_ON
        screensaver := some (XCB_SCREENSAVER_STATE_ON, 599999, 600, 10) }).2.state
      = STATE_SCREENSAVER_ON_INTERVAL ∧
    (query_state (active_globalstate 0 601)
      { connection_has_error := false
        dpms_power_level := some XCB_DPMS_DPMS_MODE_ON
        screensaver := some (XCB_SCREENSAVER_STATE_ON, 601000, 600, 10) }).2.state
      = STATE_SCREENSAVER_ON_INTERVAL :=
  ⟨(query_state_on_timeout_iff (active_globalstate 0 601) 600999 600 10
      (by decide) (by decide)).2.1.mpr (by decide),
    (query_state_on_timeout_iff (active_globalstate 0 600) 600999 600 10
      (by decide) (by decide)).1.mpr (by decide),
    (query_state_on_timeout_iff (active_globalstate 0 601) 600999 600 10
      (by decide) (by decide)).2.2.1.mpr (by decide),
    (query_state_on_timeout_iff (active_globalstate 0 601) 599999 600 10
      (by decide) (by decide)).2.2.2.mpr (by decide),
    (query_state_on_timeout_iff (active_globalstate 0 601) 601000 600 10
      (by decide) (by decide)).2.2.2.mpr (by decide)⟩

/-- C22: the classification of `query_state` is a function of the snapshot that
covers every screensaver state and power level: with the screensaver state
`XCB_SCREENSAVER_STATE_ON`, the power levels Standby, Suspend and Off give
`STATE_DPMS_STANDBY`, `STATE_DPMS_SUSPEND` and `STATE_DPMS_OFF` whatever the
idle seconds are, and every power level other than On, Standby, Suspend and Off
gives `STATE_UNKNOWN`; the screensaver states Cycle and Disabled give
`STATE_SCREENSAVER_CYCLE` and `STATE_SCREENSAVER_DISABLED` for every power
level; every screensaver state other than Off, On, Cycle and Disabled gives
`STATE_UNKNOWN`; and `query_state` stores this classification on every answered
query. -/
theorem query_state_classification (g : Tglobalstate)
    (state power_level ms_since_user_input timeout interval : Nat) :
    (g.screensaver_state = XCB_SCREENSAVER_STATE_ON →
      (g.dpms_power_level = XCB_DPMS_DPMS_MODE_STANDBY →
        query_state_switch g = STATE_DPMS_STANDBY) ∧
      (g.dpms_power_level = XCB_DPMS_DPMS_MODE_SUSPEND →
        query_state_switch g = STATE_DPMS_SUSPEND) ∧
      (g.dpms_power_level = XCB_DPMS_DPMS_MODE_OFF →
        query_state_switch g = STATE_DPMS_OFF) ∧
      (g.dpms_power_level ≠ XCB_DPMS_DPMS_MODE_ON →
        g.dpms_power_level ≠ XCB_DPMS_DPMS_MODE_STANDBY →
        g.dpms_power_level ≠ XCB_DPMS_DPMS_MODE_SUSPEND →
        g.dpms_power_level ≠ XCB_DPMS_DPMS_MODE_OFF →
        query_state_switch g = STATE_UNKNOWN)) ∧
    (g.screensaver_state = XCB_SCREENSAVER_STATE_CYCLE →
      query_state_switch g = STATE_SCREENSAVER_CYCLE) ∧
    (g.screensaver_state = XCB_SCREENSAVER_STATE_DISABLED →
      query_state_switch g = STATE_SCREENSAVER_DISABLED) ∧
    (g.screensaver_state ≠ XCB_SCREENSAVER_STATE_OFF →
      g.screensaver_state ≠ XCB_SCREENSAVER_STATE_ON →
      g.screensaver_state ≠ XCB_SCREENSAVER_STATE_CYCLE →
      g.screensaver_state ≠ XCB_SCREENSAVER_STATE_DISABLED →
      query_state_switch g = STATE_UNKNOWN) ∧
    query_state g
        { connection_has_error := false
          dpms_power_level := some power_level
          screensaver := some (state, ms_since_user_input, timeout, interval) } =
      (true,
        { g with
          dpms_power_level := power_level
          screensaver_idlesecuser := ms_since_user_input / 1000
          screensaver_state := state
          screensaver_timeout := timeout
          screensaver_interval := interval
          state := query_state_switch
            { g with
              dpms_power_level := power_level
              screensaver_idlesecuser := ms_since_user_input / 1000
              screensaver_state := state
              screensaver_timeout := timeout
              screensaver_interval := interval } }) := by
  simp only [XCB_SCREENSAVER_STATE_OFF, XCB_SCREENSAVER_STATE_ON, XCB_SCREENSAVER_STATE_CYCLE,
    XCB_SCREENSAVER_STATE_DISABLED, XCB_DPMS_DPMS_MODE_ON, XCB_DPMS_DPMS_MODE_STANDBY,
    XCB_DPMS_DPMS_MODE_SUSPEND, XCB_DPMS_DPMS_MODE_OFF]
  refine ⟨?_, ?_, ?_, ?_, ?_⟩
  · intro hs
    refine ⟨?_, ?_, ?_, ?_⟩
    · intro hp
      simp [query_state_switch, hs, hp]
    · intro hp
      simp [query_state_switch, hs, hp]
    · intro hp
      simp [query_state_switch, hs, hp]
    · intro h0 h1 h2 h3
      simp only [query_state_switch, hs]
  · intro hs
    simp [query_state_switch, hs]
  · intro hs
    simp [query_state_switch, hs]
  · intro h0 h1 h2 h3
    simp only [query_state_switch]
  · simp [query_state]

/-- A run of C22: an active screensaver whose idle seconds equal the timeout,
at the power levels Standby, Suspend, Off and 4; the screensaver states Cycle
and Disabled at power level Off; and the screensaver state 4. -/
theorem query_state_classification_witness :
    query_state_switch (active_globalstate 1 600) = STATE_DPMS_STANDBY ∧
    query_state_switch (active_globalstate 2 600) = STATE_DPMS_SUSPEND ∧
    query_state_switch (active_globalstate 3 600) = STATE_DPMS_OFF ∧
    query_state_switch (active_globalstate 4 600) = STATE_UNKNOWN ∧
    query_state_switch (active_globalstate 65535 600) = STATE_UNKNOWN ∧
    query_state_switch { active_globalstate 3 600 with screensaver_state := 2 } =
      STATE_SCREENSAVER_CYCLE ∧
    query_state_switch { active_globalstate 3 600 with screensaver_state := 3 } =
      STATE_SCREENSAVER_DISABLED ∧
    query_state_switch { active_globalstate 0 600 with screensaver_state := 4 } = STATE_UNKNOWN ∧
    query_state_switch { active_globalstate 0 600 with screensaver_state := 255 } =
      STATE_UNKNOWN :=
  ⟨((query_state_classification (active_globalstate 1 600) 0 0 0 0 0).1 (by decide)).1
      (by decide),
    ((query_state_classification (active_globalstate 2 600) 0 0 0 0 0).1 (by decide)).2.1
      (by decide),
    ((query_state_classification (active_globalstate 3 600) 0 0 0 0 0).1 (by decide)).2.2.1
      (by decide),
    ((query_state_classification (active_globalstate 4 600) 0 0 0 0 0).1 (by decide)).2.2.2
      (by decide) (by decide) (by decide) (by decide),
    ((query_state_classification (active_globalstate 65535 600) 0 0 0 0 0).1 (by decide)).2.2.2
      (by decide) (by decide) (by decide) (by decide),
    (query_state_classification { active_globalstate 3 600 with screensaver_state := 2 }
      0 0 0 0 0).2.1 (by decide),
    (query_state_classification { active_globalstate 3 600 with screensaver_state := 3 }
      0 0 0 0 0).2.2.1 (by decide),
    (query_state_classification { active_globalstate 0 600 with screensaver_state := 4 }
      0 0 0 0 0).2.2.2.1 (by decide) (by decide) (by decide) (by decide),
    (query_state_classification { active_globalstate 0 600 with screensaver_state := 255 }
      0 0 0 0 0).2.2.2.1 (by decide) (by decide) (by decide) (by decide)⟩

/-! ### Command-line values -/

theorem strtol_sign_suffix (s : List Char) : ∀ c ∈ (strtol_sign s).2, c ∈ s := by
  intro c hc
  unfold strtol_sign at hc
  split at hc <;> simp_all

theorem strtol_no_digit (input : List Char) (h : ∀ c ∈ input, isdigit c = false) :
    (strtol_sign (input.dropWhile isspace)).2.takeWhile isdigit = [] := by
  rw [List.takeWhile_eq_nil_iff]
  intro hlen
  have hmem : ((strtol_sign (input.dropWhile isspace)).2).get ⟨0, hlen⟩ ∈ input :=
    (List.dropWhile_sublist _).subset
      (strtol_sign_suffix _ _ (List.get_mem _ _ _))
  have := h _ hmem
  simp_all

theorem uint8_cast_of_range (v : Int) (h0 : 0 ≤ v) (h1 : v ≤ 255) : uint8_cast v = v.toNat := by
  unfold uint8_cast
  rw [Int.emod_eq_of_lt h0 (by omega)]

/-- C23: `parse_uint8_t` validates its input to the range of `uint8_t`. For
every input string and every previous content of `*output`: when the input has
the base-10 integer value `v` (as `strtol` reads it: optional white space, an
optional sign, then the longest run of decimal digits) and `0 <= v <= 255`, it
returns 0 and stores `v`, unchanged; when `v` is negative or above 255, and when
the input has no such value, it returns 1 and leaves `*output` as it was. In
particular it returns 0 exactly when the value exists and lies in `0..255`, and
an input without any digit is rejected. -/
theorem parse_uint8_t_validates (input : List Char) (output : Nat) :
    parse_uint8_t input output =
      (match spec_integer_value input with
        | some v => if 0 ≤ v ∧ v ≤ 255 then (0, v.toNat) else (1, output)
        | none => (1, output)) ∧
    ((parse_uint8_t input output).1 = 0 ↔
      ∃ v, spec_integer_value input = some v ∧ 0 ≤ v ∧ v ≤ 255) ∧
    ((∀ c ∈ input, isdigit c = false) → parse_uint8_t input output = (1, output)) := by
  have key : parse_uint8_t input output =
      (match spec_integer_value input with
        | some v => if 0 ≤ v ∧ v ≤ 255 then (0, v.toNat) else (1, output)
        | none => (1, output)) := by
    unfold parse_uint8_t strtol spec_integer_value
    simp only [UINT8_MAX, LONG_MAX, LONG_MIN]
    by_cases hd : (strtol_sign (input.dropWhile isspace)).2.takeWhile isdigit = []
    · simp [hd]
    · have hlen : 0 < ((strtol_sign (input.dropWhile isspace)).2.takeWhile isdigit).length :=
        List.length_pos.mpr hd
      simp only [hd, if_false]
      cases hneg : (strtol_sign (input.dropWhile isspace)).1
      · simp only [Bool.false_eq_true, if_false]
        split_ifs <;> first | omega | simp_all [uint8_cast_of_range]
      · simp only [if_true]
        split_ifs <;> first | omega | simp_all [uint8_cast_of_range]
  refine ⟨key, ?_, ?_⟩
  · rw [key]
    cases hv : spec_integer_value input with
    | none => simp
    | some v =>
      simp only
      split_ifs with h
      · simp [h]
      · simp only [Option.some.injEq, exists_eq_left']
        constructor
        · intro h1
          exact absurd h1 (by decide)
        · intro h1
          exact absurd h1 h
  · intro h
    rw [key]
    have hd := strtol_no_digit input h
    simp [spec_integer_value, hd]

/-- A run of C23: `abc` holds no digit and is rejected, `200` is accepted
unchanged, `255` is accepted, `256`, `-1` and the empty string are rejected, and
`12x` is read as 12, the characters after the digits being ignored. -/
theorem parse_uint8_t_validates_witness :
    parse_uint8_t ['a', 'b', 'c'] 20 = (1, 20) ∧
    parse_uint8_t ['2', '0', '0'] 20 = (0, 200) ∧
    parse_uint8_t ['2', '5', '5'] 20 = (0, 255) ∧
    parse_uint8_t ['2', '5', '6'] 20 = (1, 20) ∧
    parse_uint8_t ['-', '1'] 20 = (1, 20) ∧
    parse_uint8_t [] 20 = (1, 20) ∧
    parse_uint8_t ['1', '2', 'x'] 20 = (0, 12) :=
  ⟨(parse_uint8_t_validates ['a', 'b', 'c'] 20).2.2 (by decide),
    (parse_uint8_t_validates ['2', '0', '0'] 20).1.trans (by decide),
    (parse_uint8_t_validates ['2', '5', '5'] 20).1.trans (by decide),
    (parse_uint8_t_validates ['2', '5', '6'] 20).1.trans (by decide),
    (parse_uint8_t_validates ['-', '1'] 20).1.trans (by decide),
    (parse_uint8_t_validates [] 20).1.trans (by decide),
    (parse_uint8_t_validates ['1', '2', 'x'] 20).1.trans (by decide)⟩

/-! ### Errors of the command line -/

/-- C24, the code at the failing input: for the command line
`-c abc -t 40` the value of `-c` is rejected by `parse_uint8_t`, yet
`parse_args` returns 0, because the accepted `-t 40` that follows overwrites
`err`; the same holds for an unknown option followed by `-t 40`, and for a
rejected `-t` followed by an accepted `-c`. With the rejected or unknown option
in the last place `parse_args` returns 1. -/
theorem parse_args_error_overwritten :
    parse_uint8_t ['a', 'b', 'c'] default_config.DIM_PERCENT_INTERVAL = (1, 20) ∧
    parse_args [getopt_t.opt_c ['a', 'b', 'c'], getopt_t.opt_t ['4', '0']] default_config =
      (some 0, { DIM_PERCENT_INTERVAL := 20, DIM_PERCENT_TIMEOUT := 40 }) ∧
    parse_args [getopt_t.opt_other, getopt_t.opt_t ['4', '0']] default_config =
      (some 0, { DIM_PERCENT_INTERVAL := 20, DIM_PERCENT_TIMEOUT := 40 }) ∧
    parse_args [getopt_t.opt_t ['3', '0', '0'], getopt_t.opt_c ['1', '0']] default_config =
      (some 0, { DIM_PERCENT_INTERVAL := 10, DIM_PERCENT_TIMEOUT := 40 }) ∧
    parse_args [getopt_t.opt_t ['4', '0'], getopt_t.opt_c ['a', 'b', 'c']] default_config =
      (some 1, { DIM_PERCENT_INTERVAL := 20, DIM_PERCENT_TIMEOUT := 40 }) ∧
    parse_args [getopt_t.opt_t ['4', '0'], getopt_t.opt_other] default_config =
      (some 1, { DIM_PERCENT_INTERVAL := 20, DIM_PERCENT_TIMEOUT := 40 }) := by
  decide

/-! ### Targets above 100 and the initial event state -/

/-- C26: a configured target above 100 makes the handlers write nothing. For
every timeout target of at least 101 and every controller whose Get succeeds and
reports a current percent `c` in 1..100, `_event_loop_scrsvr_on_timeout` makes
the Get and no other controller call, stores the reading and returns `RET_OK`;
for every interval target of at least 101 and every event state whose stored
current percent is at most 100, `_event_loop_scrsvr_on_interval` makes no
controller call at all and returns `RET_OK`. -/
theorem target_above_100_no_write {σ : Type} (oh : Backend σ) (T I : Nat) (st : Teventstate)
    (dev dev1 : σ) (a c : Nat) (hT : 101 ≤ T) (hI : 101 ≤ I)
    (hget : oh OPERATION_GETBRIGHTNESS 0 dev = (HandlerResult.returned true (some (a, c)), dev1))
    (hc1 : 1 ≤ c) (hc : c ≤ 100) (hst : st.brn_cur_perc ≤ 100) :
    _event_loop_scrsvr_on_timeout (logged oh) T st (dev, []) =
      ⟨some RET_OK, { st with brn_priorscrsvr_perc := a, brn_cur_perc := c },
        (dev1, [(OPERATION_GETBRIGHTNESS, 0)])⟩ ∧
    (_event_loop_scrsvr_on_interval (logged oh) I st (dev, [])).code = some RET_OK ∧
    (_event_loop_scrsvr_on_interval (logged oh) I st (dev, [])).backend = (dev, []) := by
  have hc0 : c ≠ 0 := by omega
  have hlt : c < T := by omega
  have hlt2 : st.brn_cur_perc < I := by omega
  refine ⟨?_, ?_, ?_⟩
  · simp [_event_loop_scrsvr_on_timeout, _event_loop_scrsvr_on_timeout_dim, logged, hget,
      store_prior_cur, hc0, hlt]
  · cases hl : st.brn_interval_set <;> simp [_event_loop_scrsvr_on_interval, hl, hlt2]
  · cases hl : st.brn_interval_set <;> simp [_event_loop_scrsvr_on_interval, hl, hlt2]

/-- A run of C26: on a sysfs backlight at 128 of 255 (50%), with the timeout and
interval targets 101 and 255, neither handler writes: the record of written
values stays empty. -/
theorem target_above_100_no_write_witness :
    _operation_handler_file OPERATION_GETBRIGHTNESS 0 scenario_a_files
      = (HandlerResult.returned true (some (50, 50)), scenario_a_files) ∧
    _event_loop_scrsvr_on_timeout (logged _operation_handler_file) 101 scenario_d_state
        (scenario_a_files, []) =
      ⟨some RET_OK, { scenario_d_state with brn_priorscrsvr_perc := 50, brn_cur_perc := 50 },
        (scenario_a_files, [(OPERATION_GETBRIGHTNESS, 0)])⟩ ∧
    (_event_loop_scrsvr_on_interval (logged _operation_handler_file) 255 scenario_d_state
        (scenario_a_files, [])).backend = (scenario_a_files, []) ∧
    scenario_a_files.written = [] :=
  ⟨by decide,
    (target_above_100_no_write _operation_handler_file 101 255 scenario_d_state
      scenario_a_files scenario_a_files 50 50 (by decide) (by decide) (by decide) (by decide)
      (by decide) (by decide)).1,
    (target_above_100_no_write _operation_handler_file 101 255 scenario_d_state
      scenario_a_files scenario_a_files 50 50 (by decide) (by decide) (by decide) (by decide)
      (by decide) (by decide)).2.2,
    by decide⟩

/-- C27: `_event_loop_scrsvr_on_interval` decides from the stored current
percent alone. On the initial event state `gs_eventstate` (current percent 0,
prior percent `0xff`, latch false) and any interval target of at least 1, for
every controller and every state of the device, it makes no controller call,
returns `RET_OK` and changes nothing but the latch, which it sets. The reading
that `main` takes before the loop goes into locals: when that reading reports a
nonzero percent and the first event is classified `STATE_SCREENSAVER_ON_INTERVAL`,
the run of `main` has made the initial Get and no other controller call, and the
event state is `gs_eventstate` with the latch set. -/
theorem on_interval_initial_state {σ : Type} (oh : Backend σ) (I T : Nat) (g : Tglobalstate)
    (dev dev1 : σ)
    (a c ms_since_user_input timeout uninitialised : Nat) (hI : 1 ≤ I)
    (hget : oh OPERATION_GETBRIGHTNESS 0 dev = (HandlerResult.returned true (some (a, c)), dev1))
    (ha : a ≠ 0) (hidle : ms_since_user_input / 1000 ≠ timeout) :
    gs_eventstate =
      { brn_cur_perc := 0, brn_old_perc := 0, brn_priorscrsvr_perc := BRN_PRIORSCRSVR_UNDEFINED,
        brn_interval_set := false } ∧
    _event_loop_scrsvr_on_interval (logged oh) I gs_eventstate (dev, []) =
      ⟨some RET_OK, { gs_eventstate with brn_interval_set := true }, (dev, [])⟩ ∧
    main_initial_reading (logged oh) I T
        [screensaver_input XCB_SCREENSAVER_STATE_ON XCB_DPMS_DPMS_MODE_ON ms_since_user_input
          timeout] uninitialised g (dev, []) =
      ⟨LoopStatus.looping,
        (query_state g
          (screensaver_input XCB_SCREENSAVER_STATE_ON XCB_DPMS_DPMS_MODE_ON ms_since_user_input
            timeout).replies).2,
        { gs_eventstate with brn_interval_set := true },
        (dev1, [(OPERATION_GETBRIGHTNESS, 0)])⟩ := by
  have hlt : 0 < I := by omega
  refine ⟨rfl, ?_, ?_⟩
  · simp [_event_loop_scrsvr_on_interval, gs_eventstate, hlt]
  · simp [main_initial_reading, logged, hget, ha, event_loop, event_loop_iteration,
      screensaver_input, query_state, query_state_switch, XCB_SCREENSAVER_STATE_ON,
      XCB_DPMS_DPMS_MODE_ON, hidle, event_loop_switch, _event_loop_scrsvr_on_interval,
      gs_eventstate, hlt, RET_OK]

/-- A run of C27: a sysfs backlight at 204 of 255 (80%), interval target 20 and
an interval event 700 s after the last user input with a timeout of 600 s: the
stored current percent is 0, so nothing is written although the device is at
80%. -/
theorem on_interval_initial_state_witness :
    _operation_handler_file OPERATION_GETBRIGHTNESS 0 bright_files
      = (HandlerResult.returned true (some (80, 80)), bright_files) ∧
    _event_loop_scrsvr_on_interval (logged _operation_handler_file) 20 gs_eventstate
        (bright_files, []) =
      ⟨some RET_OK, { gs_eventstate with brn_interval_set := true }, (bright_files, [])⟩ ∧
    (main_initial_reading (logged _operation_handler_file) 20 40
        [screensaver_input XCB_SCREENSAVER_STATE_ON XCB_DPMS_DPMS_MODE_ON 700000 600] 0
        off_globalstate (bright_files, [])).backend =
      (bright_files, [(OPERATION_GETBRIGHTNESS, 0)]) :=
  ⟨by decide,
    (on_interval_initial_state _operation_handler_file 20 40 off_globalstate bright_files
      bright_files 80 80 700000 600 0 (by decide) (by decide) (by decide) (by decide)).2.1,
    by
      rw [(on_interval_initial_state _operation_handler_file 20 40 off_globalstate bright_files
        bright_files 80 80 700000 600 0 (by decide) (by decide) (by decide) (by decide)).2.2]⟩

/-! ### The range in which the 32-bit arithmetic is exact -/

theorem scaled_percent_bounds (min_abs max_abs : Int) (p : Nat) (h0 : 0 ≤ min_abs)
    (hrange : min_abs < max_abs) (hmax : max_abs ≤ 8421504) (hp : p ≤ 255) :
    0 ≤ (p : Int) * (max_abs - min_abs) ∧ (p : Int) * (max_abs - min_abs) ≤ 2147483520 ∧
    0 ≤ Int.tdiv ((p : Int) * (max_abs - min_abs)) 100 ∧
    Int.tdiv ((p : Int) * (max_abs - min_abs)) 100 ≤ 21474835 := by
  have hp0 : (0 : Int) ≤ (p : Int) := Int.ofNat_nonneg p
  have hp1 : (p : Int) ≤ 255 := by exact_mod_cast hp
  have h1 : 0 ≤ (p : Int) * (max_abs - min_abs) := Int.mul_nonneg hp0 (by omega)
  have h2 : (p : Int) * (max_abs - min_abs) ≤ 255 * 8421504 :=
    Int.mul_le_mul hp1 (by omega) (by omega) (by omega)
  rw [Int.tdiv_eq_ediv h1 (by decide)]
  omega

theorem unclamped_target_exact (operation : operations_t) (min_abs max_abs cur : Int) (p : Nat)
    (h0 : 0 ≤ min_abs) (hrange : min_abs < max_abs) (hmax : max_abs ≤ 8421504)
    (hlo : min_abs ≤ cur) (hhi : cur ≤ max_abs) (hp : p ≤ 255) :
    unclamped_target operation p min_abs max_abs cur
      = spec_target operation p min_abs max_abs cur := by
  have hb := scaled_percent_bounds min_abs max_abs p h0 hrange hmax hp
  have hd : wrap32 (max_abs - min_abs) = max_abs - min_abs :=
    wrap32_of_fits (by unfold fits32; omega)
  have hm : wrap32 ((p : Int) * (max_abs - min_abs)) = (p : Int) * (max_abs - min_abs) :=
    wrap32_of_fits (by unfold fits32; omega)
  cases operation <;>
    simp only [unclamped_target, spec_target, mul32, sub32, add32, hd, hm] <;>
    first
    | rfl
    | exact wrap32_of_fits (by unfold fits32; omega)

/-- C30: for every output with `0 <= min_abs < max_abs <= 8421504` and
`min_abs <= cur <= max_abs`, every operation and every percent `p <= 255`, the
intermediate values of the controller arithmetic, `p * (max_abs - min_abs)`,
`(cur - min_abs) * 100`, `min_abs + delta`, `cur + delta`, `cur - delta` and
`written * 100`, all lie in the signed 32-bit range, the target computed in
`int32_t` equals the target over the exact integers, and both controllers
return what the exact integer computation gives: the RandR controller on the
output, and the sysfs controller on the files holding `cur` and `max_abs`. -/
theorem arithmetic_exact_within_bound (operation : operations_t) (min_abs max_abs cur : Int)
    (p : Nat) (legacy : RandrProperty) (w : Bool) (atom : backlight_atom_t)
    (log : List (Nat × Int)) (flog : List Int)
    (h0 : 0 ≤ min_abs) (hrange : min_abs < max_abs) (hmax : max_abs ≤ 8421504)
    (hlo : min_abs ≤ cur) (hhi : cur ≤ max_abs) (hp : p ≤ 255) :
    fits32 ((p : Int) * (max_abs - min_abs)) ∧
    fits32 ((cur - min_abs) * 100) ∧
    fits32 (min_abs + Int.tdiv ((p : Int) * (max_abs - min_abs)) 100) ∧
    fits32 (cur + Int.tdiv ((p : Int) * (max_abs - min_abs)) 100) ∧
    fits32 (cur - Int.tdiv ((p : Int) * (max_abs - min_abs)) 100) ∧
    fits32 (spec_clamp (spec_target operation p min_abs max_abs cur) min_abs max_abs * 100) ∧
    unclamped_target operation p min_abs max_abs cur
      = spec_target operation p min_abs max_abs cur ∧
    (operation = OPERATION_GETBRIGHTNESS →
      _operation_handler_randr operation p
          (single_output_server (usable_property cur min_abs max_abs w) legacy atom log) =
        (HandlerResult.returned true
          (some (spec_percent min_abs max_abs cur, spec_percent min_abs max_abs cur)),
          single_output_server (usable_property cur min_abs max_abs w)
            legacy backlight_new_atom log) ∧
      _operation_handler_file operation p
          { brightness := some cur, max_brightness := some max_abs, writable := w,
            written := flog } =
        (HandlerResult.returned true
          (some (spec_percent 0 max_abs cur, spec_percent 0 max_abs cur)),
          { brightness := some cur, max_brightness := some max_abs, writable := w,
            written := flog })) ∧
    (operation ≠ OPERATION_GETBRIGHTNESS →
      _operation_handler_randr operation p
          (single_output_server (usable_property cur min_abs max_abs w) legacy atom log) =
        (HandlerResult.returned true
          (some (spec_percent min_abs max_abs cur,
            spec_new_percent min_abs max_abs
              (spec_clamp (spec_target operation p min_abs max_abs cur) min_abs max_abs))),
          single_output_server
            (usable_property
              (if w then
                spec_clamp (spec_target operation p min_abs max_abs cur) min_abs max_abs
              else cur)
              min_abs max_abs w)
            legacy backlight_new_atom
            (log ++ [(0, spec_clamp (spec_target operation p min_abs max_abs cur)
              min_abs max_abs)])) ∧
      _operation_handler_file operation p
          { brightness := some cur, max_brightness := some max_abs, writable := w,
            written := flog } =
        (HandlerResult.returned true
          (some (spec_percent 0 max_abs cur,
            spec_new_percent 0 max_abs
              (spec_clamp (spec_target operation p 0 max_abs cur) 0 max_abs))),
          { brightness := some (if w then
                spec_clamp (spec_target operation p 0 max_abs cur) 0 max_abs else cur),
            max_brightness := some max_abs, writable := w,
            written := flog ++ [spec_clamp (spec_target operation p 0 max_abs cur) 0 max_abs] })) := by
  have hb := scaled_percent_bounds min_abs max_abs p h0 hrange hmax hp
  have hcur : cur ≠ NO_BRIGHTNESS := by unfold NO_BRIGHTNESS; omega
  have h2 : fits32 ((cur - min_abs) * 100) := by unfold fits32; omega
  have h2f : fits32 (cur * 100) := by unfold fits32; omega
  have h4 : fits32 (min_abs * 100) := by unfold fits32; omega
  have h5 : fits32 (max_abs * 100) := by unfold fits32; omega
  have hcl := spec_clamp_bounds (spec_target operation p min_abs max_abs cur) min_abs max_abs
    (le_of_lt hrange)
  refine ⟨by unfold fits32; omega, h2, by unfold fits32; omega, by unfold fits32; omega,
    by unfold fits32; omega, by unfold fits32; omega,
    unclamped_target_exact operation min_abs max_abs cur p h0 hrange hmax hlo hhi hp, ?_, ?_⟩
  · intro hop
    subst hop
    exact ⟨randr_get_eq min_abs max_abs cur p legacy w atom log hcur hrange h2 h4 h5,
      file_get_eq cur max_abs p w flog hcur (by omega) h2f h5⟩
  · intro hop
    have e1 := unclamped_target_exact operation min_abs max_abs cur p h0 hrange hmax hlo hhi hp
    have e2 := unclamped_target_exact operation 0 max_abs cur p (le_refl 0) (by omega) hmax
      (by omega) hhi hp
    have r1 := randr_write_eq operation min_abs max_abs cur p legacy w atom log hop hcur hrange
      h2 h4 h5
    have r2 := file_write_eq operation cur max_abs p w flog hop hcur (by omega) h2f h5
    rw [e1] at r1
    rw [e2] at r2
    exact ⟨r1, r2⟩

/-- A run of C30 at the bound: range `[0, 8421504]`, the output at its maximum,
Set with percent 255: the product `255 * 8421504 = 2147483520` fits, the target
is clamped to 8421504 and the new percent is 100. -/
theorem arithmetic_exact_within_bound_witness :
    fits32 (((255 : Nat) : Int) * (8421504 - 0)) ∧
    unclamped_target OPERATION_SETBRIGHTNESS 255 0 8421504 8421504 = 21474835 ∧
    _operation_handler_file OPERATION_SETBRIGHTNESS 255
        { brightness := some 8421504, max_brightness := some 8421504, writable := true,
          written := [] } =
      (HandlerResult.returned true (some (100, 100)),
        { brightness := some 8421504, max_brightness := some 8421504, writable := true,
          written := [8421504] }) :=
  ⟨(arithmetic_exact_within_bound OPERATION_SETBRIGHTNESS 0 8421504 8421504 255
      missing_property true backlight_new_atom [] [] (by decide) (by decide) (by decide)
      (by decide) (by decide) (by decide)).1,
    (arithmetic_exact_within_bound OPERATION_SETBRIGHTNESS 0 8421504 8421504 255
      missing_property true backlight_new_atom [] [] (by decide) (by decide) (by decide)
      (by decide) (by decide) (by decide)).2.2.2.2.2.2.1.trans (by decide),
    ((arithmetic_exact_within_bound OPERATION_SETBRIGHTNESS 0 8421504 8421504 255
      missing_property true backlight_new_atom [] [] (by decide) (by decide) (by decide)
      (by decide) (by decide) (by decide)).2.2.2.2.2.2.2.2 (by decide)).2.trans (by decide)⟩

/-! ### The percent reported by Set -/

theorem set_new_percent_bounds (max_abs : Int) (p : Nat) (hmax : 0 < max_abs) (hp : p ≤ 100) :
    0 ≤ spec_set_abs 0 max_abs p ∧ spec_set_abs 0 max_abs p ≤ max_abs ∧
    spec_new_percent 0 max_abs (spec_set_abs 0 max_abs p) ≤ p ∧
    spec_percent 0 max_abs (spec_set_abs 0 max_abs p)
      = spec_new_percent 0 max_abs (spec_set_abs 0 max_abs p) ∧
    (100 ≤ max_abs →
      spec_new_percent 0 max_abs (spec_set_abs 0 max_abs p) = p ∨
      spec_new_percent 0 max_abs (spec_set_abs 0 max_abs p) + 1 = p) := by
  have hp0 : (0 : Int) ≤ (p : Int) := Int.ofNat_nonneg p
  have hp1 : (p : Int) ≤ 100 := by exact_mod_cast hp
  have hX0 : 0 ≤ (p : Int) * max_abs := Int.mul_nonneg hp0 (by omega)
  have hX1 : (p : Int) * max_abs ≤ 100 * max_abs :=
    Int.mul_le_mul_of_nonneg_right hp1 (by omega)
  have hW : spec_set_abs 0 max_abs p = (p : Int) * max_abs / 100 := by
    unfold spec_set_abs spec_clamp
    rw [sub_zero, Int.tdiv_eq_ediv hX0 (by decide)]
    omega
  have hW0 : 0 ≤ (p : Int) * max_abs / 100 := by omega
  have hW1 : (p : Int) * max_abs / 100 ≤ max_abs := by omega
  have hn := spec_new_percent_small max_abs ((p : Int) * max_abs / 100) hmax hW0 hW1
  have hq0 : 0 ≤ (p : Int) * max_abs / 100 * 100 / max_abs :=
    Int.ediv_nonneg (by omega) (by omega)
  have hq1 : (p : Int) * max_abs / 100 * 100 / max_abs ≤ (p : Int) :=
    Int.ediv_le_of_le_mul hmax (by omega)
  rw [hW]
  refine ⟨hW0, hW1, ?_, ?_, ?_⟩
  · rw [hn]
    omega
  · unfold spec_percent spec_new_percent
    rw [sub_zero, sub_zero]
  · intro h100
    have hq2 : (p : Int) - 1 ≤ (p : Int) * max_abs / 100 * 100 / max_abs := by
      apply Int.le_ediv_of_mul_le hmax
      have : ((p : Int) - 1) * max_abs = (p : Int) * max_abs - max_abs := by ring
      omega
    rw [hn]
    omega

/-- C28 (as amended): for every output with `min_abs = 0` and
`1 <= max_abs <= 21474836`, a current value in the range and every target
percent `p` in 0..100: Set(p) succeeds, the new percent it reports is at most
`p`, and a Get that follows a successful write reports that same percent, as
current and as new; if moreover `max_abs >= 100` the reported new percent is `p`
or `p - 1`. This holds for the sysfs controller and for the RandR controller on
a single output. -/
theorem set_reports_at_most_target (max_abs cur : Int) (p : Nat) (log : List Int)
    (legacy : RandrProperty) (atom : backlight_atom_t) (rlog : List (Nat × Int))
    (hmin : 1 ≤ max_abs) (hmax : max_abs ≤ 21474836) (hlo : 0 ≤ cur) (hhi : cur ≤ max_abs)
    (hp : p ≤ 100) :
    ∃ n : Nat,
      (_operation_handler_file OPERATION_SETBRIGHTNESS p
        { brightness := some cur, max_brightness := some max_abs, writable := true,
          written := log }).1 =
        HandlerResult.returned true (some (spec_percent 0 max_abs cur, n)) ∧
      (_operation_handler_file OPERATION_GETBRIGHTNESS 0
        (_operation_handler_file OPERATION_SETBRIGHTNESS p
          { brightness := some cur, max_brightness := some max_abs, writable := true,
            written := log }).2).1 =
        HandlerResult.returned true (some (n, n)) ∧
      (_operation_handler_randr OPERATION_SETBRIGHTNESS p
        (single_output_server (usable_property cur 0 max_abs true) legacy atom rlog)).1 =
        HandlerResult.returned true (some (spec_percent 0 max_abs cur, n)) ∧
      (_operation_handler_randr OPERATION_GETBRIGHTNESS 0
        (_operation_handler_randr OPERATION_SETBRIGHTNESS p
          (single_output_server (usable_property cur 0 max_abs true) legacy atom rlog)).2).1 =
        HandlerResult.returned true (some (n, n)) ∧
      n ≤ p ∧ (100 ≤ max_abs → n = p ∨ n + 1 = p) := by
  have hb := set_new_percent_bounds max_abs p (by omega) hp
  have hp0 : (0 : Int) ≤ (p : Int) := Int.ofNat_nonneg p
  have hp1 : (p : Int) ≤ 100 := by exact_mod_cast hp
  have hX0 : 0 ≤ (p : Int) * max_abs := Int.mul_nonneg hp0 (by omega)
  have hX1 : (p : Int) * max_abs ≤ 100 * max_abs :=
    Int.mul_le_mul_of_nonneg_right hp1 (by omega)
  have hcur : cur ≠ NO_BRIGHTNESS := by unfold NO_BRIGHTNESS; omega
  have hW : spec_set_abs 0 max_abs p ≠ NO_BRIGHTNESS := by unfold NO_BRIGHTNESS; omega
  have h1 : fits32 ((p : Int) * max_abs) := by unfold fits32; omega
  have h1r : fits32 ((p : Int) * (max_abs - 0)) := by rw [sub_zero]; exact h1
  have h2 : fits32 (cur * 100) := by unfold fits32; omega
  have h2r : fits32 ((cur - 0) * 100) := by rw [sub_zero]; exact h2
  have h4 : fits32 ((0 : Int) * 100) := by unfold fits32; omega
  have h5 : fits32 (max_abs * 100) := by unfold fits32; omega
  have h6 : fits32 (spec_set_abs 0 max_abs p * 100) := by unfold fits32; omega
  have h6r : fits32 ((spec_set_abs 0 max_abs p - 0) * 100) := by rw [sub_zero]; exact h6
  refine ⟨spec_new_percent 0 max_abs (spec_set_abs 0 max_abs p), ?_, ?_, ?_, ?_, hb.2.2.1,
    hb.2.2.2.2⟩
  · rw [file_set_eq cur max_abs p true log hcur (by omega) h1 h2 h5]
  · rw [file_set_eq cur max_abs p true log hcur (by omega) h1 h2 h5]
    simp only [if_true]
    rw [file_get_eq (spec_set_abs 0 max_abs p) max_abs 0 true _ hW (by omega) h6 h5,
      hb.2.2.2.1]
  · rw [randr_set_eq 0 max_abs cur p legacy true atom rlog hcur (by omega) h1r h2r h4 h5]
  · rw [randr_set_eq 0 max_abs cur p legacy true atom rlog hcur (by omega) h1r h2r h4 h5]
    simp only [if_true]
    rw [randr_get_eq 0 max_abs (spec_set_abs 0 max_abs p) 0 legacy true _ _ hW (by omega)
      h6r h4 h5, hb.2.2.2.1]

/-- A run of C28: on a sysfs backlight at 128 of 255, Set(40) writes 102 and
reports 40, and the following Get reports 40; on a backlight at 3 of 7, where
`max_abs` is below 100, Set(50) writes 3 and reports 42. -/
theorem set_reports_at_most_target_witness :
    (∃ n : Nat,
      (_operation_handler_file OPERATION_SETBRIGHTNESS 40
        { brightness := some 128, max_brightness := some 255, writable := true,
          written := [] }).1 =
        HandlerResult.returned true (some (spec_percent 0 255 128, n)) ∧
      (_operation_handler_file OPERATION_GETBRIGHTNESS 0
        (_operation_handler_file OPERATION_SETBRIGHTNESS 40
          { brightness := some 128, max_brightness := some 255, writable := true,
            written := [] }).2).1 =
        HandlerResult.returned true (some (n, n)) ∧
      (_operation_handler_randr OPERATION_SETBRIGHTNESS 40
        (single_output_server (usable_property 128 0 255 true) missing_property
          backlight_new_atom [])).1 =
        HandlerResult.returned true (some (spec_percent 0 255 128, n)) ∧
      (_operation_handler_randr OPERATION_GETBRIGHTNESS 0
        (_operation_handler_randr OPERATION_SETBRIGHTNESS 40
          (single_output_server (usable_property 128 0 255 true) missing_property
            backlight_new_atom [])).2).1 =
        HandlerResult.returned true (some (n, n)) ∧
      n ≤ 40 ∧ ((100 : Int) ≤ 255 → n = 40 ∨ n + 1 = 40)) ∧
    _operation_handler_file OPERATION_SETBRIGHTNESS 40
        { brightness := some 128, max_brightness := some 255, writable := true, written := [] } =
      (HandlerResult.returned true (some (50, 40)),
        { brightness := some 102, max_brightness := some 255, writable := true,
          written := [102] }) ∧
    _operation_handler_file OPERATION_SETBRIGHTNESS 50
        { brightness := some 3, max_brightness := some 7, writable := true, written := [] } =
      (HandlerResult.returned true (some (42, 42)),
        { brightness := some 3, max_brightness := some 7, writable := true, written := [3] }) :=
  ⟨set_reports_at_most_target 255 128 40 [] missing_property backlight_new_atom []
      (by decide) (by decide) (by decide) (by decide) (by decide),
    by decide, by decide⟩

/-- The input that refutes C28 as stated: an output with `min_abs = 0` and
`max_abs = 21474837 >= 100`, where `100 * max_abs` exceeds the signed 32-bit
range; Set(100) writes 0 and reports the new percent 0, which is neither 100 nor
99. -/
theorem set_reports_at_most_target_counterexample :
    _operation_handler_file OPERATION_SETBRIGHTNESS 100
        { brightness := some 5, max_brightness := some 21474837, writable := true,
          written := [] } =
      (HandlerResult.returned true (some (0, 0)),
        { brightness := some 0, max_brightness := some 21474837, writable := true,
          written := [0] }) ∧
    (_operation_handler_randr OPERATION_SETBRIGHTNESS 100
      (single_output_server (usable_property 5 0 21474837 true) missing_property
        backlight_new_atom [])).1 = HandlerResult.returned true (some (0, 0)) ∧
    ¬ ((0 : Nat) = 100 ∨ (0 : Nat) + 1 = 100) := by
  decide

/-! ### The sentinel of the prior percent -/

@[simp]
theorem store_old_cur_prior (st : Teventstate) (out : Option (Nat × Nat)) :
    (store_old_cur st out).brn_priorscrsvr_perc = st.brn_priorscrsvr_perc := by
  cases out <;> simp [store_old_cur]

theorem on_timeout_dim_prior {σ : Type} (oh : Backend σ) (T : Nat) (st : Teventstate)
    (dev : σ) :
    (_event_loop_scrsvr_on_timeout_dim oh T st dev).state.brn_priorscrsvr_perc
      = st.brn_priorscrsvr_perc := by
  unfold _event_loop_scrsvr_on_timeout_dim
  repeat' split
  all_goals simp

theorem on_timeout_prior {σ : Type} (oh : Backend σ) (T : Nat) (st : Teventstate)
    (dev dev1 : σ) (ret : Bool) (a c : Nat)
    (hget : oh OPERATION_GETBRIGHTNESS 0 dev = (HandlerResult.returned ret (some (a, c)), dev1)) :
    (_event_loop_scrsvr_on_timeout oh T st dev).state.brn_priorscrsvr_perc = a := by
  unfold _event_loop_scrsvr_on_timeout
  rw [hget]
  simp only [store_prior_cur]
  repeat' split
  all_goals (try dsimp only)
  all_goals simp [on_timeout_dim_prior]

theorem scrsvr_off_restoring_calls {σ : Type} (oh : Backend σ) (st : Teventstate)
    (dev dev1 dev2 : σ) (a c : Nat) (out2 : Option (Nat × Nat))
    (hprior : st.brn_priorscrsvr_perc ≠ BRN_PRIORSCRSVR_UNDEFINED)
    (hget : oh OPERATION_GETBRIGHTNESS 0 dev = (HandlerResult.returned true (some (a, c)), dev1))
    (hset : oh OPERATION_SETBRIGHTNESS (if c = 0 then 100 else st.brn_priorscrsvr_perc) dev1
      = (HandlerResult.returned true out2, dev2)) :
    (_event_loop_scrsvr_off (logged oh) st (dev, [])).code = some RET_OK ∧
    (_event_loop_scrsvr_off (logged oh) st (dev, [])).backend =
      (dev2, [(OPERATION_GETBRIGHTNESS, 0),
        (OPERATION_SETBRIGHTNESS, if c = 0 then 100 else st.brn_priorscrsvr_perc)]) := by
  by_cases hc : c = 0
  · subst hc
    simp only [if_true] at hset
    cases out2 <;> simp [_event_loop_scrsvr_off, logged, hget, hset, hprior, store_old_cur]
  · simp only [hc, if_false] at hset
    cases out2 <;> simp [_event_loop_scrsvr_off, logged, hget, hset, hprior, store_old_cur, hc]

/-- C29 (as amended): on an output with `min_abs < max_abs`, a current value
with `min_abs <= cur <= max_abs` other than -1, and `min_abs * 100`,
`max_abs * 100` and `(max_abs - min_abs) * 100` within the signed 32-bit range,
the percent that the initial Get of `_event_loop_scrsvr_on_timeout` stores into
the prior percent is `(cur - min_abs) * 100 / (max_abs - min_abs)`, at most 100
and so different from `0xff`, whatever the handler does afterwards; this holds
for the RandR controller on a single output and, with `min_abs = 0`, for the
sysfs controller. On the event state that the handler leaves, a
`_event_loop_scrsvr_off` whose Get and Set succeed returns `RET_OK` and makes
exactly the calls Get and Set, the Set with target 100 if the Get reports 0 and
with the stored prior percent otherwise. -/
theorem prior_sentinel_no_collision {σ : Type} (oh : Backend σ) (min_abs max_abs cur : Int)
    (legacy : RandrProperty) (w : Bool) (atom : backlight_atom_t) (log : List (Nat × Int))
    (T : Nat) (st : Teventstate) (dev dev1 dev2 : σ) (a c : Nat) (out2 : Option (Nat × Nat))
    (hrange : min_abs < max_abs) (hlo : min_abs ≤ cur) (hhi : cur ≤ max_abs)
    (hcur : cur ≠ NO_BRIGHTNESS)
    (h3 : fits32 ((max_abs - min_abs) * 100)) (h4 : fits32 (min_abs * 100))
    (h5 : fits32 (max_abs * 100))
    (hget : oh OPERATION_GETBRIGHTNESS 0 dev = (HandlerResult.returned true (some (a, c)), dev1))
    (hset : oh OPERATION_SETBRIGHTNESS (if c = 0 then 100 else spec_percent min_abs max_abs cur)
      dev1 = (HandlerResult.returned true out2, dev2)) :
    (_event_loop_scrsvr_on_timeout (logged _operation_handler_randr) T st
      (single_output_server (usable_property cur min_abs max_abs w) legacy atom log,
        [])).state.brn_priorscrsvr_perc = spec_percent min_abs max_abs cur ∧
    (min_abs = 0 → ∀ flog : List Int,
      (_event_loop_scrsvr_on_timeout (logged _operation_handler_file) T st
        ({ brightness := some cur, max_brightness := some max_abs, writable := w,
           written := flog }, [])).state.brn_priorscrsvr_perc
        = spec_percent min_abs max_abs cur) ∧
    spec_percent min_abs max_abs cur ≤ 100 ∧
    spec_percent min_abs max_abs cur ≠ BRN_PRIORSCRSVR_UNDEFINED ∧
    (_event_loop_scrsvr_off (logged oh)
      (_event_loop_scrsvr_on_timeout (logged _operation_handler_randr) T st
        (single_output_server (usable_property cur min_abs max_abs w) legacy atom log,
          [])).state (dev, [])).code = some RET_OK ∧
    (_event_loop_scrsvr_off (logged oh)
      (_event_loop_scrsvr_on_timeout (logged _operation_handler_randr) T st
        (single_output_server (usable_property cur min_abs max_abs w) legacy atom log,
          [])).state (dev, [])).backend =
      (dev2, [(OPERATION_GETBRIGHTNESS, 0),
        (OPERATION_SETBRIGHTNESS, if c = 0 then 100 else spec_percent min_abs max_abs cur)]) := by
  have hle := (spec_percent_in_range min_abs max_abs cur hrange hlo hhi).2
  have hne : spec_percent min_abs max_abs cur ≠ BRN_PRIORSCRSVR_UNDEFINED := by
    unfold BRN_PRIORSCRSVR_UNDEFINED
    omega
  have h2 : fits32 ((cur - min_abs) * 100) := by unfold fits32 at *; omega
  have hr : (_event_loop_scrsvr_on_timeout (logged _operation_handler_randr) T st
      (single_output_server (usable_property cur min_abs max_abs w) legacy atom log,
        [])).state.brn_priorscrsvr_perc = spec_percent min_abs max_abs cur := by
    apply on_timeout_prior (logged _operation_handler_randr) T st _
      (single_output_server (usable_property cur min_abs max_abs w) legacy backlight_new_atom
        log, [(OPERATION_GETBRIGHTNESS, 0)]) true _ (spec_percent min_abs max_abs cur)
    simp [logged, randr_get_eq min_abs max_abs cur 0 legacy w atom log hcur hrange h2 h4 h5]
  refine ⟨hr, ?_, hle, hne, ?_⟩
  · intro hmin flog
    subst hmin
    have h2f : fits32 (cur * 100) := by simpa using h2
    apply on_timeout_prior (logged _operation_handler_file) T st _
      ({ brightness := some cur, max_brightness := some max_abs, writable := w,
         written := flog }, [(OPERATION_GETBRIGHTNESS, 0)]) true _ (spec_percent 0 max_abs cur)
    simp [logged, file_get_eq cur max_abs 0 w flog hcur hrange h2f h5]
  · rw [← hr] at hset hne
    have hoff := scrsvr_off_restoring_calls oh _ dev dev1 dev2 a c out2 hne hget hset
    rw [hr] at hoff
    exact hoff

/-- A run of C29: a RandR output at 128 of `[0, 255]` and the timeout target 40:
the timeout handler stores the prior percent 50; the screensaver-off handler,
run afterwards on a sysfs backlight at 102 of 255, makes the calls Get and
Set(50). -/
theorem prior_sentinel_no_collision_witness :
    (_event_loop_scrsvr_on_timeout (logged _operation_handler_randr) 40 gs_eventstate
      (single_output_server (usable_property 128 0 255 true) missing_property
        backlight_new_atom [], [])).state.brn_priorscrsvr_perc = spec_percent 0 255 128 ∧
    spec_percent 0 255 128 = 50 ∧
    (_event_loop_scrsvr_off (logged _operation_handler_file)
      (_event_loop_scrsvr_on_timeout (logged _operation_handler_randr) 40 gs_eventstate
        (single_output_server (usable_property 128 0 255 true) missing_property
          backlight_new_atom [], [])).state (dimmed_files, [])).backend =
      ({ dimmed_files with brightness := some 127, written := [127] },
        [(OPERATION_GETBRIGHTNESS, 0),
          (OPERATION_SETBRIGHTNESS, if 40 = 0 then 100 else spec_percent 0 255 128)]) :=
  ⟨(prior_sentinel_no_collision _operation_handler_file 0 255 128 missing_property true
      backlight_new_atom [] 40 gs_eventstate dimmed_files dimmed_files
      { dimmed_files with brightness := some 127, written := [127] } 40 40 (some (40, 49))
      (by decide) (by decide) (by decide) (by decide) (by decide) (by decide) (by decide)
      (by decide) (by decide)).1,
    by decide,
    (prior_sentinel_no_collision _operation_handler_file 0 255 128 missing_property true
      backlight_new_atom [] 40 gs_eventstate dimmed_files dimmed_files
      { dimmed_files with brightness := some 127, written := [127] } 40 40 (some (40, 49))
      (by decide) (by decide) (by decide) (by decide) (by decide) (by decide) (by decide)
      (by decide) (by decide)).2.2.2.2.2⟩

/-- The input that refutes C29 as stated: an output with the range
`[0, 42500000]` at its maximum. The product `42500000 * 100` leaves the signed
32-bit range, the Get reports 255 percent, and the timeout handler, which
returns `RET_OK` after dimming to 40 percent, has stored 255 as prior percent:
the value of `BRN_PRIORSCRSVR_UNDEFINED`. The screensaver-off handler that
follows returns `RET_OK` after a Get alone, without a restoring Set. -/
theorem prior_sentinel_no_collision_counterexample :
    (0 : Int) < 42500000 ∧
    _operation_handler_file OPERATION_GETBRIGHTNESS 0 wide_files =
      (HandlerResult.returned true (some (255, 255)), wide_files) ∧
    (_operation_handler_randr OPERATION_GETBRIGHTNESS 0
      (single_output_server (usable_property 42500000 0 42500000 true) missing_property
        backlight_new_atom [])).1 = HandlerResult.returned true (some (255, 255)) ∧
    _event_loop_scrsvr_on_timeout (logged _operation_handler_file) 40 gs_eventstate
        (wide_files, []) =
      ⟨some RET_OK,
        { brn_cur_perc := 40, brn_old_perc := 255,
          brn_priorscrsvr_perc := BRN_PRIORSCRSVR_UNDEFINED, brn_interval_set := false },
        ({ wide_files with brightness := some 17000000, written := [17000000] },
          [(OPERATION_GETBRIGHTNESS, 0), (OPERATION_SETBRIGHTNESS, 40)])⟩ ∧
    _event_loop_scrsvr_off (logged _operation_handler_file)
        { brn_cur_perc := 40, brn_old_perc := 255,
          brn_priorscrsvr_perc := BRN_PRIORSCRSVR_UNDEFINED, brn_interval_set := false }
        ({ wide_files with brightness := some 17000000, written := [17000000] }, []) =
      ⟨some RET_OK,
        { brn_cur_perc := 40, brn_old_perc := 40,
          brn_priorscrsvr_perc := BRN_PRIORSCRSVR_UNDEFINED, brn_interval_set := false },
        ({ wide_files with brightness := some 17000000, written := [17000000] },
          [(OPERATION_GETBRIGHTNESS, 0)])⟩ := by
  decide

/-! ### The two controllers compared -/

/-- C25: the sysfs controller and the RandR controller compute the same result.
For a single output with the range `[0, max_abs]`, where `max_abs` is any
value other than -1 (so every `max_abs >= 0`), a current value other than -1,
every operation and every percent, `_operation_handler_file` on the files
holding `cur` and `max_abs` and `_operation_handler_randr` on the output end in
the same way (the same returned flag and the same reported percents, or both
killed by the division when `max_abs = 0`), hand the same absolute values to the
backend write, and leave the same brightness on the device. -/
theorem controllers_agree (operation : operations_t) (p : Nat) (max_abs cur : Int) (w : Bool)
    (legacy : RandrProperty) (atom : backlight_atom_t)
    (hmax1 : max_abs ≠ NO_BRIGHTNESS) (hcur : cur ≠ NO_BRIGHTNESS) :
    (_operation_handler_file operation p
      { brightness := some cur, max_brightness := some max_abs, writable := w,
        written := [] }).1 =
    (_operation_handler_randr operation p
      (single_output_server (usable_property cur 0 max_abs w) legacy atom [])).1 ∧
    (_operation_handler_randr operation p
      (single_output_server (usable_property cur 0 max_abs w) legacy atom [])).2.written =
    (_operation_handler_file operation p
      { brightness := some cur, max_brightness := some max_abs, writable := w,
        written := [] }).2.written.map (fun value_abs => (0, value_abs)) ∧
    (_operation_handler_randr operation p
      (single_output_server (usable_property cur 0 max_abs w) legacy atom [])).2.outputs.map
        (fun output => output.backlight_new.value) =
    [(_operation_handler_file operation p
      { brightness := some cur, max_brightness := some max_abs, writable := w,
        written := [] }).2.brightness] := by
  cases operation <;>
    simp only [single_output_server, usable_property, _operation_handler_randr,
      _operation_handler_randr_outputs, List.range_succ, List.range_zero, List.nil_append,
      get_brightness_randr, _get_brightness_randr, RandrOutput.property,
      _operation_handler_file, get_brightness_file, hcur, hmax1, if_false] <;>
    simp [hcur] <;>
    repeat' split
  all_goals (cases w <;> simp_all [set_brightness_randr, set_brightness_file,
    RandrOutput.property, RandrOutput.change_property])

/-- A run of C25: Set(40) at 128 of `[0, 255]`: both controllers return true,
report 50 and 40 percent and write 102; Decrease(10) at 128 of `[0, 0]`: both
are killed by the division. -/
theorem controllers_agree_witness :
    ((_operation_handler_file OPERATION_SETBRIGHTNESS 40
      { brightness := some 128, max_brightness := some 255, writable := true,
        written := [] }).1 =
    (_operation_handler_randr OPERATION_SETBRIGHTNESS 40
      (single_output_server (usable_property 128 0 255 true) missing_property
        backlight_new_atom [])).1 ∧
    (_operation_handler_randr OPERATION_SETBRIGHTNESS 40
      (single_output_server (usable_property 128 0 255 true) missing_property
        backlight_new_atom [])).2.written =
    (_operation_handler_file OPERATION_SETBRIGHTNESS 40
      { brightness := some 128, max_brightness := some 255, writable := true,
        written := [] }).2.written.map (fun value_abs => (0, value_abs)) ∧
    (_operation_handler_randr OPERATION_SETBRIGHTNESS 40
      (single_output_server (usable_property 128 0 255 true) missing_property
        backlight_new_atom [])).2.outputs.map
        (fun output => output.backlight_new.value) =
    [(_operation_handler_file OPERATION_SETBRIGHTNESS 40
      { brightness := some 128, max_brightness := some 255, writable := true,
        written := [] }).2.brightness]) ∧
    _operation_handler_file OPERATION_SETBRIGHTNESS 40
        { brightness := some 128, max_brightness := some 255, writable := true, written := [] } =
      (HandlerResult.returned true (some (50, 40)),
        { brightness := some 102, max_brightness := some 255, writable := true,
          written := [102] }) ∧
    (_operation_handler_randr OPERATION_SETBRIGHTNESS 40
      (single_output_server (usable_property 128 0 255 true) missing_property
        backlight_new_atom [])).2.written = [(0, 102)] ∧
    (_operation_handler_file OPERATION_DECBRIGHTNESS 10
      { brightness := some 128, max_brightness := some 0, writable := true,
        written := [] }).1 = HandlerResult.trapped ∧
    (_operation_handler_randr OPERATION_DECBRIGHTNESS 10
      (single_output_server (usable_property 128 0 0 true) missing_property
        backlight_new_atom [])).1 = HandlerResult.trapped :=
  ⟨controllers_agree OPERATION_SETBRIGHTNESS 40 255 128 true missing_property
      backlight_new_atom (by decide) (by decide),
    by decide, by decide, by decide, by decide⟩

/-! ### The value handed to the backend write -/

end Brightnessd
